import Mathlib

/-!
# OrientView renderer: a shallow embedding of src/Renderer.cpp

The renderer is modelled by explicit state passing. Every member function of
the C++ class becomes a function from the renderer state (and the outcomes of
the external calls it makes) to the new renderer state. OpenGL and QPainter
calls are recorded, in the order they are issued, in the field calls of the
state.

Conventions.
* C++ double values are modelled by exact rationals. Integer values converted to
  double stay exact, and the conversion (int)x is truncation toward zero.
* Where the rounding of double arithmetic decides a property (the fit of a panel
  in the window, the position of the scissor rectangles), the computation is
  modelled a second time with the result of every operation rounded to binary64
  (section Binary64 arithmetic).
* Results of external calls (frame buffer allocation, shader compilation,
  location lookup, the stabilizer, sine and cosine) are parameters.
* Timing telemetry (the moving averages and the render timer) carries no
  information used by the drawing code and is left out of the state.
-/

namespace OrientView

/-! ## Numeric conversions -/

/-- The C++ conversion from double to int: truncation toward zero. -/
def truncToInt (q : ℚ) : Int :=
  if 0 ≤ q then ⌊q⌋ else ⌈q⌉

/-- The C++ conversion from double to size_t for a 64 bit size_t. The value is
truncated; a negative operand (undefined in C++) wraps around. -/
def toSizeT (q : ℚ) : Nat :=
  (truncToInt q % (2 ^ 64 : Int)).toNat

/-! ## Matrices (QMatrix4x4 and QMatrix) -/

/-- A 4x4 matrix, the value held by a QMatrix4x4. -/
abbrev Mat4 := Matrix (Fin 4) (Fin 4) ℚ

/-- Cosine and sine of an angle given in degrees, as used by the rotate
functions of Qt. They are external to the renderer. -/
structure Trig where
  cos : ℚ → ℚ
  sin : ℚ → ℚ

/-- The matrix that QMatrix4x4::ortho multiplies in. A degenerate box leaves the
matrix unchanged, which is multiplication by the identity. -/
def orthoMatrix (left right bottom top nearPlane farPlane : ℚ) : Mat4 :=
  if left = right ∨ bottom = top ∨ nearPlane = farPlane then 1
  else
    !![2 / (right - left), 0, 0, -(left + right) / (right - left);
       0, 2 / (top - bottom), 0, -(top + bottom) / (top - bottom);
       0, 0, -2 / (farPlane - nearPlane), -(nearPlane + farPlane) / (farPlane - nearPlane);
       0, 0, 0, 1]

/-- The matrix that QMatrix4x4::translate(x, y, z) multiplies in. -/
def translateMatrix (x y z : ℚ) : Mat4 :=
  !![1, 0, 0, x;
     0, 1, 0, y;
     0, 0, 1, z;
     0, 0, 0, 1]

/-- The matrix that QMatrix4x4::rotate(angle, 0, 0, 1) multiplies in. An angle of
zero returns early; the right angles are special cased by Qt. -/
def rotateMatrix (trig : Trig) (angle : ℚ) : Mat4 :=
  if angle = 0 then 1
  else
    let cs : ℚ × ℚ :=
      if angle = 90 ∨ angle = -270 then (0, 1)
      else if angle = -90 ∨ angle = 270 then (0, -1)
      else if angle = 180 ∨ angle = -180 then (-1, 0)
      else (trig.cos angle, trig.sin angle)
    !![cs.1, -cs.2, 0, 0;
       cs.2, cs.1, 0, 0;
       0, 0, 1, 0;
       0, 0, 0, 1]

/-- The matrix that QMatrix4x4::scale(factor) multiplies in. -/
def scaleMatrix (factor : ℚ) : Mat4 :=
  !![factor, 0, 0, 0;
     0, factor, 0, 0;
     0, 0, factor, 0;
     0, 0, 0, 1]

/-- QMatrix4x4::ortho: multiply this matrix by the orthographic projection. -/
def Mat4.ortho (m : Mat4) (left right bottom top nearPlane farPlane : ℚ) : Mat4 :=
  m * orthoMatrix left right bottom top nearPlane farPlane

/-- QMatrix4x4::translate: multiply this matrix by a translation. -/
def Mat4.translate (m : Mat4) (x y z : ℚ) : Mat4 :=
  m * translateMatrix x y z

/-- QMatrix4x4::rotate about the z axis: multiply this matrix by a rotation. -/
def Mat4.rotate (m : Mat4) (trig : Trig) (angle : ℚ) : Mat4 :=
  m * rotateMatrix trig angle

/-- QMatrix4x4::scale: multiply this matrix by a uniform scaling. -/
def Mat4.scale (m : Mat4) (factor : ℚ) : Mat4 :=
  m * scaleMatrix factor

/-- The 2D affine matrix QMatrix: a point (x, y) is sent to
(m11*x + m21*y + dx, m12*x + m22*y + dy). -/
structure QMatrix where
  m11 : ℚ
  m12 : ℚ
  m21 : ℚ
  m22 : ℚ
  dx : ℚ
  dy : ℚ

/-- The identity QMatrix, the value of a default constructed one. -/
def QMatrix.identity : QMatrix :=
  { m11 := 1, m12 := 0, m21 := 0, m22 := 1, dx := 0, dy := 0 }

/-- QMatrix::translate. -/
def QMatrix.translate (m : QMatrix) (dx dy : ℚ) : QMatrix :=
  { m with dx := m.dx + (dx * m.m11 + dy * m.m21),
           dy := m.dy + (dy * m.m22 + dx * m.m12) }

/-- QMatrix::scale. -/
def QMatrix.scale (m : QMatrix) (sx sy : ℚ) : QMatrix :=
  { m with m11 := m.m11 * sx, m12 := m.m12 * sx, m21 := m.m21 * sy, m22 := m.m22 * sy }

/-- QMatrix::rotate, with the right angles special cased as in Qt. -/
def QMatrix.rotate (m : QMatrix) (trig : Trig) (a : ℚ) : QMatrix :=
  let cs : ℚ × ℚ :=
    if a = 90 ∨ a = -270 then (0, 1)
    else if a = 270 ∨ a = -90 then (0, -1)
    else if a = 180 then (-1, 0)
    else (trig.cos a, trig.sin a)
  { m with m11 := cs.1 * m.m11 + cs.2 * m.m21,
           m12 := cs.1 * m.m12 + cs.2 * m.m22,
           m21 := -cs.2 * m.m11 + cs.1 * m.m21,
           m22 := -cs.2 * m.m12 + cs.1 * m.m22 }

/-! ## Data model -/

/-- The render mode: which panels are drawn. -/
inductive RenderMode where
  | ALL
  | VIDEO
  | MAP
  deriving DecidableEq, Repr

/-- The two panels owned by the renderer. -/
inductive PanelId where
  | video
  | map
  deriving DecidableEq, Repr

/-- The two offscreen render targets owned by the renderer. -/
inductive Target where
  | output
  | nonMultisample
  deriving DecidableEq, Repr

/-- An RGB colour (QColor). -/
structure QColor where
  red : Nat
  green : Nat
  blue : Nat
  deriving DecidableEq, Repr

/-- A shader program object: which stages have been carried out on it. -/
structure ShaderProgram where
  vertexAdded : Bool
  fragmentAdded : Bool
  linked : Bool
  deriving DecidableEq, Repr

/-- Modelled from the spec: the fields of Panel, whose declaration (Renderer.h) is
not among the sources. The numeric fields are doubles, as the casts and the
divisions of Renderer.cpp require; the location fields are ints. The vertex
buffer is represented by the values loaded into it and the texture by its size;
none is the null pointer. -/
structure Panel where
  program : Option ShaderProgram
  buffer : Option (List ℚ)
  texture : Option (Int × Int)
  vertexMatrix : Mat4
  clearColor : QColor
  clippingEnabled : Bool
  clearEnabled : Bool
  x : ℚ
  y : ℚ
  angle : ℚ
  scale : ℚ
  userX : ℚ
  userY : ℚ
  userAngle : ℚ
  userScale : ℚ
  textureWidth : ℚ
  textureHeight : ℚ
  texelWidth : ℚ
  texelHeight : ℚ
  relativeWidth : ℚ
  vertexMatrixUniform : Int
  vertexPositionAttribute : Int
  vertexTextureCoordinateAttribute : Int
  textureSamplerUniform : Int
  textureWidthUniform : Int
  textureHeightUniform : Int
  texelWidthUniform : Int
  texelHeightUniform : Int

/-- A QOpenGLFramebufferObject: its size, the sample count of its format and
whether its creation succeeded. -/
structure Fbo where
  width : Int
  height : Int
  samples : Int
  valid : Bool
  deriving DecidableEq, Repr

/-- Modelled from the spec: the fields of FrameData, whose declaration
(FrameData.h) is not among the sources: the owned pixel buffer, its length, the
row stride and the dimensions. The buffer is represented by its allocated
length; none is the null pointer. -/
structure FrameData where
  data : Option Nat
  dataLength : Nat
  rowLength : Nat
  width : Int
  height : Int
  deriving DecidableEq, Repr

/-- The value of a default constructed FrameData. -/
def FrameData.empty : FrameData :=
  { data := none, dataLength := 0, rowLength := 0, width := 0, height := 0 }

/-- One element of a QPainterPath, as added by moveTo and lineTo. -/
inductive PathElement where
  | moveTo (x y : ℚ)
  | lineTo (x y : ℚ)
  deriving DecidableEq, Repr

/-- The calls the renderer issues to OpenGL and to the painter. -/
inductive DrawCall where
  | bindTarget (t : Target)
  | releaseTarget (t : Target)
  | clearColor (c : QColor)
  | clearColorBuffer
  | enableScissor
  | scissor (x y width height : Int)
  | disableScissor
  | bindProgram (p : PanelId)
  | setMatrixUniform (location : Int) (m : Mat4)
  | setIntUniform (location : Int) (value : Int)
  | setFloatUniform (location : Int) (value : ℚ)
  | vertexAttribPointer (location : Int) (size : Nat) (offset : Nat)
  | drawTriangleFan (p : PanelId) (count : Nat)
  | releaseProgram (p : PanelId)
  | drawPath (clip : Option (Int × Int × Int × Int)) (m : QMatrix)
      (path : Option (List PathElement))
  | drawLine (x1 y1 x2 y2 : Int)
  | drawInfoPanel
  | blitFramebuffer (target source : Target) (width height : Int)
  | readPixels (source : Target) (width height : Int)

/-- Modelled from the spec: the fields of Renderer, whose declaration (Renderer.h)
is not among the sources. The window size is held as doubles. The list calls
records the OpenGL and painter calls issued so far, oldest first, and warnings
the messages passed to qWarning. -/
structure Renderer where
  videoPanel : Panel
  mapPanel : Panel
  renderMode : RenderMode
  windowWidth : ℚ
  windowHeight : ℚ
  multisamples : Int
  shouldFlipOutput : Bool
  isEncoding : Bool
  showInfoPanel : Bool
  fullClearRequested : Bool
  outputFramebuffer : Option Fbo
  outputFramebufferNonMultisample : Option Fbo
  renderedFrameData : FrameData
  routePath : Option (List PathElement)
  calls : List DrawCall
  warnings : List String

/-- The stabilizer values read during one video panel pass. -/
structure Stabilizer where
  getX : ℚ
  getY : ℚ
  getAngle : ℚ

/-! ## Window resizing -/

/-- The outcome of the two frame buffer allocations of one resizeWindow call:
whether each created object is valid, and the sample count that the format of a
target created with a given non-zero requested count reports. -/
structure ResizeEnv where
  outputValid : Bool
  nonMultisampleValid : Bool
  granted : Int → Int

/-- The sample count of the format of a created target: a request of zero gives
zero, any other request gives what the driver grants. -/
def grantedSamples (env : ResizeEnv) (requested : Int) : Int :=
  if requested = 0 then 0 else env.granted requested

/-- Renderer::resizeWindow. Returns the result and the new state. -/
def resizeWindow (env : ResizeEnv) (r : Renderer) (newWidth newHeight : Int) :
    Bool × Renderer :=
  let r1 : Renderer :=
    { r with windowWidth := (newWidth : ℚ), windowHeight := (newHeight : ℚ),
             fullClearRequested := true }
  let output : Fbo :=
    { width := truncToInt r1.windowWidth, height := truncToInt r1.windowHeight,
      samples := grantedSamples env r1.multisamples, valid := env.outputValid }
  let r2 : Renderer := { r1 with outputFramebuffer := some output }
  if !output.valid then
    (false, { r2 with warnings := r2.warnings ++ ["Could not create main frame buffer"] })
  else
    let resolve : Fbo :=
      { width := truncToInt r2.windowWidth, height := truncToInt r2.windowHeight,
        samples := grantedSamples env 0, valid := env.nonMultisampleValid }
    let r3 : Renderer := { r2 with outputFramebufferNonMultisample := some resolve }
    if !resolve.valid then
      (false, { r3 with warnings :=
        r3.warnings ++ ["Could not create non multisampled main frame buffer"] })
    else
      let dataLength := toSizeT (r3.windowWidth * r3.windowHeight * 4)
      let frame : FrameData :=
        { FrameData.empty with
            dataLength := dataLength,
            rowLength := toSizeT (r3.windowWidth * 4),
            data := some dataLength,
            width := truncToInt r3.windowWidth,
            height := truncToInt r3.windowHeight }
      (true, { r3 with renderedFrameData := frame })

/-! ## Shader loading -/

/-- The outcome of the external calls of one loadShaders call: whether each
compilation step succeeds, and the location found for each name (-1 when the
name is missing). -/
structure ShaderEnv where
  vertexOk : Bool
  fragmentOk : Bool
  linkOk : Bool
  uniformLocation : String → Int
  attributeLocation : String → Int

/-- The warning appended when a looked up location is -1. -/
def warnIfMissing (location : Int) (message : String) : List String :=
  if location = -1 then [message] else []

/-- Renderer::loadShaders. Returns the result, the updated panel and the
warnings issued. -/
def loadShaders (env : ShaderEnv) (panel : Panel) : Bool × Panel × List String :=
  let p0 : Panel :=
    { panel with program := some { vertexAdded := false, fragmentAdded := false, linked := false } }
  if !env.vertexOk then (false, p0, [])
  else
    let p1 : Panel :=
      { p0 with program := some { vertexAdded := true, fragmentAdded := false, linked := false } }
    if !env.fragmentOk then (false, p1, [])
    else
      let p2 : Panel :=
        { p1 with program := some { vertexAdded := true, fragmentAdded := true, linked := false } }
      if !env.linkOk then (false, p2, [])
      else
        let p3 : Panel :=
          { p2 with
              program := some { vertexAdded := true, fragmentAdded := true, linked := true },
              vertexMatrixUniform := env.uniformLocation "vertexMatrix",
              vertexPositionAttribute := env.attributeLocation "vertexPosition",
              vertexTextureCoordinateAttribute := env.attributeLocation "vertexTextureCoordinate",
              textureSamplerUniform := env.uniformLocation "textureSampler",
              textureWidthUniform := env.uniformLocation "textureWidth",
              textureHeightUniform := env.uniformLocation "textureHeight",
              texelWidthUniform := env.uniformLocation "texelWidth",
              texelHeightUniform := env.uniformLocation "texelHeight" }
        (true, p3,
          warnIfMissing p3.vertexMatrixUniform "Could not find vertexMatrix uniform"
          ++ warnIfMissing p3.vertexPositionAttribute "Could not find vertexPosition attribute"
          ++ warnIfMissing p3.vertexTextureCoordinateAttribute
              "Could not find vertexTextureCoordinate attribute"
          ++ warnIfMissing p3.textureSamplerUniform "Could not find textureSampler uniform")

/-! ## Drawing -/

/-- Append calls to the call record of the renderer. -/
def Renderer.issue (r : Renderer) (cs : List DrawCall) : Renderer :=
  { r with calls := r.calls ++ cs }

/-- The calls made by Renderer::renderPanel for one panel. A uniform is set only
when its location is not negative. -/
def renderPanel (id : PanelId) (panel : Panel) : List DrawCall :=
  [DrawCall.bindProgram id]
  ++ (if panel.vertexMatrixUniform ≥ 0 then
        [DrawCall.setMatrixUniform panel.vertexMatrixUniform panel.vertexMatrix] else [])
  ++ (if panel.textureSamplerUniform ≥ 0 then
        [DrawCall.setIntUniform panel.textureSamplerUniform 0] else [])
  ++ (if panel.textureWidthUniform ≥ 0 then
        [DrawCall.setFloatUniform panel.textureWidthUniform panel.textureWidth] else [])
  ++ (if panel.textureHeightUniform ≥ 0 then
        [DrawCall.setFloatUniform panel.textureHeightUniform panel.textureHeight] else [])
  ++ (if panel.texelWidthUniform ≥ 0 then
        [DrawCall.setFloatUniform panel.texelWidthUniform panel.texelWidth] else [])
  ++ (if panel.texelHeightUniform ≥ 0 then
        [DrawCall.setFloatUniform panel.texelHeightUniform panel.texelHeight] else [])
  ++ [DrawCall.vertexAttribPointer panel.vertexPositionAttribute 3 0,
      DrawCall.vertexAttribPointer panel.vertexTextureCoordinateAttribute 2 48,
      DrawCall.drawTriangleFan id 4,
      DrawCall.releaseProgram id]

/-- Renderer::renderRoute: draw the route path with a 2D matrix built from the
map panel placement, clipped to the map region unless the mode is MAP. -/
def renderRoute (trig : Trig) (r : Renderer) : Renderer :=
  let m0 := QMatrix.identity
  let m1 := m0.translate (r.windowWidth / 2 + r.mapPanel.x + r.mapPanel.userX)
    (r.windowHeight / 2 - r.mapPanel.y - r.mapPanel.userY)
  let m2 := m1.scale r.mapPanel.scale r.mapPanel.scale
  let m3 := m2.rotate trig (-(r.mapPanel.angle + r.mapPanel.userAngle))
  let clip : Option (Int × Int × Int × Int) :=
    if r.renderMode ≠ RenderMode.MAP then
      some (0, 0, truncToInt (r.mapPanel.relativeWidth * r.windowWidth + 1 / 2),
        truncToInt r.windowHeight)
    else none
  r.issue [DrawCall.drawPath clip m3 r.routePath]

/-- Renderer::renderInfoPanel: the telemetry overlay, recorded as one call. -/
def renderInfoPanel (r : Renderer) : Renderer :=
  r.issue [DrawCall.drawInfoPanel]

/-- The clear issued by a panel pass: set the clear colour, clear the colour
buffer. -/
def clearCalls (panel : Panel) : List DrawCall :=
  [DrawCall.clearColor panel.clearColor, DrawCall.clearColorBuffer]

/-- The projection step shared by both panel passes: reset to the identity, then
apply the orthographic projection, with top and bottom swapped when the output is
flipped. -/
def projection (r : Renderer) : Mat4 :=
  let identity : Mat4 := 1
  if !r.shouldFlipOutput then
    Mat4.ortho identity (-r.windowWidth / 2) (r.windowWidth / 2)
      (-r.windowHeight / 2) (r.windowHeight / 2) 0 1
  else
    Mat4.ortho identity (-r.windowWidth / 2) (r.windowWidth / 2)
      (r.windowHeight / 2) (-r.windowHeight / 2) 0 1

/-- Renderer::renderVideoPanel. -/
def renderVideoPanel (stab : Stabilizer) (trig : Trig) (r : Renderer) : Renderer :=
  let vp := r.videoPanel
  let m1 := projection r
  let videoPanelOffsetX : ℚ :=
    if r.renderMode ≠ RenderMode.VIDEO then
      0 + ((r.windowWidth / 2) - (((1 - r.mapPanel.relativeWidth) * r.windowWidth) / 2))
    else 0
  let scale0 : ℚ :=
    if r.renderMode ≠ RenderMode.VIDEO then
      ((1 - r.mapPanel.relativeWidth) * r.windowWidth) / vp.textureWidth
    else r.windowWidth / vp.textureWidth
  let scale1 : ℚ :=
    if scale0 * vp.textureHeight > r.windowHeight then r.windowHeight / vp.textureHeight
    else scale0
  let scale : ℚ := scale1 * vp.userScale
  let m2 := Mat4.translate m1
    (videoPanelOffsetX + vp.x + vp.userX + stab.getX * vp.textureWidth * scale)
    (vp.y + vp.userY - stab.getY * vp.textureHeight * scale)
    0
  let m3 := Mat4.rotate m2 trig (vp.angle + vp.userAngle - stab.getAngle)
  let m4 := Mat4.scale m3 scale
  let vp1 : Panel := { vp with scale := scale, vertexMatrix := m4 }
  let r1 : Renderer := { r with videoPanel := vp1 }
  let r2 : Renderer :=
    if r1.fullClearRequested then
      { r1.issue (clearCalls vp1) with fullClearRequested := false }
    else r1
  let r3 : Renderer :=
    if vp1.clippingEnabled then
      let videoPanelWidth := vp1.scale * vp1.textureWidth
      let videoPanelHeight := vp1.scale * vp1.textureHeight
      let leftMargin := (r2.windowWidth - videoPanelWidth) / 2
      let bottomMargin := (r2.windowHeight - videoPanelHeight) / 2
      r2.issue [DrawCall.enableScissor,
        DrawCall.scissor
          (truncToInt (leftMargin + videoPanelOffsetX + vp1.x + vp1.userX + 1 / 2))
          (truncToInt (bottomMargin + vp1.y + vp1.userY + 1 / 2))
          (truncToInt (videoPanelWidth + 1 / 2))
          (truncToInt (videoPanelHeight + 1 / 2))]
    else r2
  let r4 : Renderer := if vp1.clearEnabled then r3.issue (clearCalls vp1) else r3
  (r4.issue (renderPanel PanelId.video vp1)).issue [DrawCall.disableScissor]

/-- Renderer::renderMapPanel. -/
def renderMapPanel (trig : Trig) (r : Renderer) : Renderer :=
  let mp := r.mapPanel
  let m1 := projection r
  let scale0 : ℚ := r.windowWidth / mp.textureWidth
  let scale1 : ℚ :=
    if scale0 * mp.textureHeight > r.windowHeight then r.windowHeight / mp.textureHeight
    else scale0
  let scale : ℚ := scale1 * mp.userScale
  let m2 := Mat4.translate m1 (mp.x + mp.userX) (mp.y + mp.userY) 0
  let m3 := Mat4.rotate m2 trig (mp.angle + mp.userAngle)
  let m4 := Mat4.scale m3 scale
  let mp1 : Panel :=
    { mp with scale := scale, vertexMatrix := m4,
              clippingEnabled := decide (r.renderMode = RenderMode.ALL) }
  let r1 : Renderer := { r with mapPanel := mp1 }
  let mapBorderX : Int := truncToInt (mp1.relativeWidth * r1.windowWidth + 1 / 2)
  let r2 : Renderer :=
    if r1.fullClearRequested then
      { r1.issue (clearCalls mp1) with fullClearRequested := false }
    else r1
  let r3 : Renderer :=
    if mp1.clippingEnabled then
      r2.issue [DrawCall.enableScissor,
        DrawCall.scissor 0 0 mapBorderX (truncToInt r2.windowHeight)]
    else r2
  let r4 : Renderer := if mp1.clearEnabled then r3.issue (clearCalls mp1) else r3
  let r5 : Renderer :=
    (r4.issue (renderPanel PanelId.map mp1)).issue [DrawCall.disableScissor]
  let r6 : Renderer := renderRoute trig r5
  if mp1.clippingEnabled then
    r6.issue [DrawCall.drawLine mapBorderX 0 mapBorderX (truncToInt r6.windowHeight)]
  else r6

/-- Renderer::renderAll. -/
def renderAll (stab : Stabilizer) (trig : Trig) (r : Renderer) : Renderer :=
  let r1 : Renderer :=
    if r.isEncoding then r.issue [DrawCall.bindTarget Target.output] else r
  let r2 : Renderer :=
    if r1.renderMode = RenderMode.ALL ∨ r1.renderMode = RenderMode.VIDEO then
      renderVideoPanel stab trig r1
    else r1
  let r3 : Renderer :=
    if r2.renderMode = RenderMode.ALL ∨ r2.renderMode = RenderMode.MAP then
      renderMapPanel trig r2
    else r2
  let r4 : Renderer := if r3.showInfoPanel then renderInfoPanel r3 else r3
  if r4.isEncoding then r4.issue [DrawCall.releaseTarget Target.output] else r4

/-! ## Frame capture -/

/-- Renderer::getRenderedFrame. The result is none when the output target has
not been created (a null pointer in the source); otherwise the frame handed out
and the new state. -/
def getRenderedFrame (r : Renderer) : Option (FrameData × Renderer) :=
  match r.outputFramebuffer with
  | none => none
  | some sourceFbo =>
    let width := truncToInt r.windowWidth
    let height := truncToInt r.windowHeight
    let resolved : Renderer × Target :=
      if sourceFbo.samples ≠ 0 then
        (r.issue [DrawCall.blitFramebuffer Target.nonMultisample Target.output width height],
          Target.nonMultisample)
      else (r, Target.output)
    let r1 := resolved.1
    let source := resolved.2
    let r2 := r1.issue
      [DrawCall.bindTarget source,
       DrawCall.readPixels source width height,
       DrawCall.releaseTarget source]
    some (r2.renderedFrameData, r2)

/-! ## Setters -/

/-- Renderer::setRenderMode. -/
def setRenderMode (r : Renderer) (mode : RenderMode) : Renderer :=
  { r with renderMode := mode }

/-- Renderer::setFlipOutput. -/
def setFlipOutput (r : Renderer) (value : Bool) : Renderer :=
  { r with shouldFlipOutput := value }

/-- Renderer::setIsEncoding. -/
def setIsEncoding (r : Renderer) (value : Bool) : Renderer :=
  { r with isEncoding := value }

/-- Renderer::toggleShowInfoPanel. -/
def toggleShowInfoPanel (r : Renderer) : Renderer :=
  { r with showInfoPanel := !r.showInfoPanel }

/-- Renderer::requestFullClear. -/
def requestFullClear (r : Renderer) : Renderer :=
  { r with fullClearRequested := true }

/-! ## Initialization -/

/-- A 2D point (QPointF). -/
structure QPointF where
  x : ℚ
  y : ℚ
  deriving DecidableEq, Repr

/-- A point of the route read by QuickRouteReader. -/
structure RoutePoint where
  position : QPointF
  deriving DecidableEq, Repr

/-- The settings read by Renderer::initialize. -/
structure Settings where
  videoPanelScale : ℚ
  videoPanelBackgroundColor : QColor
  disableVideoClear : Bool
  mapPanelBackgroundColor : QColor
  mapPanelWidth : ℚ
  showInfoPanel : Bool
  multisamples : Int
  windowWidth : Int
  windowHeight : Int
  videoPanelShader : String
  mapPanelShader : String

/-- What Renderer::initialize receives from its collaborators: the video frame
size, the map image size and the route points. -/
structure InitInput where
  frameWidth : Int
  frameHeight : Int
  mapWidth : Int
  mapHeight : Int
  routePoints : List RoutePoint

/-- The outcomes of the external calls made during initialization: the frame
buffer allocations and, for each shader name, the shader loading outcomes. -/
structure InitEnv where
  resize : ResizeEnv
  shaders : String → ShaderEnv

/-- The vertex data of a panel: four corner positions of a quad of the texture
size centred on the origin, followed by four texture coordinates. -/
def panelBuffer (panel : Panel) : List ℚ :=
  [-panel.textureWidth / 2, panel.textureHeight / 2, 0,
   panel.textureWidth / 2, panel.textureHeight / 2, 0,
   panel.textureWidth / 2, -panel.textureHeight / 2, 0,
   -panel.textureWidth / 2, -panel.textureHeight / 2, 0,
   0, 0,
   1, 0,
   1, 1,
   0, 1]

/-- Renderer::loadBuffer. -/
def loadBuffer (panel : Panel) (buffer : List ℚ) (size : Nat) : Panel :=
  { panel with buffer := some (buffer.take size) }

/-- The loop of Renderer::initialize that fills the route path: index i runs over
the route points; the first point is added with moveTo, every other one with
lineTo, each with its y coordinate negated. With fewer than two points the loop
is not entered. -/
def buildRoutePath (routePoints : List RoutePoint) : List PathElement :=
  let routePointCount := routePoints.length
  if routePointCount ≥ 2 then
    (List.range routePointCount).foldl
      (fun path i =>
        match routePoints[i]? with
        | none => path
        | some rp =>
          let x := rp.position.x
          let y := -rp.position.y
          if i = 0 then path ++ [PathElement.moveTo x y]
          else path ++ [PathElement.lineTo x y])
      []
  else []

/-- Renderer::initialize. Returns the result and the new state. -/
def initializeRenderer (env : InitEnv) (input : InitInput) (settings : Settings)
    (r : Renderer) : Bool × Renderer :=
  let vp0 : Panel :=
    { r.videoPanel with
        textureWidth := (input.frameWidth : ℚ),
        textureHeight := (input.frameHeight : ℚ),
        texelWidth := 1 / (input.frameWidth : ℚ),
        texelHeight := 1 / (input.frameHeight : ℚ),
        userScale := settings.videoPanelScale,
        clearColor := settings.videoPanelBackgroundColor,
        clearEnabled := !settings.disableVideoClear }
  let mp0 : Panel :=
    { r.mapPanel with
        textureWidth := (input.mapWidth : ℚ),
        textureHeight := (input.mapHeight : ℚ),
        texelWidth := 1 / (input.mapWidth : ℚ),
        texelHeight := 1 / (input.mapHeight : ℚ),
        clearColor := settings.mapPanelBackgroundColor,
        relativeWidth := settings.mapPanelWidth }
  let r0 : Renderer :=
    { r with videoPanel := vp0, mapPanel := mp0,
             showInfoPanel := settings.showInfoPanel,
             multisamples := settings.multisamples }
  let resized := resizeWindow env.resize r0 settings.windowWidth settings.windowHeight
  if !resized.1 then (false, resized.2)
  else
    let r1 := resized.2
    let video := loadShaders (env.shaders settings.videoPanelShader) r1.videoPanel
    let r2 : Renderer :=
      { r1 with videoPanel := video.2.1, warnings := r1.warnings ++ video.2.2 }
    if !video.1 then (false, r2)
    else
      let map := loadShaders (env.shaders settings.mapPanelShader) r2.mapPanel
      let r3 : Renderer :=
        { r2 with mapPanel := map.2.1, warnings := r2.warnings ++ map.2.2 }
      if !map.1 then (false, r3)
      else
        let vp1 := loadBuffer r3.videoPanel (panelBuffer r3.videoPanel) 20
        let mp1 := loadBuffer r3.mapPanel (panelBuffer r3.mapPanel) 20
        let vp2 : Panel :=
          { vp1 with texture := some (truncToInt vp1.textureWidth, truncToInt vp1.textureHeight) }
        let mp2 : Panel := { mp1 with texture := some (input.mapWidth, input.mapHeight) }
        (true, { r3 with videoPanel := vp2, mapPanel := mp2,
                         routePath := some (buildRoutePath input.routePoints) })

/-! ## Observations on the call record -/

/-- Whether a call belongs to the map panel pass or to the route overlay: drawing
with the map panel program, drawing the route path, drawing the divider line. -/
def DrawCall.isMapOrRoute : DrawCall → Bool
  | DrawCall.bindProgram PanelId.map => true
  | DrawCall.drawTriangleFan PanelId.map _ => true
  | DrawCall.releaseProgram PanelId.map => true
  | DrawCall.drawPath _ _ _ => true
  | DrawCall.drawLine _ _ _ _ => true
  | _ => false

/-- Whether a call touches the resolve (non multisampled) target. -/
def DrawCall.usesResolveTarget : DrawCall → Bool
  | DrawCall.bindTarget Target.nonMultisample => true
  | DrawCall.releaseTarget Target.nonMultisample => true
  | DrawCall.blitFramebuffer Target.nonMultisample _ _ _ => true
  | DrawCall.blitFramebuffer _ Target.nonMultisample _ _ => true
  | DrawCall.readPixels Target.nonMultisample _ _ => true
  | _ => false

/-! ## Concrete states used to exercise the theorems -/

/-- A panel with a 3840x2160 texture, unit user scale and no offsets. -/
def samplePanel : Panel :=
  { program := none, buffer := none, texture := none,
    vertexMatrix := 1, clearColor := { red := 0, green := 0, blue := 0 },
    clippingEnabled := true, clearEnabled := true,
    x := 0, y := 0, angle := 0, scale := 1,
    userX := 0, userY := 0, userAngle := 0, userScale := 1,
    textureWidth := 3840, textureHeight := 2160,
    texelWidth := 1 / 3840, texelHeight := 1 / 2160,
    relativeWidth := 1 / 4,
    vertexMatrixUniform := 0, vertexPositionAttribute := 0,
    vertexTextureCoordinateAttribute := 1, textureSamplerUniform := 1,
    textureWidthUniform := -1, textureHeightUniform := -1,
    texelWidthUniform := -1, texelHeightUniform := -1 }

/-- A renderer in mode VIDEO with a 1920x1080 window and no render targets. -/
def sampleRenderer : Renderer :=
  { videoPanel := samplePanel, mapPanel := samplePanel,
    renderMode := RenderMode.VIDEO,
    windowWidth := 1920, windowHeight := 1080,
    multisamples := 0, shouldFlipOutput := false, isEncoding := false,
    showInfoPanel := false, fullClearRequested := false,
    outputFramebuffer := none, outputFramebufferNonMultisample := none,
    renderedFrameData := FrameData.empty, routePath := none,
    calls := [], warnings := [] }

/-- A stabilizer reporting no correction. -/
def stillStabilizer : Stabilizer :=
  { getX := 0, getY := 0, getAngle := 0 }

/-- A stand-in for cosine and sine, exact at angle zero. -/
def sampleTrig : Trig :=
  { cos := fun _ => 1, sin := fun _ => 0 }

/-- Cosine and sine that are exact at the multiples of 90 degrees between -270 and
270 and take the values of angle zero elsewhere. -/
def rightAngleTrig : Trig :=
  { cos := fun t =>
      if t = 180 ∨ t = -180 then -1
      else if t = 90 ∨ t = -90 ∨ t = 270 ∨ t = -270 then 0
      else 1,
    sin := fun t =>
      if t = 90 ∨ t = -270 then 1
      else if t = -90 ∨ t = 270 then -1
      else 0 }

/-- The sample renderer in mode ALL with its map panel turned by 180 degrees. -/
def turnedRenderer : Renderer :=
  { sampleRenderer with
      renderMode := RenderMode.ALL,
      mapPanel := { samplePanel with angle := 180 } }

/-- Frame buffer allocations that both succeed and grant the requested sample
count. -/
def goodResizeEnv : ResizeEnv :=
  { outputValid := true, nonMultisampleValid := true, granted := fun n => n }

/-- Frame buffer allocations in which the output target cannot be created. -/
def failingResizeEnv : ResizeEnv :=
  { outputValid := false, nonMultisampleValid := true, granted := fun n => n }

/-- A shader that compiles and links but declares none of the looked up names:
every location is -1. -/
def bareShaderEnv : ShaderEnv :=
  { vertexOk := true, fragmentOk := true, linkOk := true,
    uniformLocation := fun _ => -1, attributeLocation := fun _ => -1 }

/-- Settings for a 640x480 window without multisampling. -/
def sampleSettings : Settings :=
  { videoPanelScale := 1,
    videoPanelBackgroundColor := { red := 0, green := 0, blue := 0 },
    disableVideoClear := false,
    mapPanelBackgroundColor := { red := 255, green := 255, blue := 255 },
    mapPanelWidth := 1 / 4,
    showInfoPanel := true,
    multisamples := 0,
    windowWidth := 640, windowHeight := 480,
    videoPanelShader := "default", mapPanelShader := "default" }

/-- Collaborator data with the three point route (0,0), (10,0), (10,10). -/
def sampleInput : InitInput :=
  { frameWidth := 1280, frameHeight := 720, mapWidth := 2000, mapHeight := 1000,
    routePoints :=
      [{ position := { x := 0, y := 0 } },
       { position := { x := 10, y := 0 } },
       { position := { x := 10, y := 10 } }] }

/-- Initialization outcomes in which every allocation succeeds and every shader
compiles and links without declaring any of the looked up names. -/
def bareInitEnv : InitEnv :=
  { resize := goodResizeEnv, shaders := fun _ => bareShaderEnv }

/-- Initialization outcomes in which the output target cannot be created. -/
def failingInitEnv : InitEnv :=
  { resize := failingResizeEnv, shaders := fun _ => bareShaderEnv }

/-- The route path as the specification words it: with at least two points, a moveTo
to the first point followed by a lineTo to each later point, in order, every point
(x, y) taken as (x, -y); with fewer than two points, the empty path. -/
def routePathSpec : List RoutePoint → List PathElement
  | first :: second :: rest =>
    PathElement.moveTo first.position.x (-first.position.y) ::
      (second :: rest).map (fun p => PathElement.lineTo p.position.x (-p.position.y))
  | _ => []

/-- The path through a list of points: the first one reached by moveTo, every later
one by lineTo, each with its y coordinate negated. -/
def polyline : List RoutePoint → List PathElement
  | [] => []
  | first :: rest =>
    PathElement.moveTo first.position.x (-first.position.y) ::
      rest.map (fun p => PathElement.lineTo p.position.x (-p.position.y))

/-- The horizontal offset of the video panel as the specification words it: half of
the width reserved for the map unless the mode is VIDEO, and zero in mode VIDEO. -/
def videoOffsetSpec (r : Renderer) : ℚ :=
  if r.renderMode = RenderMode.VIDEO then 0
  else r.mapPanel.relativeWidth * r.windowWidth / 2

/-- The orthographic projection matrix of a panel pass: the window box centred on
the origin, with top and bottom swapped when the output is flipped. -/
def orthoSpec (r : Renderer) : Mat4 :=
  if r.shouldFlipOutput then
    orthoMatrix (-r.windowWidth / 2) (r.windowWidth / 2)
      (r.windowHeight / 2) (-r.windowHeight / 2) 0 1
  else
    orthoMatrix (-r.windowWidth / 2) (r.windowWidth / 2)
      (-r.windowHeight / 2) (r.windowHeight / 2) 0 1

/-! ## Panel passes with no full clear pending -/

/-- The calls issued by the video panel pass when no full clear is pending. -/
def videoPassCalls (stab : Stabilizer) (trig : Trig) (r : Renderer) : List DrawCall :=
  (renderVideoPanel stab trig { r with calls := [], fullClearRequested := false }).calls

/-- The calls issued by the map panel pass, route overlay and divider line
included, when no full clear is pending. -/
def mapPassCalls (trig : Trig) (r : Renderer) : List DrawCall :=
  (renderMapPanel trig { r with calls := [], fullClearRequested := false }).calls

/-- The horizontal offset of the video panel, as computed by renderVideoPanel. -/
def videoOffsetX (r : Renderer) : ℚ :=
  if r.renderMode ≠ RenderMode.VIDEO then
    0 + ((r.windowWidth / 2) - (((1 - r.mapPanel.relativeWidth) * r.windowWidth) / 2))
  else 0

/-- The first half of renderVideoPanel: the video panel with its new scale and
vertex matrix. -/
def videoPanelNext (stab : Stabilizer) (trig : Trig) (r : Renderer) : Panel :=
  let vp := r.videoPanel
  let m1 := projection r
  let videoPanelOffsetX : ℚ :=
    if r.renderMode ≠ RenderMode.VIDEO then
      0 + ((r.windowWidth / 2) - (((1 - r.mapPanel.relativeWidth) * r.windowWidth) / 2))
    else 0
  let scale0 : ℚ :=
    if r.renderMode ≠ RenderMode.VIDEO then
      ((1 - r.mapPanel.relativeWidth) * r.windowWidth) / vp.textureWidth
    else r.windowWidth / vp.textureWidth
  let scale1 : ℚ :=
    if scale0 * vp.textureHeight > r.windowHeight then r.windowHeight / vp.textureHeight
    else scale0
  let scale : ℚ := scale1 * vp.userScale
  let m2 := Mat4.translate m1
    (videoPanelOffsetX + vp.x + vp.userX + stab.getX * vp.textureWidth * scale)
    (vp.y + vp.userY - stab.getY * vp.textureHeight * scale)
    0
  let m3 := Mat4.rotate m2 trig (vp.angle + vp.userAngle - stab.getAngle)
  let m4 := Mat4.scale m3 scale
  { vp with scale := scale, vertexMatrix := m4 }

/-- The second half of renderVideoPanel: the clears, the scissor rectangle and the
draw, for a given horizontal offset and updated panel. -/
def videoDraw (videoPanelOffsetX : ℚ) (vp1 : Panel) (r1 : Renderer) : Renderer :=
  let r2 : Renderer :=
    if r1.fullClearRequested then
      { r1.issue (clearCalls vp1) with fullClearRequested := false }
    else r1
  let r3 : Renderer :=
    if vp1.clippingEnabled then
      let videoPanelWidth := vp1.scale * vp1.textureWidth
      let videoPanelHeight := vp1.scale * vp1.textureHeight
      let leftMargin := (r2.windowWidth - videoPanelWidth) / 2
      let bottomMargin := (r2.windowHeight - videoPanelHeight) / 2
      r2.issue [DrawCall.enableScissor,
        DrawCall.scissor
          (truncToInt (leftMargin + videoPanelOffsetX + vp1.x + vp1.userX + 1 / 2))
          (truncToInt (bottomMargin + vp1.y + vp1.userY + 1 / 2))
          (truncToInt (videoPanelWidth + 1 / 2))
          (truncToInt (videoPanelHeight + 1 / 2))]
    else r2
  let r4 : Renderer := if vp1.clearEnabled then r3.issue (clearCalls vp1) else r3
  (r4.issue (renderPanel PanelId.video vp1)).issue [DrawCall.disableScissor]

/-- The first half of renderMapPanel: the map panel with its new scale, vertex
matrix and clipping flag. -/
def mapPanelNext (trig : Trig) (r : Renderer) : Panel :=
  let mp := r.mapPanel
  let m1 := projection r
  let scale0 : ℚ := r.windowWidth / mp.textureWidth
  let scale1 : ℚ :=
    if scale0 * mp.textureHeight > r.windowHeight then r.windowHeight / mp.textureHeight
    else scale0
  let scale : ℚ := scale1 * mp.userScale
  let m2 := Mat4.translate m1 (mp.x + mp.userX) (mp.y + mp.userY) 0
  let m3 := Mat4.rotate m2 trig (mp.angle + mp.userAngle)
  let m4 := Mat4.scale m3 scale
  { mp with scale := scale, vertexMatrix := m4,
            clippingEnabled := decide (r.renderMode = RenderMode.ALL) }

/-- The second half of renderMapPanel: the clears, the scissor rectangle, the draw,
the route overlay and the divider line, for a given updated panel. -/
def mapDraw (trig : Trig) (mp1 : Panel) (r1 : Renderer) : Renderer :=
  let mapBorderX : Int := truncToInt (mp1.relativeWidth * r1.windowWidth + 1 / 2)
  let r2 : Renderer :=
    if r1.fullClearRequested then
      { r1.issue (clearCalls mp1) with fullClearRequested := false }
    else r1
  let r3 : Renderer :=
    if mp1.clippingEnabled then
      r2.issue [DrawCall.enableScissor,
        DrawCall.scissor 0 0 mapBorderX (truncToInt r2.windowHeight)]
    else r2
  let r4 : Renderer := if mp1.clearEnabled then r3.issue (clearCalls mp1) else r3
  let r5 : Renderer :=
    (r4.issue (renderPanel PanelId.map mp1)).issue [DrawCall.disableScissor]
  let r6 : Renderer := renderRoute trig r5
  if mp1.clippingEnabled then
    r6.issue [DrawCall.drawLine mapBorderX 0 mapBorderX (truncToInt r6.windowHeight)]
  else r6

/-- The call issued by renderRoute: the route path drawn with the 2D matrix and the
clip rectangle computed from the state. -/
def routeCalls (trig : Trig) (r : Renderer) : List DrawCall :=
  (renderRoute trig { r with calls := [] }).calls

/-- The state of the scissor test after a list of calls, given its state before:
enabling and disabling set it, every other call leaves it as it is. -/
def scissorAfter (enabled : Bool) : List DrawCall → Bool
  | [] => enabled
  | DrawCall.enableScissor :: rest => scissorAfter true rest
  | DrawCall.disableScissor :: rest => scissorAfter false rest
  | _ :: rest => scissorAfter enabled rest

/-- The calls of the panel passes selected by the mode, run with no full clear
pending: the video pass in modes ALL and VIDEO, then the map pass in modes ALL and
MAP. -/
def panelPassCalls (stab : Stabilizer) (trig : Trig) (r : Renderer) : List DrawCall :=
  (if r.renderMode = RenderMode.ALL ∨ r.renderMode = RenderMode.VIDEO then
      videoPassCalls stab trig r else [])
  ++ (if r.renderMode = RenderMode.ALL ∨ r.renderMode = RenderMode.MAP then
      mapPassCalls trig r else [])

/-- The panel of the first pass that runs in a frame: the map panel in mode MAP, the
video panel in modes ALL and VIDEO. -/
def firstPanel (r : Renderer) : Panel :=
  if r.renderMode = RenderMode.MAP then r.mapPanel else r.videoPanel

/-- The number of per-frame colour clears of a frame: one for each pass that runs
with clearEnabled set. -/
def perFrameClears (r : Renderer) : Nat :=
  (if (r.renderMode = RenderMode.ALL ∨ r.renderMode = RenderMode.VIDEO)
      ∧ r.videoPanel.clearEnabled = true then 1 else 0)
  + (if (r.renderMode = RenderMode.ALL ∨ r.renderMode = RenderMode.MAP)
      ∧ r.mapPanel.clearEnabled = true then 1 else 0)

/-- One call of resizeWindow: the allocation outcomes it meets and its two
arguments. -/
structure ResizeCall where
  env : ResizeEnv
  newWidth : Int
  newHeight : Int

/-- The state reached from r by a sequence of resizeWindow calls, whatever each of
them returns. -/
def resizeAll (r : Renderer) (calls : List ResizeCall) : Renderer :=
  calls.foldl (fun state c => (resizeWindow c.env state c.newWidth c.newHeight).2) r

/-- QMatrix::map: the image of the point (x, y). -/
def QMatrix.map (m : QMatrix) (x y : ℚ) : ℚ × ℚ :=
  (m.m11 * x + m.m21 * y + m.dx, m.m12 * x + m.m22 * y + m.dy)

/-- The position on screen of the quad vertex (px, py, 0) drawn with vertex matrix m
in a window of size W x H: the vertex matrix gives clip coordinates, division by w
gives normalized device coordinates, and the viewport set by startRendering,
glViewport(0, 0, windowWidth, windowHeight), gives window coordinates. The result
is expressed in the coordinates of the painter, whose origin is the top left corner
and whose y axis points down, where OpenGL measures y upward from the bottom. -/
def screenPosition (W H : ℚ) (m : Mat4) (px py : ℚ) : ℚ × ℚ :=
  let clip := m.mulVec ![px, py, 0, 1]
  let ndcX := clip 0 / clip 3
  let ndcY := clip 1 / clip 3
  ((ndcX + 1) * W / 2, H - (ndcY + 1) * H / 2)

/-- The 2D matrix of a drawPath call. -/
def DrawCall.pathMatrix : DrawCall → Option QMatrix
  | DrawCall.drawPath _ m _ => some m
  | _ => none

/-- The 2D matrices of the drawPath calls of a list of calls, in order. -/
def drawPathMatrices (calls : List DrawCall) : List QMatrix :=
  calls.filterMap DrawCall.pathMatrix

/-- Whether a call clears the colour buffer. -/
def DrawCall.isColorClear : DrawCall → Bool
  | DrawCall.clearColorBuffer => true
  | _ => false

/-! ## Binary64 arithmetic

The definitions above compute with exact rationals. The definitions of this section
compute the scale, the horizontal offset, the left edge of the video scissor
rectangle and the map border with the result of every arithmetic operation rounded,
in the order in which C++ evaluates the expressions of renderVideoPanel and
renderMapPanel. -/

/-- Rounding to the nearest integer, ties to the even one. -/
def roundHalfEven (y : ℚ) : Int :=
  if y - ⌊y⌋ < 1 / 2 then ⌊y⌋
  else if 1 / 2 < y - ⌊y⌋ then ⌊y⌋ + 1
  else if ⌊y⌋ % 2 = 0 then ⌊y⌋ else ⌊y⌋ + 1

/-- The spacing of the binary64 numbers around q: 2^(e-52) where 2^e <= |q| < 2^(e+1)
for a normal number, and 2^(-1074), the spacing of the subnormal numbers, below
2^(-1022). -/
def ulp (q : ℚ) : ℚ :=
  (2 : ℚ) ^ (max (Int.log 2 |q|) (-1022) - 52)

/-- The binary64 number nearest to q, ties to the even significand: the result of an
IEEE 754 double operation whose exact result is q, in the default rounding mode.
Subnormal results are rounded as the hardware does. Overflow to infinity (a
magnitude of 2^1024 or more) is not represented; the theorems below bound their
inputs so that it does not occur. -/
def roundDouble (q : ℚ) : ℚ :=
  if q = 0 then 0 else (roundHalfEven (q / ulp q) : ℚ) * ulp q

/-- The factor 1/(1 - 2^-53) by which one rounding can change a normal value. -/
def roundingFactor : ℚ := 2 ^ 53 / (2 ^ 53 - 1)

/-- Half the spacing of the subnormal numbers: the most by which one rounding can
change a value below 2^(-1022). -/
def underflowStep : ℚ := 1 / 2 ^ 1075

/-- The local videoPanelOffsetX of renderVideoPanel (lines 407-411), with the result
of every arithmetic operation passed through rnd. The identity gives the exact value
used by renderVideoPanel above; roundDouble gives the value computed in doubles,
each operation rounded on its own (no extended precision, no fused multiply-add). -/
def videoOffsetXRounded (rnd : ℚ → ℚ) (r : Renderer) : ℚ :=
  if r.renderMode ≠ RenderMode.VIDEO then
    rnd (0 + rnd (rnd (r.windowWidth / 2)
      - rnd (rnd (rnd (1 - r.mapPanel.relativeWidth) * r.windowWidth) / 2)))
  else 0

/-- The value of videoPanel.scale after lines 409-420 of renderVideoPanel, with the
result of every arithmetic operation passed through rnd. -/
def videoScaleRounded (rnd : ℚ → ℚ) (r : Renderer) : ℚ :=
  let vp := r.videoPanel
  let scale0 : ℚ :=
    if r.renderMode ≠ RenderMode.VIDEO then
      rnd (rnd (rnd (1 - r.mapPanel.relativeWidth) * r.windowWidth) / vp.textureWidth)
    else rnd (r.windowWidth / vp.textureWidth)
  let scale1 : ℚ :=
    if rnd (scale0 * vp.textureHeight) > r.windowHeight then
      rnd (r.windowHeight / vp.textureHeight)
    else scale0
  rnd (scale1 * vp.userScale)

/-- The value of mapPanel.scale after lines 470-475 of renderMapPanel, with the
result of every arithmetic operation passed through rnd. -/
def mapScaleRounded (rnd : ℚ → ℚ) (r : Renderer) : ℚ :=
  let mp := r.mapPanel
  let scale0 : ℚ := rnd (r.windowWidth / mp.textureWidth)
  let scale1 : ℚ :=
    if rnd (scale0 * mp.textureHeight) > r.windowHeight then
      rnd (r.windowHeight / mp.textureHeight)
    else scale0
  rnd (scale1 * mp.userScale)

/-- The first argument of the glScissor call of renderVideoPanel (lines 441-447),
(int)(leftMargin + videoPanelOffsetX + videoPanel.x + videoPanel.userX + 0.5), with
the result of every arithmetic operation passed through rnd. -/
def videoScissorXRounded (rnd : ℚ → ℚ) (r : Renderer) : Int :=
  let vp := r.videoPanel
  let videoPanelWidth := rnd (videoScaleRounded rnd r * vp.textureWidth)
  let leftMargin := rnd (rnd (r.windowWidth - videoPanelWidth) / 2)
  truncToInt
    (rnd (rnd (rnd (rnd (leftMargin + videoOffsetXRounded rnd r) + vp.x) + vp.userX) + 1 / 2))

/-- The local mapBorderX of renderMapPanel (line 483),
(int)(mapPanel.relativeWidth * windowWidth + 0.5), with the result of every
arithmetic operation passed through rnd. It is the width of the scissor rectangle of
the map pass and the x-coordinate of the divider line. -/
def mapBorderXRounded (rnd : ℚ → ℚ) (r : Renderer) : Int :=
  truncToInt (rnd (rnd (r.mapPanel.relativeWidth * r.windowWidth) + 1 / 2))

/-- A renderer in mode VIDEO with a 720x480 window and 2704x1520 textures. -/
def tightFitRenderer : Renderer :=
  { sampleRenderer with
      windowWidth := 720, windowHeight := 480,
      videoPanel := { samplePanel with textureWidth := 2704, textureHeight := 1520 },
      mapPanel := { samplePanel with textureWidth := 2704, textureHeight := 1520 } }

/-- A renderer in mode ALL with a 1298x730 window, a 1920x1080 video texture and a
map panel of relative width 1/4. -/
def overlapRenderer : Renderer :=
  { sampleRenderer with
      renderMode := RenderMode.ALL,
      windowWidth := 1298, windowHeight := 730,
      videoPanel := { samplePanel with textureWidth := 1920, textureHeight := 1080 } }

/-! ## Fit-to-window scale -/

/-- The scale stored by renderVideoPanel, written out. -/
theorem renderVideoPanel_scale (stab : Stabilizer) (trig : Trig) (r : Renderer) :
    (renderVideoPanel stab trig r).videoPanel.scale =
      (let scale0 : ℚ :=
        if r.renderMode ≠ RenderMode.VIDEO then
          ((1 - r.mapPanel.relativeWidth) * r.windowWidth) / r.videoPanel.textureWidth
        else r.windowWidth / r.videoPanel.textureWidth
       (if scale0 * r.videoPanel.textureHeight > r.windowHeight then
          r.windowHeight / r.videoPanel.textureHeight
        else scale0) * r.videoPanel.userScale) := by
  simp only [renderVideoPanel, Renderer.issue]
  split_ifs <;> rfl

/-- The scale stored by renderMapPanel, written out. -/
theorem renderMapPanel_scale (trig : Trig) (r : Renderer) :
    (renderMapPanel trig r).mapPanel.scale =
      (if r.windowWidth / r.mapPanel.textureWidth * r.mapPanel.textureHeight > r.windowHeight then
          r.windowHeight / r.mapPanel.textureHeight
        else r.windowWidth / r.mapPanel.textureWidth) * r.mapPanel.userScale := by
  simp only [renderMapPanel, renderRoute, Renderer.issue]
  split_ifs <;> rfl

/-- The auto-fit step: starting from a candidate scale that fits the width, the
height check yields a scale that fits both dimensions. -/
theorem fit_both (W H tw th s0 : ℚ) (htw : 0 < tw) (hth : 0 < th) (hs : s0 * tw ≤ W) :
    (if s0 * th > H then H / th else s0) * tw ≤ W ∧
    (if s0 * th > H then H / th else s0) * th ≤ H := by
  split_ifs with h
  · constructor
    · have h1 : H / th < s0 := by
        rw [div_lt_iff₀ hth]; exact h
      have h2 : H / th * tw < s0 * tw := mul_lt_mul_of_pos_right h1 htw
      linarith
    · rw [div_mul_cancel₀ H (ne_of_gt hth)]
  · exact ⟨hs, not_lt.mp h⟩

/-- C1: in VIDEO mode with userScale = 1 the scale computed by renderVideoPanel is
1/2 for a 1920x1080 window and a 3840x2160 texture, and 12/25 (0.48, the
width-bound value 1920/4000) for a 1920x1080 window and a 4000x1000 texture; for
positive window and texture sizes the scale is windowWidth/textureWidth when that
times textureHeight does not exceed windowHeight, and windowHeight/textureHeight
otherwise, multiplied by userScale. -/
theorem renderVideoPanel_scale_video_mode (stab : Stabilizer) (trig : Trig) (r : Renderer)
    (hmode : r.renderMode = RenderMode.VIDEO) :
    (r.videoPanel.userScale = 1 → r.windowWidth = 1920 → r.windowHeight = 1080 →
      r.videoPanel.textureWidth = 3840 → r.videoPanel.textureHeight = 2160 →
      (renderVideoPanel stab trig r).videoPanel.scale = 1 / 2) ∧
    (r.videoPanel.userScale = 1 → r.windowWidth = 1920 → r.windowHeight = 1080 →
      r.videoPanel.textureWidth = 4000 → r.videoPanel.textureHeight = 1000 →
      (renderVideoPanel stab trig r).videoPanel.scale = 12 / 25 ∧
      (renderVideoPanel stab trig r).videoPanel.scale =
        r.windowWidth / r.videoPanel.textureWidth) ∧
    (0 < r.windowWidth → 0 < r.windowHeight →
      0 < r.videoPanel.textureWidth → 0 < r.videoPanel.textureHeight →
      (renderVideoPanel stab trig r).videoPanel.scale =
        (if r.windowWidth / r.videoPanel.textureWidth * r.videoPanel.textureHeight
              ≤ r.windowHeight then
            r.windowWidth / r.videoPanel.textureWidth
          else r.windowHeight / r.videoPanel.textureHeight) * r.videoPanel.userScale) := by
  rw [renderVideoPanel_scale]
  refine ⟨?_, ?_, ?_⟩
  · intro hu hw hh htw hth
    simp only [hmode, hu, hw, hh, htw, hth]
    norm_num
  · intro hu hw hh htw hth
    simp only [hmode, hu, hw, hh, htw, hth]
    norm_num
  · intro _ _ _ _
    simp only [hmode, ne_eq, not_true_eq_false, if_false, gt_iff_lt]
    by_cases h : r.windowWidth / r.videoPanel.textureWidth * r.videoPanel.textureHeight
        ≤ r.windowHeight
    · rw [if_pos h, if_neg (not_lt.mpr h)]
    · rw [if_neg h, if_pos (not_le.mp h)]

/-- C1 witness: the sample renderer is in VIDEO mode with a 1920x1080 window, a
3840x2160 texture and unit user scale, and its computed scale is 1/2. -/
theorem renderVideoPanel_scale_video_mode_witness :
    sampleRenderer.renderMode = RenderMode.VIDEO ∧
    (renderVideoPanel stillStabilizer sampleTrig sampleRenderer).videoPanel.scale = 1 / 2 :=
  ⟨rfl, (renderVideoPanel_scale_video_mode stillStabilizer sampleTrig sampleRenderer rfl).1
    rfl rfl rfl rfl rfl⟩

/-- In exact arithmetic, for positive window and texture sizes, relativeWidth in
[0,1] and any render mode, with userScale = 1 the scale computed by renderVideoPanel
and the scale computed by renderMapPanel keep the scaled texture within the window
in both dimensions. In doubles the bound holds only up to rounding (section Auto-fit
in doubles). -/
theorem autofit_within_window (stab : Stabilizer) (trig : Trig) (r : Renderer)
    (hW : 0 < r.windowWidth) (_hH : 0 < r.windowHeight)
    (hvw : 0 < r.videoPanel.textureWidth) (hvh : 0 < r.videoPanel.textureHeight)
    (hmw : 0 < r.mapPanel.textureWidth) (hmh : 0 < r.mapPanel.textureHeight)
    (hrw0 : 0 ≤ r.mapPanel.relativeWidth) (_hrw1 : r.mapPanel.relativeWidth ≤ 1)
    (hvu : r.videoPanel.userScale = 1) (hmu : r.mapPanel.userScale = 1) :
    ((renderVideoPanel stab trig r).videoPanel.scale * r.videoPanel.textureWidth
        ≤ r.windowWidth ∧
     (renderVideoPanel stab trig r).videoPanel.scale * r.videoPanel.textureHeight
        ≤ r.windowHeight) ∧
    ((renderMapPanel trig r).mapPanel.scale * r.mapPanel.textureWidth ≤ r.windowWidth ∧
     (renderMapPanel trig r).mapPanel.scale * r.mapPanel.textureHeight ≤ r.windowHeight) := by
  rw [renderVideoPanel_scale, renderMapPanel_scale, hvu, hmu]
  simp only [mul_one]
  constructor
  · apply fit_both _ _ _ _ _ hvw hvh
    split_ifs with hm
    · rw [div_mul_cancel₀ _ (ne_of_gt hvw)]
      nlinarith
    · rw [div_mul_cancel₀ _ (ne_of_gt hvw)]
  · apply fit_both _ _ _ _ _ hmw hmh
    rw [div_mul_cancel₀ _ (ne_of_gt hmw)]

/-- An instance of the exact fit: the sample renderer switched to mode ALL meets
every hypothesis, and both fitted scales keep the panels inside the 1920x1080
window. -/
theorem autofit_within_window_witness :
    ((renderVideoPanel stillStabilizer sampleTrig
        (setRenderMode sampleRenderer RenderMode.ALL)).videoPanel.scale * 3840 ≤ 1920 ∧
     (renderVideoPanel stillStabilizer sampleTrig
        (setRenderMode sampleRenderer RenderMode.ALL)).videoPanel.scale * 2160 ≤ 1080) ∧
    ((renderMapPanel sampleTrig
        (setRenderMode sampleRenderer RenderMode.ALL)).mapPanel.scale * 3840 ≤ 1920 ∧
     (renderMapPanel sampleTrig
        (setRenderMode sampleRenderer RenderMode.ALL)).mapPanel.scale * 2160 ≤ 1080) :=
  autofit_within_window stillStabilizer sampleTrig
    (setRenderMode sampleRenderer RenderMode.ALL)
    (by norm_num [setRenderMode, sampleRenderer])
    (by norm_num [setRenderMode, sampleRenderer])
    (by norm_num [setRenderMode, sampleRenderer, samplePanel])
    (by norm_num [setRenderMode, sampleRenderer, samplePanel])
    (by norm_num [setRenderMode, sampleRenderer, samplePanel])
    (by norm_num [setRenderMode, sampleRenderer, samplePanel])
    (by norm_num [setRenderMode, sampleRenderer, samplePanel])
    (by norm_num [setRenderMode, sampleRenderer, samplePanel])
    rfl rfl

/-! ## Resizing -/

/-- Truncating an integer valued double gives the integer back. -/
theorem truncToInt_intCast (n : Int) : truncToInt (n : ℚ) = n := by
  unfold truncToInt
  split_ifs <;> simp

/-- Converting a non-negative integer valued double below 2^64 to size_t gives
the integer back. -/
theorem toSizeT_intCast (n : Int) (h0 : 0 ≤ n) (h1 : n < 2 ^ 64) :
    (toSizeT (n : ℚ) : Int) = n := by
  unfold toSizeT
  rw [truncToInt_intCast, Int.emod_eq_of_lt h0 h1, Int.toNat_of_nonneg h0]

/-- The result of resizeWindow is the conjunction of the two allocation
outcomes. -/
theorem resizeWindow_result (env : ResizeEnv) (r : Renderer) (W H : Int) :
    (resizeWindow env r W H).1 = (env.outputValid && env.nonMultisampleValid) := by
  unfold resizeWindow
  cases h1 : env.outputValid <;> cases h2 : env.nonMultisampleValid <;> simp [h1, h2]

/-- C3 counterexample: when the output target cannot be created, resizeWindow(640,
480) returns false and leaves the frame buffer as it was (here empty), not at
640*480*4 bytes. -/
theorem resizeWindow_failure_keeps_frame :
    (resizeWindow failingResizeEnv sampleRenderer 640 480).1 = false ∧
    (resizeWindow failingResizeEnv sampleRenderer 640 480).2.renderedFrameData.dataLength = 0 ∧
    ¬ (((resizeWindow failingResizeEnv sampleRenderer 640 480).2.renderedFrameData.dataLength
        : Int) = 640 * 480 * 4) := by
  simp [resizeWindow, failingResizeEnv, sampleRenderer, FrameData.empty]

/-- C3 (amended): for W and H in the non-negative int range with W*H*4 at most 2^53
(where the product computed in doubles is exact), when both render targets are
created valid, resizeWindow(W, H) returns true and leaves the frame buffer with
dataLength W*H*4, rowLength W*4, width W, height H and a buffer of dataLength
bytes; when an allocation fails it returns false and leaves the frame buffer as it
was. -/
theorem resizeWindow_frame (env : ResizeEnv) (r : Renderer) (W H : Int)
    (hW0 : 0 ≤ W) (hW1 : W < 2 ^ 31) (hH0 : 0 ≤ H) (_hH1 : H < 2 ^ 31)
    (hsize : W * H * 4 ≤ 2 ^ 53) :
    (env.outputValid = true → env.nonMultisampleValid = true →
      (resizeWindow env r W H).1 = true ∧
      ((resizeWindow env r W H).2.renderedFrameData.dataLength : Int) = W * H * 4 ∧
      ((resizeWindow env r W H).2.renderedFrameData.rowLength : Int) = W * 4 ∧
      (resizeWindow env r W H).2.renderedFrameData.width = W ∧
      (resizeWindow env r W H).2.renderedFrameData.height = H ∧
      (resizeWindow env r W H).2.renderedFrameData.data =
        some (resizeWindow env r W H).2.renderedFrameData.dataLength) ∧
    ((env.outputValid = false ∨ env.nonMultisampleValid = false) →
      (resizeWindow env r W H).1 = false ∧
      (resizeWindow env r W H).2.renderedFrameData = r.renderedFrameData) := by
  have hprod : (W : ℚ) * (H : ℚ) * 4 = ((W * H * 4 : Int) : ℚ) := by push_cast; ring
  have hrow : (W : ℚ) * 4 = ((W * 4 : Int) : ℚ) := by push_cast; ring
  have hp0 : 0 ≤ W * H * 4 := by positivity
  have hp1 : W * H * 4 < 2 ^ 64 := by linarith
  have hr0 : 0 ≤ W * 4 := by positivity
  have hr1 : W * 4 < 2 ^ 64 := by linarith
  constructor
  · intro h1 h2
    simp only [resizeWindow, h1, h2, Bool.not_true, Bool.false_eq_true, if_false,
      hprod, hrow, truncToInt_intCast, toSizeT_intCast _ hp0 hp1, toSizeT_intCast _ hr0 hr1,
      and_self]
  · intro h
    rcases h with h | h
    · simp [resizeWindow, h]
    · cases h1 : env.outputValid <;> simp [resizeWindow, h, h1]

/-- C3 witness: a successful resize of the sample renderer to 640x480 gives a frame
buffer of 1228800 bytes with a row stride of 2560 bytes. -/
theorem resizeWindow_frame_witness :
    ((resizeWindow goodResizeEnv sampleRenderer 640 480).2.renderedFrameData.dataLength : Int)
      = 640 * 480 * 4 ∧
    ((resizeWindow goodResizeEnv sampleRenderer 640 480).2.renderedFrameData.rowLength : Int)
      = 640 * 4 :=
  have h := (resizeWindow_frame goodResizeEnv sampleRenderer 640 480
    (by decide) (by decide) (by decide) (by decide) (by norm_num)).1 rfl rfl
  ⟨h.2.1, h.2.2.1⟩

/-- C4: resizeWindow returns false exactly when the output target it creates is
invalid or the non multisampled target it then creates is invalid (the second is
created only after a valid first), and initialize returns false whenever its
resizeWindow call returns false. -/
theorem resizeWindow_reports_failure (env : InitEnv) (input : InitInput)
    (settings : Settings) (r r0 : Renderer) (W H : Int) :
    ((resizeWindow env.resize r W H).1 = false ↔
      (env.resize.outputValid = false ∨ env.resize.nonMultisampleValid = false)) ∧
    ((resizeWindow env.resize r W H).2.outputFramebuffer.map Fbo.valid
      = some env.resize.outputValid) ∧
    (env.resize.outputValid = true →
      (resizeWindow env.resize r W H).2.outputFramebufferNonMultisample.map Fbo.valid
        = some env.resize.nonMultisampleValid) ∧
    ((resizeWindow env.resize r0 settings.windowWidth settings.windowHeight).1 = false →
      (initializeRenderer env input settings r).1 = false) := by
  refine ⟨?_, ?_, ?_, ?_⟩
  · rw [resizeWindow_result]
    cases env.resize.outputValid <;> cases env.resize.nonMultisampleValid <;> simp
  · unfold resizeWindow
    cases h1 : env.resize.outputValid <;> cases h2 : env.resize.nonMultisampleValid <;>
      simp [h1, h2]
  · intro h1
    unfold resizeWindow
    cases h2 : env.resize.nonMultisampleValid <;> simp [h1, h2]
  · intro h
    rw [resizeWindow_result] at h
    unfold initializeRenderer
    simp only [resizeWindow_result, h, Bool.not_false, if_true]

/-- C4 witness: with an output target that cannot be created, resizeWindow returns
false and so does initialize. -/
theorem resizeWindow_reports_failure_witness :
    (resizeWindow failingInitEnv.resize sampleRenderer 640 480).1 = false ∧
    (initializeRenderer failingInitEnv sampleInput sampleSettings sampleRenderer).1 = false :=
  have h := resizeWindow_reports_failure failingInitEnv sampleInput sampleSettings
    sampleRenderer sampleRenderer 640 480
  ⟨h.1.mpr (Or.inl rfl), h.2.2.2 (h.1.mpr (Or.inl rfl))⟩

/-! ## Shader loading -/

/-- The result of loadShaders is the conjunction of the three compilation
outcomes; no location takes part in it. -/
theorem loadShaders_result (env : ShaderEnv) (panel : Panel) :
    (loadShaders env panel).1 = (env.vertexOk && env.fragmentOk && env.linkOk) := by
  unfold loadShaders
  cases h1 : env.vertexOk <;> cases h2 : env.fragmentOk <;> cases h3 : env.linkOk <;>
    simp [h1, h2, h3]

/-- C5 counterexample: a shader that compiles and links but has none of the four
required locations (all lookups give -1) is loaded with result true, and
initialize returns true with it. -/
theorem loadShaders_missing_required_succeeds :
    bareShaderEnv.uniformLocation "vertexMatrix" = -1 ∧
    bareShaderEnv.attributeLocation "vertexPosition" = -1 ∧
    bareShaderEnv.attributeLocation "vertexTextureCoordinate" = -1 ∧
    bareShaderEnv.uniformLocation "textureSampler" = -1 ∧
    (loadShaders bareShaderEnv samplePanel).1 = true ∧
    (loadShaders bareShaderEnv samplePanel).2.1.vertexMatrixUniform = -1 ∧
    (initializeRenderer bareInitEnv sampleInput sampleSettings sampleRenderer).1 = true := by
  refine ⟨rfl, rfl, rfl, rfl, ?_, ?_, ?_⟩
  · rw [loadShaders_result]; rfl
  · simp [loadShaders, bareShaderEnv]
  · simp [initializeRenderer, resizeWindow_result, loadShaders_result, bareInitEnv,
      goodResizeEnv, bareShaderEnv]

/-- C5 (amended): loadShaders returns false exactly when adding the vertex shader,
adding the fragment shader or linking fails, and initialize then returns false. No
location, required or optional, takes part in the result: on success the eight
locations are stored as found, a missing required location yields only its
warning, and a missing optional location yields nothing. -/
theorem loadShaders_fails_only_on_compile (env : InitEnv) (input : InitInput)
    (settings : Settings) (r : Renderer) (senv : ShaderEnv) (panel : Panel) :
    ((loadShaders senv panel).1 = false ↔
      (senv.vertexOk = false ∨ senv.fragmentOk = false ∨ senv.linkOk = false)) ∧
    ((loadShaders senv panel).1 = true →
      (loadShaders senv panel).2.1.vertexMatrixUniform = senv.uniformLocation "vertexMatrix" ∧
      (loadShaders senv panel).2.1.vertexPositionAttribute
        = senv.attributeLocation "vertexPosition" ∧
      (loadShaders senv panel).2.1.vertexTextureCoordinateAttribute
        = senv.attributeLocation "vertexTextureCoordinate" ∧
      (loadShaders senv panel).2.1.textureSamplerUniform
        = senv.uniformLocation "textureSampler" ∧
      (loadShaders senv panel).2.1.textureWidthUniform = senv.uniformLocation "textureWidth" ∧
      (loadShaders senv panel).2.1.textureHeightUniform
        = senv.uniformLocation "textureHeight" ∧
      (loadShaders senv panel).2.1.texelWidthUniform = senv.uniformLocation "texelWidth" ∧
      (loadShaders senv panel).2.1.texelHeightUniform = senv.uniformLocation "texelHeight" ∧
      (loadShaders senv panel).2.2 =
        warnIfMissing (senv.uniformLocation "vertexMatrix") "Could not find vertexMatrix uniform"
        ++ warnIfMissing (senv.attributeLocation "vertexPosition")
            "Could not find vertexPosition attribute"
        ++ warnIfMissing (senv.attributeLocation "vertexTextureCoordinate")
            "Could not find vertexTextureCoordinate attribute"
        ++ warnIfMissing (senv.uniformLocation "textureSampler")
            "Could not find textureSampler uniform") ∧
    (((loadShaders (env.shaders settings.videoPanelShader) panel).1 = false ∨
      (loadShaders (env.shaders settings.mapPanelShader) panel).1 = false) →
      (initializeRenderer env input settings r).1 = false) := by
  refine ⟨?_, ?_, ?_⟩
  · rw [loadShaders_result]
    cases senv.vertexOk <;> cases senv.fragmentOk <;> cases senv.linkOk <;> simp
  · intro h
    rw [loadShaders_result] at h
    simp only [Bool.and_eq_true] at h
    obtain ⟨⟨h1, h2⟩, h3⟩ := h
    simp [loadShaders, h1, h2, h3]
  · intro h
    simp only [loadShaders_result] at h
    unfold initializeRenderer
    simp only [resizeWindow_result, loadShaders_result]
    cases hr : (env.resize.outputValid && env.resize.nonMultisampleValid)
    · simp
    · rcases h with h | h
      · simp [h]
      · cases hv : ((env.shaders settings.videoPanelShader).vertexOk &&
            (env.shaders settings.videoPanelShader).fragmentOk &&
            (env.shaders settings.videoPanelShader).linkOk)
        · simp [hv]
        · simp [hv, h]

/-- C5 witness: the shader with no locations at all loads with result true, stores
-1 for the vertex matrix location and issues the four warnings for the required
names. -/
theorem loadShaders_fails_only_on_compile_witness :
    (loadShaders bareShaderEnv samplePanel).1 = true ∧
    (loadShaders bareShaderEnv samplePanel).2.1.vertexMatrixUniform = -1 ∧
    (loadShaders bareShaderEnv samplePanel).2.2.length = 4 :=
  have h := (loadShaders_fails_only_on_compile bareInitEnv sampleInput sampleSettings
    sampleRenderer bareShaderEnv samplePanel).2.1
    (by rw [loadShaders_result]; rfl)
  ⟨by rw [loadShaders_result]; rfl, h.1, by rw [h.2.2.2.2.2.2.2.2]; rfl⟩

/-! ## Frame orchestration -/

/-- A list that is empty or a single call satisfies a predicate on calls when the
single call does. -/
theorem all_ite_singleton (p : Prop) [Decidable p] (c : DrawCall) (f : DrawCall → Bool)
    (h : f c = true) : (if p then [c] else []).all f = true := by
  split_ifs <;> simp [h]

/-- No call of renderPanel for the video panel belongs to the map pass. -/
theorem renderPanel_video_all (panel : Panel) :
    (renderPanel PanelId.video panel).all (fun c => !c.isMapOrRoute) = true := by
  unfold renderPanel
  simp only [List.all_append, Bool.and_eq_true]
  refine ⟨⟨⟨⟨⟨⟨⟨?_, ?_⟩, ?_⟩, ?_⟩, ?_⟩, ?_⟩, ?_⟩, ?_⟩
  · rfl
  all_goals first
    | exact all_ite_singleton _ _ _ rfl
    | rfl

/-- The video panel pass leaves the map panel, the mode and the flags read by
renderAll unchanged. -/
theorem renderVideoPanel_frame (stab : Stabilizer) (trig : Trig) (r : Renderer) :
    (renderVideoPanel stab trig r).mapPanel = r.mapPanel ∧
    (renderVideoPanel stab trig r).renderMode = r.renderMode ∧
    (renderVideoPanel stab trig r).showInfoPanel = r.showInfoPanel ∧
    (renderVideoPanel stab trig r).isEncoding = r.isEncoding := by
  simp only [renderVideoPanel, Renderer.issue]
  split_ifs <;> exact ⟨rfl, rfl, rfl, rfl⟩

/-- The clear of a panel pass is not a map pass call. -/
theorem clearCalls_all (panel : Panel) :
    (clearCalls panel).all (fun c => !c.isMapOrRoute) = true := rfl

/-- The scissor set-up is not a map pass call. -/
theorem scissor_all (x y w h : Int) :
    [DrawCall.enableScissor, DrawCall.scissor x y w h].all (fun c => !c.isMapOrRoute)
      = true := rfl

/-- Disabling the scissor test is not a map pass call. -/
theorem disableScissor_all :
    [DrawCall.disableScissor].all (fun c => !c.isMapOrRoute) = true := rfl

/-- The calls issued by the video panel pass: none belongs to the map pass, and
the video quad is drawn. -/
theorem renderVideoPanel_calls (stab : Stabilizer) (trig : Trig) (r : Renderer) :
    ∃ new : List DrawCall,
      (renderVideoPanel stab trig r).calls = r.calls ++ new ∧
      new.all (fun c => !c.isMapOrRoute) = true ∧
      DrawCall.drawTriangleFan PanelId.video 4 ∈ new := by
  have hfan : ∀ p : Panel, DrawCall.drawTriangleFan PanelId.video 4 ∈
      renderPanel PanelId.video p := by
    intro p
    simp [renderPanel]
  simp only [renderVideoPanel, Renderer.issue]
  split_ifs <;> simp only [List.append_assoc] <;>
    refine ⟨_, rfl, ?_, ?_⟩
  all_goals first
    | (simp only [List.all_append, renderPanel_video_all, clearCalls_all, scissor_all,
        disableScissor_all, Bool.and_self])
    | (simp only [List.mem_append, hfan, or_true, true_or])

/-- Issuing calls extends the call record and changes nothing else read by
renderAll. -/
theorem issue_frame (r : Renderer) (cs : List DrawCall) :
    (r.issue cs).calls = r.calls ++ cs ∧
    (r.issue cs).mapPanel = r.mapPanel ∧
    (r.issue cs).renderMode = r.renderMode ∧
    (r.issue cs).showInfoPanel = r.showInfoPanel ∧
    (r.issue cs).isEncoding = r.isEncoding :=
  ⟨rfl, rfl, rfl, rfl, rfl⟩

/-- The map panel pass sets the clipping flag of the map panel to whether the mode
is ALL, and leaves the mode and the flags read by renderAll unchanged. -/
theorem renderMapPanel_frame (trig : Trig) (r : Renderer) :
    (renderMapPanel trig r).mapPanel.clippingEnabled = decide (r.renderMode = RenderMode.ALL) ∧
    (renderMapPanel trig r).renderMode = r.renderMode ∧
    (renderMapPanel trig r).showInfoPanel = r.showInfoPanel ∧
    (renderMapPanel trig r).isEncoding = r.isEncoding := by
  simp only [renderMapPanel, renderRoute, Renderer.issue]
  split_ifs <;> exact ⟨rfl, rfl, rfl, rfl⟩

/-- C6: renderAll in mode ALL leaves the clipping flag of the map panel true, in
mode MAP leaves it false, and in mode VIDEO runs only the video panel pass: the map
panel (so its scale, vertex matrix and clipping flag) is unchanged, the video quad
is drawn, and no call of the map pass or of the route overlay is issued. -/
theorem renderAll_modes (stab : Stabilizer) (trig : Trig) (r : Renderer) :
    (r.renderMode = RenderMode.ALL →
      (renderAll stab trig r).mapPanel.clippingEnabled = true) ∧
    (r.renderMode = RenderMode.MAP →
      (renderAll stab trig r).mapPanel.clippingEnabled = false) ∧
    (r.renderMode = RenderMode.VIDEO →
      (renderAll stab trig r).mapPanel = r.mapPanel ∧
      (renderAll stab trig r).mapPanel.scale = r.mapPanel.scale ∧
      (renderAll stab trig r).mapPanel.vertexMatrix = r.mapPanel.vertexMatrix ∧
      (renderAll stab trig r).mapPanel.clippingEnabled = r.mapPanel.clippingEnabled ∧
      ∃ new : List DrawCall,
        (renderAll stab trig r).calls = r.calls ++ new ∧
        new.all (fun c => !c.isMapOrRoute) = true ∧
        DrawCall.drawTriangleFan PanelId.video 4 ∈ new) := by
  refine ⟨?_, ?_, ?_⟩
  · intro h
    cases he : r.isEncoding <;> cases hs : r.showInfoPanel <;>
      simp [renderAll, he, hs, h, renderVideoPanel_frame, renderMapPanel_frame,
        Renderer.issue, renderInfoPanel]
  · intro h
    cases he : r.isEncoding <;> cases hs : r.showInfoPanel <;>
      simp [renderAll, he, hs, h, renderVideoPanel_frame, renderMapPanel_frame,
        Renderer.issue, renderInfoPanel]
  · intro h
    have hmap : (renderAll stab trig r).mapPanel = r.mapPanel := by
      cases he : r.isEncoding <;> cases hs : r.showInfoPanel <;>
        simp [renderAll, he, hs, h, renderVideoPanel_frame, renderMapPanel_frame,
          Renderer.issue, renderInfoPanel]
    refine ⟨hmap, by rw [hmap], by rw [hmap], by rw [hmap], ?_⟩
    cases he : r.isEncoding <;> cases hs : r.showInfoPanel
    · obtain ⟨new, hc, ha, hm⟩ := renderVideoPanel_calls stab trig r
      refine ⟨new, ?_, ha, hm⟩
      simp [renderAll, he, hs, h, renderVideoPanel_frame, hc]
    · obtain ⟨new, hc, ha, hm⟩ := renderVideoPanel_calls stab trig r
      refine ⟨new ++ [DrawCall.drawInfoPanel], ?_, ?_, ?_⟩
      · simp [renderAll, he, hs, h, renderVideoPanel_frame, hc, renderInfoPanel,
          issue_frame]
      · rw [List.all_append, ha]; rfl
      · exact List.mem_append_left _ hm
    · obtain ⟨new, hc, ha, hm⟩ := renderVideoPanel_calls stab trig
        (r.issue [DrawCall.bindTarget Target.output])
      refine ⟨[DrawCall.bindTarget Target.output] ++ new
        ++ [DrawCall.releaseTarget Target.output], ?_, ?_, ?_⟩
      · simp [renderAll, he, hs, h, renderVideoPanel_frame, hc, issue_frame]
      · rw [List.all_append, List.all_append, ha]; rfl
      · exact List.mem_append_left _ (List.mem_append_right _ hm)
    · obtain ⟨new, hc, ha, hm⟩ := renderVideoPanel_calls stab trig
        (r.issue [DrawCall.bindTarget Target.output])
      refine ⟨[DrawCall.bindTarget Target.output] ++ new ++ [DrawCall.drawInfoPanel]
        ++ [DrawCall.releaseTarget Target.output], ?_, ?_, ?_⟩
      · simp [renderAll, he, hs, h, renderVideoPanel_frame, hc, issue_frame,
          renderInfoPanel]
      · rw [List.all_append, List.all_append, List.all_append, ha]; rfl
      · exact List.mem_append_left _
          (List.mem_append_left _ (List.mem_append_right _ hm))

/-- C6 witness: the sample renderer is in mode VIDEO and renderAll leaves its map
panel clipping flag as it was; switched to mode ALL the flag ends up true. -/
theorem renderAll_modes_witness :
    (renderAll stillStabilizer sampleTrig sampleRenderer).mapPanel.clippingEnabled
      = sampleRenderer.mapPanel.clippingEnabled ∧
    (renderAll stillStabilizer sampleTrig
      (setRenderMode sampleRenderer RenderMode.ALL)).mapPanel.clippingEnabled = true :=
  ⟨((renderAll_modes stillStabilizer sampleTrig sampleRenderer).2.2 rfl).2.2.2.1,
   (renderAll_modes stillStabilizer sampleTrig
      (setRenderMode sampleRenderer RenderMode.ALL)).1 rfl⟩

/-! ## Frame capture -/

/-- C7 counterexample: with a requested sample count of 0, a successful
resizeWindow(640, 480) creates an output target with 0 samples and still allocates
the resolve target. -/
theorem resizeWindow_allocates_resolve_target_without_multisampling :
    sampleRenderer.multisamples = 0 ∧
    (resizeWindow goodResizeEnv sampleRenderer 640 480).1 = true ∧
    (resizeWindow goodResizeEnv sampleRenderer 640 480).2.outputFramebuffer
      = some { width := 640, height := 480, samples := 0, valid := true } ∧
    (resizeWindow goodResizeEnv sampleRenderer 640 480).2.outputFramebufferNonMultisample
      = some { width := 640, height := 480, samples := 0, valid := true } := by
  have h640 : truncToInt (640 : ℚ) = 640 := truncToInt_intCast 640
  have h480 : truncToInt (480 : ℚ) = 480 := truncToInt_intCast 480
  simp [resizeWindow, goodResizeEnv, sampleRenderer, grantedSamples, h640, h480]

/-- C7 (amended): getRenderedFrame, given an output target, returns the frame data
of the renderer; when the sample count of the output target is not zero it first
blits the output target into the resolve target and then binds, reads and releases
the resolve target; when the sample count is zero it binds, reads and releases the
output target and issues no call that touches the resolve target. A successful
resizeWindow allocates the resolve target whatever the sample count. -/
theorem getRenderedFrame_resolve (r : Renderer) (fbo : Fbo)
    (hfbo : r.outputFramebuffer = some fbo) :
    (∃ r1 : Renderer, getRenderedFrame r = some (r.renderedFrameData, r1) ∧
      (fbo.samples ≠ 0 →
        r1.calls = r.calls ++
          [DrawCall.blitFramebuffer Target.nonMultisample Target.output
              (truncToInt r.windowWidth) (truncToInt r.windowHeight),
           DrawCall.bindTarget Target.nonMultisample,
           DrawCall.readPixels Target.nonMultisample
              (truncToInt r.windowWidth) (truncToInt r.windowHeight),
           DrawCall.releaseTarget Target.nonMultisample]) ∧
      (fbo.samples = 0 →
        ∃ new : List DrawCall, r1.calls = r.calls ++ new ∧
          new = [DrawCall.bindTarget Target.output,
            DrawCall.readPixels Target.output
              (truncToInt r.windowWidth) (truncToInt r.windowHeight),
            DrawCall.releaseTarget Target.output] ∧
          new.all (fun c => !c.usesResolveTarget) = true)) ∧
    (∀ (env : ResizeEnv) (W H : Int), (resizeWindow env r W H).1 = true →
      (resizeWindow env r W H).2.outputFramebufferNonMultisample
        = some { width := W, height := H, samples := 0, valid := true }) := by
  constructor
  · by_cases hs : fbo.samples = 0
    · refine ⟨r.issue [DrawCall.bindTarget Target.output,
          DrawCall.readPixels Target.output (truncToInt r.windowWidth) (truncToInt r.windowHeight),
          DrawCall.releaseTarget Target.output], ?_, ?_, ?_⟩
      · simp only [getRenderedFrame, hfbo, hs, ne_eq, not_true_eq_false, if_false]
        rfl
      · intro h; exact absurd hs h
      · intro _
        exact ⟨_, rfl, rfl, rfl⟩
    · refine ⟨(r.issue [DrawCall.blitFramebuffer Target.nonMultisample Target.output
          (truncToInt r.windowWidth) (truncToInt r.windowHeight)]).issue
          [DrawCall.bindTarget Target.nonMultisample,
           DrawCall.readPixels Target.nonMultisample
            (truncToInt r.windowWidth) (truncToInt r.windowHeight),
           DrawCall.releaseTarget Target.nonMultisample], ?_, ?_, ?_⟩
      · simp only [getRenderedFrame, hfbo, hs, ne_eq, not_false_eq_true, if_true]
        rfl
      · intro _
        simp [Renderer.issue]
      · intro h; exact absurd h hs
  · intro env W H h
    rw [resizeWindow_result] at h
    simp only [Bool.and_eq_true] at h
    simp [resizeWindow, h.1, h.2, grantedSamples, truncToInt_intCast]

/-- C7 witness: for the sample renderer holding a 1920x1080 output target with 4
samples, the capture returns the frame data of the renderer. -/
theorem getRenderedFrame_resolve_witness :
    ∃ r1 : Renderer,
      getRenderedFrame { sampleRenderer with
        outputFramebuffer := some { width := 1920, height := 1080, samples := 4, valid := true } }
        = some (FrameData.empty, r1) :=
  have h := (getRenderedFrame_resolve
    { sampleRenderer with
      outputFramebuffer := some { width := 1920, height := 1080, samples := 4, valid := true } }
    { width := 1920, height := 1080, samples := 4, valid := true } rfl).1
  ⟨h.choose, h.choose_spec.1⟩

/-! ## Telemetry visibility -/

/-- C9: toggleShowInfoPanel negates showInfoPanel and changes no other field, and
calling it twice gives back the original state. -/
theorem toggleShowInfoPanel_twice (r : Renderer) :
    toggleShowInfoPanel (toggleShowInfoPanel r) = r ∧
    (toggleShowInfoPanel r).showInfoPanel = (!r.showInfoPanel) ∧
    toggleShowInfoPanel r = { r with showInfoPanel := !r.showInfoPanel } := by
  refine ⟨?_, rfl, rfl⟩
  cases r
  simp [toggleShowInfoPanel]

/-! ## Route path -/

/-- Adding one more point to a non-empty polyline appends one lineTo. -/
theorem polyline_append_singleton (first : RoutePoint) (rest : List RoutePoint)
    (p : RoutePoint) :
    polyline ((first :: rest) ++ [p]) =
      polyline (first :: rest) ++ [PathElement.lineTo p.position.x (-p.position.y)] := by
  simp [polyline]

/-- After the loop of initialize has run over the first n indices, the path is the
polyline through the first n points. -/
theorem route_loop_upto (l : List RoutePoint) (n : Nat) (hn : n ≤ l.length) :
    (List.range n).foldl
      (fun path i =>
        match l[i]? with
        | none => path
        | some rp =>
          let x := rp.position.x
          let y := -rp.position.y
          if i = 0 then path ++ [PathElement.moveTo x y]
          else path ++ [PathElement.lineTo x y])
      [] = polyline (l.take n) := by
  induction n with
  | zero => simp [polyline]
  | succ k ih =>
    have hk : k < l.length := hn
    rw [List.range_succ, List.foldl_append, ih (Nat.le_of_lt hk)]
    simp only [List.foldl_cons, List.foldl_nil, List.getElem?_eq_getElem hk]
    rw [List.take_succ, List.getElem?_eq_getElem hk]
    cases k with
    | zero => simp [polyline]
    | succ j =>
      cases l with
      | nil => simp at hk
      | cons a t =>
        simp only [List.take_succ_cons, Option.toList_some, Nat.succ_ne_zero, if_false,
          Nat.add_one_ne_zero]
        rw [polyline_append_singleton]

/-- The loop of initialize builds the path that the specification describes. -/
theorem buildRoutePath_eq_spec (l : List RoutePoint) :
    buildRoutePath l = routePathSpec l := by
  unfold buildRoutePath
  by_cases h : l.length ≥ 2
  · simp only [h, if_true]
    rw [route_loop_upto l l.length (le_refl _), List.take_length]
    match l, h with
    | a :: b :: rest, _ => simp [polyline, routePathSpec]
  · simp only [h, if_false]
    match l, h with
    | [], _ => rfl
    | [a], _ => rfl
    | a :: b :: rest, h => simp at h

/-- C8: when initialize succeeds, the route path it builds is, for a route of at
least two points, a moveTo to the first point followed by a lineTo to each later
point, in input order, every point (x, y) taken as (x, -y), one element per point;
for a route of 0 or 1 points it is empty. -/
theorem initialize_routePath (env : InitEnv) (input : InitInput) (settings : Settings)
    (r : Renderer) (hok : (initializeRenderer env input settings r).1 = true) :
    (initializeRenderer env input settings r).2.routePath
      = some (routePathSpec input.routePoints) ∧
    (2 ≤ input.routePoints.length →
      (routePathSpec input.routePoints).length = input.routePoints.length ∧
      ∀ (i : Nat) (p : RoutePoint), input.routePoints[i]? = some p →
        (routePathSpec input.routePoints)[i]? =
          some (if i = 0 then PathElement.moveTo p.position.x (-p.position.y)
                else PathElement.lineTo p.position.x (-p.position.y))) ∧
    (input.routePoints.length ≤ 1 → routePathSpec input.routePoints = []) := by
  refine ⟨?_, ?_, ?_⟩
  · simp only [initializeRenderer] at hok ⊢
    split_ifs at hok ⊢
    simp only [buildRoutePath_eq_spec]
  · intro h
    match hl : input.routePoints, h with
    | a :: b :: rest, _ =>
      refine ⟨by simp [routePathSpec], ?_⟩
      intro i p hp
      cases i with
      | zero =>
        simp only [List.getElem?_cons_zero, Option.some.injEq] at hp
        simp [routePathSpec, hp]
      | succ j =>
        simp only [List.getElem?_cons_succ] at hp
        simp only [routePathSpec, List.getElem?_cons_succ, List.getElem?_map, hp,
          Option.map_some', Nat.succ_ne_zero, if_false, Nat.add_one_ne_zero]
  · intro h
    match hl : input.routePoints, h with
    | [], _ => rfl
    | [a], _ => rfl
    | a :: b :: rest, h => simp at h

/-- C8 witness: initialize succeeds on the sample input, whose route is (0,0),
(10,0), (10,10), and the path built is moveTo (0,0), lineTo (10,0),
lineTo (10,-10). -/
theorem initialize_routePath_witness :
    (initializeRenderer bareInitEnv sampleInput sampleSettings sampleRenderer).1 = true ∧
    (initializeRenderer bareInitEnv sampleInput sampleSettings sampleRenderer).2.routePath
      = some [PathElement.moveTo 0 0, PathElement.lineTo 10 0, PathElement.lineTo 10 (-10)] :=
  have hok : (initializeRenderer bareInitEnv sampleInput sampleSettings sampleRenderer).1
      = true := by
    simp [initializeRenderer, resizeWindow_result, loadShaders_result, bareInitEnv,
      goodResizeEnv, bareShaderEnv]
  ⟨hok, by
    rw [(initialize_routePath bareInitEnv sampleInput sampleSettings sampleRenderer hok).1]
    simp [routePathSpec, sampleInput]⟩

/-! ## Vertex matrix of the video panel -/

/-- The vertex matrix stored by renderVideoPanel, written out: the projection,
then translate, rotate and scale, none of which reads the previous matrix or the
previous scale. -/
theorem renderVideoPanel_matrix (stab : Stabilizer) (trig : Trig) (r : Renderer) :
    (renderVideoPanel stab trig r).videoPanel.vertexMatrix =
      (let offset : ℚ :=
        if r.renderMode ≠ RenderMode.VIDEO then
          0 + ((r.windowWidth / 2) - (((1 - r.mapPanel.relativeWidth) * r.windowWidth) / 2))
        else 0
       let scale0 : ℚ :=
        if r.renderMode ≠ RenderMode.VIDEO then
          ((1 - r.mapPanel.relativeWidth) * r.windowWidth) / r.videoPanel.textureWidth
        else r.windowWidth / r.videoPanel.textureWidth
       let scale : ℚ :=
        (if scale0 * r.videoPanel.textureHeight > r.windowHeight then
          r.windowHeight / r.videoPanel.textureHeight
        else scale0) * r.videoPanel.userScale
       Mat4.scale
        (Mat4.rotate
          (Mat4.translate (projection r)
            (offset + r.videoPanel.x + r.videoPanel.userX
              + stab.getX * r.videoPanel.textureWidth * scale)
            (r.videoPanel.y + r.videoPanel.userY
              - stab.getY * r.videoPanel.textureHeight * scale)
            0)
          trig (r.videoPanel.angle + r.videoPanel.userAngle - stab.getAngle))
        scale) := by
  simp only [renderVideoPanel, Renderer.issue]
  split_ifs <;> rfl

/-- The projection step yields the orthographic matrix alone, whatever matrix the
panel held before. -/
theorem projection_eq_orthoSpec (r : Renderer) : projection r = orthoSpec r := by
  unfold projection orthoSpec Mat4.ortho
  cases r.shouldFlipOutput <;> simp

/-- The video panel pass leaves unchanged every value that its matrix is computed
from. -/
theorem renderVideoPanel_inputs (stab : Stabilizer) (trig : Trig) (r : Renderer) :
    (renderVideoPanel stab trig r).windowWidth = r.windowWidth ∧
    (renderVideoPanel stab trig r).windowHeight = r.windowHeight ∧
    (renderVideoPanel stab trig r).shouldFlipOutput = r.shouldFlipOutput ∧
    (renderVideoPanel stab trig r).videoPanel.x = r.videoPanel.x ∧
    (renderVideoPanel stab trig r).videoPanel.y = r.videoPanel.y ∧
    (renderVideoPanel stab trig r).videoPanel.userX = r.videoPanel.userX ∧
    (renderVideoPanel stab trig r).videoPanel.userY = r.videoPanel.userY ∧
    (renderVideoPanel stab trig r).videoPanel.angle = r.videoPanel.angle ∧
    (renderVideoPanel stab trig r).videoPanel.userAngle = r.videoPanel.userAngle ∧
    (renderVideoPanel stab trig r).videoPanel.userScale = r.videoPanel.userScale ∧
    (renderVideoPanel stab trig r).videoPanel.textureWidth = r.videoPanel.textureWidth ∧
    (renderVideoPanel stab trig r).videoPanel.textureHeight = r.videoPanel.textureHeight := by
  simp only [renderVideoPanel, Renderer.issue]
  split_ifs <;> exact ⟨rfl, rfl, rfl, rfl, rfl, rfl, rfl, rfl, rfl, rfl, rfl, rfl⟩

/-- C10: the vertex matrix produced by renderVideoPanel is
ortho * translate(tx, ty) * rotate(a) * scale(s), built from the identity, where s
is the fitted scale times userScale, tx = offsetX + x + userX + stabilizerX *
textureWidth * s, ty = y + userY - stabilizerY * textureHeight * s, a = angle +
userAngle - stabilizerAngle, and offsetX = relativeWidth * windowWidth / 2 unless
the mode is VIDEO, where it is 0. The result does not depend on the previous matrix
or the previous scale of the panel, and a second call with the same inputs gives
the same matrix. -/
theorem renderVideoPanel_vertexMatrix (stab : Stabilizer) (trig : Trig) (r : Renderer) :
    (renderVideoPanel stab trig r).videoPanel.vertexMatrix =
      orthoSpec r
      * translateMatrix
          (videoOffsetSpec r + r.videoPanel.x + r.videoPanel.userX
            + stab.getX * r.videoPanel.textureWidth
              * (renderVideoPanel stab trig r).videoPanel.scale)
          (r.videoPanel.y + r.videoPanel.userY
            - stab.getY * r.videoPanel.textureHeight
              * (renderVideoPanel stab trig r).videoPanel.scale)
          0
      * rotateMatrix trig (r.videoPanel.angle + r.videoPanel.userAngle - stab.getAngle)
      * scaleMatrix (renderVideoPanel stab trig r).videoPanel.scale ∧
    (renderVideoPanel stab trig r).videoPanel.scale =
      (if (if r.renderMode = RenderMode.VIDEO then r.windowWidth / r.videoPanel.textureWidth
            else (1 - r.mapPanel.relativeWidth) * r.windowWidth / r.videoPanel.textureWidth)
            * r.videoPanel.textureHeight > r.windowHeight then
          r.windowHeight / r.videoPanel.textureHeight
        else
          (if r.renderMode = RenderMode.VIDEO then r.windowWidth / r.videoPanel.textureWidth
            else (1 - r.mapPanel.relativeWidth) * r.windowWidth / r.videoPanel.textureWidth))
        * r.videoPanel.userScale ∧
    (∀ (m : Mat4) (sc : ℚ),
      (renderVideoPanel stab trig
        { r with videoPanel := { r.videoPanel with vertexMatrix := m, scale := sc } }
        ).videoPanel.vertexMatrix
      = (renderVideoPanel stab trig r).videoPanel.vertexMatrix) ∧
    (renderVideoPanel stab trig (renderVideoPanel stab trig r)).videoPanel.vertexMatrix
      = (renderVideoPanel stab trig r).videoPanel.vertexMatrix := by
  have hoff : (if r.renderMode ≠ RenderMode.VIDEO then
        0 + ((r.windowWidth / 2) - (((1 - r.mapPanel.relativeWidth) * r.windowWidth) / 2))
      else 0) = videoOffsetSpec r := by
    unfold videoOffsetSpec
    by_cases h : r.renderMode = RenderMode.VIDEO
    · simp [h]
    · simp only [ne_eq, h, not_false_eq_true, if_true, if_false]
      ring
  refine ⟨?_, ?_, ?_, ?_⟩
  · rw [renderVideoPanel_matrix, renderVideoPanel_scale]
    simp only [Mat4.scale, Mat4.rotate, Mat4.translate, projection_eq_orthoSpec, hoff]
  · rw [renderVideoPanel_scale]
    by_cases h : r.renderMode = RenderMode.VIDEO <;> simp [h]
  · intro m sc
    rw [renderVideoPanel_matrix, renderVideoPanel_matrix]
    rfl
  · conv_lhs => rw [renderVideoPanel_matrix]
    conv_rhs => rw [renderVideoPanel_matrix]
    simp only [projection, renderVideoPanel_inputs, renderVideoPanel_frame]

/-! ## Shape of the panel passes -/

/-- The video panel pass is its two halves in sequence. -/
theorem renderVideoPanel_eq_draw (stab : Stabilizer) (trig : Trig) (r : Renderer) :
    renderVideoPanel stab trig r =
      videoDraw (videoOffsetX r) (videoPanelNext stab trig r)
        { r with videoPanel := videoPanelNext stab trig r } := rfl

/-- The map panel pass is its two halves in sequence. -/
theorem renderMapPanel_eq_draw (trig : Trig) (r : Renderer) :
    renderMapPanel trig r =
      mapDraw trig (mapPanelNext trig r) { r with mapPanel := mapPanelNext trig r } := rfl

/-- The calls of the second half of the video pass: the full clear when one is
pending, the scissor set-up when clipping is enabled, the per-frame clear when
enabled, the draw, and the scissor reset. The pass leaves no full clear pending. -/
theorem videoDraw_calls (offset : ℚ) (p : Panel) (r1 : Renderer) :
    (videoDraw offset p r1).calls =
      r1.calls ++ (if r1.fullClearRequested then clearCalls p else [])
        ++ ((if p.clippingEnabled then
              [DrawCall.enableScissor,
               DrawCall.scissor
                (truncToInt ((r1.windowWidth - p.scale * p.textureWidth) / 2 + offset
                  + p.x + p.userX + 1 / 2))
                (truncToInt ((r1.windowHeight - p.scale * p.textureHeight) / 2
                  + p.y + p.userY + 1 / 2))
                (truncToInt (p.scale * p.textureWidth + 1 / 2))
                (truncToInt (p.scale * p.textureHeight + 1 / 2))]
             else [])
            ++ (if p.clearEnabled then clearCalls p else [])
            ++ renderPanel PanelId.video p ++ [DrawCall.disableScissor]) ∧
    (videoDraw offset p r1).fullClearRequested = false := by
  simp only [videoDraw, Renderer.issue]
  split_ifs <;> simp_all

/-- The calls of the second half of the map pass: the full clear when one is
pending, the scissor set-up when clipping is enabled, the per-frame clear when
enabled, the draw, the scissor reset, the route overlay, and the divider line when
clipping is enabled. The pass leaves no full clear pending. -/
theorem mapDraw_calls (trig : Trig) (p : Panel) (r1 : Renderer) :
    (mapDraw trig p r1).calls =
      r1.calls ++ (if r1.fullClearRequested then clearCalls p else [])
        ++ ((if p.clippingEnabled then
              [DrawCall.enableScissor,
               DrawCall.scissor 0 0
                (truncToInt (p.relativeWidth * r1.windowWidth + 1 / 2))
                (truncToInt r1.windowHeight)]
             else [])
            ++ (if p.clearEnabled then clearCalls p else [])
            ++ renderPanel PanelId.map p ++ [DrawCall.disableScissor]
            ++ routeCalls trig r1
            ++ (if p.clippingEnabled then
                [DrawCall.drawLine
                  (truncToInt (p.relativeWidth * r1.windowWidth + 1 / 2)) 0
                  (truncToInt (p.relativeWidth * r1.windowWidth + 1 / 2))
                  (truncToInt r1.windowHeight)]
               else [])) ∧
    (mapDraw trig p r1).fullClearRequested = false := by
  simp only [mapDraw, renderRoute, routeCalls, Renderer.issue]
  split_ifs <;> simp_all

/-- The calls of the video pass with no full clear pending, written out. -/
theorem videoPassCalls_eq (stab : Stabilizer) (trig : Trig) (r : Renderer) :
    videoPassCalls stab trig r =
      (if r.videoPanel.clippingEnabled then
        [DrawCall.enableScissor,
         DrawCall.scissor
          (truncToInt ((r.windowWidth
              - (videoPanelNext stab trig r).scale * r.videoPanel.textureWidth) / 2
            + videoOffsetX r + r.videoPanel.x + r.videoPanel.userX + 1 / 2))
          (truncToInt ((r.windowHeight
              - (videoPanelNext stab trig r).scale * r.videoPanel.textureHeight) / 2
            + r.videoPanel.y + r.videoPanel.userY + 1 / 2))
          (truncToInt ((videoPanelNext stab trig r).scale * r.videoPanel.textureWidth + 1 / 2))
          (truncToInt ((videoPanelNext stab trig r).scale * r.videoPanel.textureHeight + 1 / 2))]
       else [])
      ++ (if r.videoPanel.clearEnabled then clearCalls r.videoPanel else [])
      ++ renderPanel PanelId.video (videoPanelNext stab trig r)
      ++ [DrawCall.disableScissor] := by
  unfold videoPassCalls
  rw [renderVideoPanel_eq_draw, (videoDraw_calls _ _ _).1]
  simp only [Bool.false_eq_true, if_false, List.nil_append, List.append_nil]
  rfl

/-- The calls of the map pass with no full clear pending, written out. -/
theorem mapPassCalls_eq (trig : Trig) (r : Renderer) :
    mapPassCalls trig r =
      (if r.renderMode = RenderMode.ALL then
        [DrawCall.enableScissor,
         DrawCall.scissor 0 0
          (truncToInt (r.mapPanel.relativeWidth * r.windowWidth + 1 / 2))
          (truncToInt r.windowHeight)]
       else [])
      ++ (if r.mapPanel.clearEnabled then clearCalls r.mapPanel else [])
      ++ renderPanel PanelId.map (mapPanelNext trig r)
      ++ [DrawCall.disableScissor]
      ++ routeCalls trig { r with mapPanel := mapPanelNext trig r }
      ++ (if r.renderMode = RenderMode.ALL then
          [DrawCall.drawLine
            (truncToInt (r.mapPanel.relativeWidth * r.windowWidth + 1 / 2)) 0
            (truncToInt (r.mapPanel.relativeWidth * r.windowWidth + 1 / 2))
            (truncToInt r.windowHeight)]
         else []) := by
  unfold mapPassCalls
  rw [renderMapPanel_eq_draw, (mapDraw_calls _ _ _).1]
  simp only [Bool.false_eq_true, if_false, List.nil_append, List.append_nil]
  have hclip : (mapPanelNext trig { r with calls := [], fullClearRequested := false }
      ).clippingEnabled = decide (r.renderMode = RenderMode.ALL) := rfl
  simp only [hclip, decide_eq_true_eq]
  rfl

/-- The video panel pass appends the full clear when one is pending, then the
calls of the pass itself, and leaves no full clear pending. -/
theorem renderVideoPanel_calls_eq (stab : Stabilizer) (trig : Trig) (r : Renderer) :
    (renderVideoPanel stab trig r).calls =
      r.calls ++ (if r.fullClearRequested then clearCalls r.videoPanel else [])
        ++ videoPassCalls stab trig r ∧
    (renderVideoPanel stab trig r).fullClearRequested = false := by
  refine ⟨?_, ?_⟩
  · unfold videoPassCalls
    rw [renderVideoPanel_eq_draw, renderVideoPanel_eq_draw, (videoDraw_calls _ _ _).1,
      (videoDraw_calls _ _ _).1]
    simp only [Bool.false_eq_true, if_false, List.nil_append, List.append_nil]
    rfl
  · rw [renderVideoPanel_eq_draw]
    exact (videoDraw_calls _ _ _).2

/-- The map panel pass appends the full clear when one is pending, then the calls
of the pass itself, and leaves no full clear pending. -/
theorem renderMapPanel_calls_eq (trig : Trig) (r : Renderer) :
    (renderMapPanel trig r).calls =
      r.calls ++ (if r.fullClearRequested then clearCalls r.mapPanel else [])
        ++ mapPassCalls trig r ∧
    (renderMapPanel trig r).fullClearRequested = false := by
  refine ⟨?_, ?_⟩
  · unfold mapPassCalls
    rw [renderMapPanel_eq_draw, renderMapPanel_eq_draw, (mapDraw_calls _ _ _).1,
      (mapDraw_calls _ _ _).1]
    simp only [Bool.false_eq_true, if_false, List.nil_append, List.append_nil]
    rfl
  · rw [renderMapPanel_eq_draw]
    exact (mapDraw_calls _ _ _).2

/-- The video panel pass leaves the route path unchanged. -/
theorem renderVideoPanel_routePath (stab : Stabilizer) (trig : Trig) (r : Renderer) :
    (renderVideoPanel stab trig r).routePath = r.routePath := by
  rw [renderVideoPanel_eq_draw]
  simp only [videoDraw, Renderer.issue]
  split_ifs <;> rfl

/-- The updated map panel depends only on the map panel, the window size, the flip
flag and the mode. -/
theorem mapPanelNext_congr (trig : Trig) (r r1 : Renderer)
    (h1 : r1.mapPanel = r.mapPanel) (h2 : r1.windowWidth = r.windowWidth)
    (h3 : r1.windowHeight = r.windowHeight) (h4 : r1.shouldFlipOutput = r.shouldFlipOutput)
    (h5 : r1.renderMode = r.renderMode) :
    mapPanelNext trig r1 = mapPanelNext trig r := by
  simp only [mapPanelNext, projection, h1, h2, h3, h4, h5]

/-- The route overlay call depends only on the map panel, the window size, the mode
and the route path. -/
theorem routeCalls_congr (trig : Trig) (r r1 : Renderer)
    (h1 : r1.mapPanel = r.mapPanel) (h2 : r1.windowWidth = r.windowWidth)
    (h3 : r1.windowHeight = r.windowHeight) (h5 : r1.renderMode = r.renderMode)
    (h6 : r1.routePath = r.routePath) :
    routeCalls trig r1 = routeCalls trig r := by
  simp only [routeCalls, renderRoute, Renderer.issue, h1, h2, h3, h5, h6]

/-- The calls of the map pass are the same after the video pass as before it. -/
theorem mapPassCalls_after_video (stab : Stabilizer) (trig : Trig) (r : Renderer) :
    mapPassCalls trig (renderVideoPanel stab trig r) = mapPassCalls trig r := by
  have hf := renderVideoPanel_frame stab trig r
  have hi := renderVideoPanel_inputs stab trig r
  have hp := renderVideoPanel_routePath stab trig r
  have hn := mapPanelNext_congr trig r (renderVideoPanel stab trig r)
    hf.1 hi.1 hi.2.1 hi.2.2.1 hf.2.1
  have hrc := routeCalls_congr trig { r with mapPanel := mapPanelNext trig r }
    { renderVideoPanel stab trig r with mapPanel := mapPanelNext trig r }
    rfl hi.1 hi.2.1 hf.2.1 hp
  rw [mapPassCalls_eq, mapPassCalls_eq, hn, hrc, hf.1, hf.2.1, hi.1, hi.2.1]

/-- The scissor state after two lists of calls is the state after the second one,
started from the state after the first. -/
theorem scissorAfter_append (b : Bool) (l1 l2 : List DrawCall) :
    scissorAfter b (l1 ++ l2) = scissorAfter (scissorAfter b l1) l2 := by
  induction l1 generalizing b with
  | nil => rfl
  | cons c t ih =>
    cases c <;> exact ih _

/-- Issuing calls does not change what the video pass will do. -/
theorem issue_videoPass (stab : Stabilizer) (trig : Trig) (r : Renderer)
    (cs : List DrawCall) :
    videoPassCalls stab trig (r.issue cs) = videoPassCalls stab trig r := rfl

/-- Issuing calls does not change what the map pass will do. -/
theorem issue_mapPass (trig : Trig) (r : Renderer) (cs : List DrawCall) :
    mapPassCalls trig (r.issue cs) = mapPassCalls trig r := rfl

/-- Issuing calls changes neither the video panel nor the full clear request. -/
theorem issue_pending (r : Renderer) (cs : List DrawCall) :
    (r.issue cs).videoPanel = r.videoPanel ∧
    (r.issue cs).fullClearRequested = r.fullClearRequested :=
  ⟨rfl, rfl⟩

/-- The calls of one frame: the optional target binding, the full clear when one is
pending (with the colour of the first panel pass that runs), the passes selected by
the mode, the optional telemetry overlay and the optional target release. The frame
leaves no full clear pending. -/
theorem renderAll_calls (stab : Stabilizer) (trig : Trig) (r : Renderer) :
    (renderAll stab trig r).calls =
      r.calls
      ++ (if r.isEncoding then [DrawCall.bindTarget Target.output] else [])
      ++ (if r.fullClearRequested then
            clearCalls (if r.renderMode = RenderMode.MAP then r.mapPanel else r.videoPanel)
          else [])
      ++ (if r.renderMode = RenderMode.ALL ∨ r.renderMode = RenderMode.VIDEO then
            videoPassCalls stab trig r else [])
      ++ (if r.renderMode = RenderMode.ALL ∨ r.renderMode = RenderMode.MAP then
            mapPassCalls trig r else [])
      ++ (if r.showInfoPanel then [DrawCall.drawInfoPanel] else [])
      ++ (if r.isEncoding then [DrawCall.releaseTarget Target.output] else []) ∧
    (renderAll stab trig r).fullClearRequested = false := by
  cases hm : r.renderMode <;> cases he : r.isEncoding <;> cases hs : r.showInfoPanel <;>
    simp [renderAll, hm, he, hs, issue_frame, issue_videoPass, issue_mapPass, issue_pending,
      renderVideoPanel_frame,
      renderMapPanel_frame, renderInfoPanel, renderVideoPanel_calls_eq,
      renderMapPanel_calls_eq, mapPassCalls_after_video]

/-! ## Full clear -/

/-- A list that is empty or a single call counts no call satisfying a predicate
that the single call does not satisfy. -/
theorem countP_ite_singleton (p : Prop) [Decidable p] (c : DrawCall) (f : DrawCall → Bool)
    (h : f c = false) : (if p then [c] else []).countP f = 0 := by
  split_ifs <;> simp [h]

/-- The calls of renderPanel contain no colour clear. -/
theorem renderPanel_no_clear (id : PanelId) (panel : Panel) :
    (renderPanel id panel).countP DrawCall.isColorClear = 0 := by
  unfold renderPanel
  simp only [List.countP_append]
  rw [countP_ite_singleton _ _ _ rfl, countP_ite_singleton _ _ _ rfl,
    countP_ite_singleton _ _ _ rfl, countP_ite_singleton _ _ _ rfl,
    countP_ite_singleton _ _ _ rfl, countP_ite_singleton _ _ _ rfl]
  rfl

/-- The clear of a panel pass contains exactly one colour clear. -/
theorem clearCalls_one_clear (panel : Panel) :
    (clearCalls panel).countP DrawCall.isColorClear = 1 := rfl

/-- The route overlay contains no colour clear and does not touch the scissor
test. -/
theorem routeCalls_neutral (trig : Trig) (r : Renderer) :
    (routeCalls trig r).countP DrawCall.isColorClear = 0 ∧
    ∀ b : Bool, scissorAfter b (routeCalls trig r) = b := by
  simp only [routeCalls, renderRoute, Renderer.issue, List.nil_append]
  exact ⟨rfl, fun _ => rfl⟩

/-- The video pass contains one colour clear when clearEnabled is set and none
otherwise, and ends with the scissor test disabled. -/
theorem videoPassCalls_clears (stab : Stabilizer) (trig : Trig) (r : Renderer) :
    (videoPassCalls stab trig r).countP DrawCall.isColorClear
      = (if r.videoPanel.clearEnabled = true then 1 else 0) ∧
    ∀ b : Bool, scissorAfter b (videoPassCalls stab trig r) = false := by
  rw [videoPassCalls_eq]
  constructor
  · simp only [List.countP_append, renderPanel_no_clear]
    split_ifs <;> rfl
  · intro b
    rw [scissorAfter_append]
    rfl

/-- The map pass contains one colour clear when clearEnabled is set and none
otherwise, and ends with the scissor test disabled. -/
theorem mapPassCalls_clears (trig : Trig) (r : Renderer) :
    (mapPassCalls trig r).countP DrawCall.isColorClear
      = (if r.mapPanel.clearEnabled = true then 1 else 0) ∧
    ∀ b : Bool, scissorAfter b (mapPassCalls trig r) = false := by
  rw [mapPassCalls_eq]
  constructor
  · simp only [List.countP_append, renderPanel_no_clear, (routeCalls_neutral _ _).1]
    split_ifs <;> rfl
  · intro b
    simp only [scissorAfter_append, (routeCalls_neutral _ _).2]
    split_ifs <;> rfl

/-- The passes of a frame contain exactly the per-frame colour clears and end with
the scissor test disabled. -/
theorem panelPassCalls_clears (stab : Stabilizer) (trig : Trig) (r : Renderer) :
    (panelPassCalls stab trig r).countP DrawCall.isColorClear = perFrameClears r ∧
    ∀ b : Bool, scissorAfter b (panelPassCalls stab trig r) = false := by
  unfold panelPassCalls perFrameClears
  constructor
  · rw [List.countP_append]
    cases hm : r.renderMode <;>
      simp [(videoPassCalls_clears stab trig r).1, (mapPassCalls_clears trig r).1]
  · intro b
    rw [scissorAfter_append]
    cases hm : r.renderMode <;>
      simp [(videoPassCalls_clears stab trig r).2, (mapPassCalls_clears trig r).2,
        scissorAfter]

/-- C12: requestFullClear and resizeWindow leave a full clear pending. With a full
clear pending, the next renderAll, in whichever mode, issues the full colour clear
exactly once: it comes before every call of the first panel pass that runs, with
the colour of that panel and while the scissor test is still disabled, and the rest
of the frame is the frame that would run with no request pending, whose only colour
clears are the per-frame ones. The frame leaves fullClearRequested false and the
scissor test disabled, and the following frame consists of its passes alone, with
no full clear, and again leaves fullClearRequested false. -/
theorem renderAll_full_clear_once (stab next : Stabilizer) (trig : Trig)
    (r r0 : Renderer) (env : ResizeEnv) (W H : Int)
    (hreq : r.fullClearRequested = true) :
    ((requestFullClear r0).fullClearRequested = true ∧
      (resizeWindow env r0 W H).2.fullClearRequested = true) ∧
    ((renderAll stab trig r).calls =
        r.calls
        ++ (if r.isEncoding then [DrawCall.bindTarget Target.output] else [])
        ++ clearCalls (firstPanel r)
        ++ panelPassCalls stab trig r
        ++ (if r.showInfoPanel then [DrawCall.drawInfoPanel] else [])
        ++ (if r.isEncoding then [DrawCall.releaseTarget Target.output] else []) ∧
      (renderAll stab trig { r with fullClearRequested := false }).calls =
        r.calls
        ++ (if r.isEncoding then [DrawCall.bindTarget Target.output] else [])
        ++ panelPassCalls stab trig r
        ++ (if r.showInfoPanel then [DrawCall.drawInfoPanel] else [])
        ++ (if r.isEncoding then [DrawCall.releaseTarget Target.output] else [])) ∧
    (scissorAfter false (if r.isEncoding then [DrawCall.bindTarget Target.output] else [])
        = false ∧
      (clearCalls (firstPanel r) ++ panelPassCalls stab trig r).countP DrawCall.isColorClear
        = 1 + perFrameClears r ∧
      (panelPassCalls stab trig r).countP DrawCall.isColorClear = perFrameClears r ∧
      ∀ b : Bool, scissorAfter b (panelPassCalls stab trig r) = false) ∧
    (renderAll stab trig r).fullClearRequested = false ∧
    ((renderAll next trig (renderAll stab trig r)).calls =
        (renderAll stab trig r).calls
        ++ (if (renderAll stab trig r).isEncoding then [DrawCall.bindTarget Target.output]
            else [])
        ++ panelPassCalls next trig (renderAll stab trig r)
        ++ (if (renderAll stab trig r).showInfoPanel then [DrawCall.drawInfoPanel] else [])
        ++ (if (renderAll stab trig r).isEncoding then [DrawCall.releaseTarget Target.output]
            else []) ∧
      (renderAll next trig (renderAll stab trig r)).fullClearRequested = false) := by
  have hflag := (renderAll_calls stab trig r).2
  refine ⟨⟨rfl, ?_⟩, ⟨?_, ?_⟩, ⟨?_, ?_, (panelPassCalls_clears stab trig r).1,
    (panelPassCalls_clears stab trig r).2⟩, hflag, ?_, (renderAll_calls next trig _).2⟩
  · unfold resizeWindow
    cases h1 : env.outputValid <;> cases h2 : env.nonMultisampleValid <;> simp [h1, h2]
  · rw [(renderAll_calls stab trig r).1]
    simp only [hreq, if_true, firstPanel, panelPassCalls, List.append_assoc]
  · rw [(renderAll_calls stab trig _).1]
    simp only [Bool.false_eq_true, if_false, List.append_nil, panelPassCalls,
      List.append_assoc]
    rfl
  · cases r.isEncoding <;> rfl
  · rw [List.countP_append, (panelPassCalls_clears stab trig r).1, clearCalls_one_clear]
  · rw [(renderAll_calls next trig _).1, hflag]
    simp only [Bool.false_eq_true, if_false, List.append_nil, panelPassCalls,
      List.append_assoc]

/-- C12 witness: the sample renderer after requestFullClear has a full clear
pending; the next renderAll leaves none pending, and so does the frame after. -/
theorem renderAll_full_clear_once_witness :
    (requestFullClear sampleRenderer).fullClearRequested = true ∧
    (renderAll stillStabilizer sampleTrig
      (requestFullClear sampleRenderer)).fullClearRequested = false ∧
    (renderAll stillStabilizer sampleTrig (renderAll stillStabilizer sampleTrig
      (requestFullClear sampleRenderer))).fullClearRequested = false :=
  have h := renderAll_full_clear_once stillStabilizer stillStabilizer sampleTrig
    (requestFullClear sampleRenderer) sampleRenderer goodResizeEnv 640 480 rfl
  ⟨h.1.1, h.2.2.2.1, h.2.2.2.2.2⟩

/-! ## Frame data after resizing -/

/-- The state left by a successful resizeWindow: the window size, the frame data
and an output target. -/
theorem resizeWindow_success_state (env : ResizeEnv) (r : Renderer) (W H : Int)
    (hok : (resizeWindow env r W H).1 = true) :
    (resizeWindow env r W H).2.windowWidth = (W : ℚ) ∧
    (resizeWindow env r W H).2.windowHeight = (H : ℚ) ∧
    (resizeWindow env r W H).2.renderedFrameData =
      { data := some (toSizeT ((W : ℚ) * (H : ℚ) * 4)),
        dataLength := toSizeT ((W : ℚ) * (H : ℚ) * 4),
        rowLength := toSizeT ((W : ℚ) * 4),
        width := W, height := H } ∧
    ∃ fbo : Fbo, (resizeWindow env r W H).2.outputFramebuffer = some fbo := by
  rw [resizeWindow_result] at hok
  simp only [Bool.and_eq_true] at hok
  simp [resizeWindow, hok.1, hok.2, truncToInt_intCast, FrameData.empty]

/-- Given an output target, getRenderedFrame hands out the frame data of the
renderer and reads a windowWidth x windowHeight block of pixels from one of the
targets. -/
theorem getRenderedFrame_read (r : Renderer) (fbo : Fbo)
    (hfbo : r.outputFramebuffer = some fbo) :
    ∃ (r1 : Renderer) (before : List DrawCall) (source : Target),
      getRenderedFrame r = some (r.renderedFrameData, r1) ∧
      r1.calls = r.calls ++ before ++
        [DrawCall.bindTarget source,
         DrawCall.readPixels source (truncToInt r.windowWidth) (truncToInt r.windowHeight),
         DrawCall.releaseTarget source] := by
  by_cases hs : fbo.samples = 0
  · refine ⟨r.issue [DrawCall.bindTarget Target.output,
        DrawCall.readPixels Target.output (truncToInt r.windowWidth) (truncToInt r.windowHeight),
        DrawCall.releaseTarget Target.output], [], Target.output, ?_, ?_⟩
    · simp only [getRenderedFrame, hfbo, hs, ne_eq, not_true_eq_false, if_false]
      rfl
    · simp [Renderer.issue]
  · refine ⟨(r.issue [DrawCall.blitFramebuffer Target.nonMultisample Target.output
        (truncToInt r.windowWidth) (truncToInt r.windowHeight)]).issue
        [DrawCall.bindTarget Target.nonMultisample,
         DrawCall.readPixels Target.nonMultisample
          (truncToInt r.windowWidth) (truncToInt r.windowHeight),
         DrawCall.releaseTarget Target.nonMultisample],
      [DrawCall.blitFramebuffer Target.nonMultisample Target.output
        (truncToInt r.windowWidth) (truncToInt r.windowHeight)], Target.nonMultisample, ?_, ?_⟩
    · simp only [getRenderedFrame, hfbo, hs, ne_eq, not_false_eq_true, if_true]
      rfl
    · simp [Renderer.issue]

/-- C13: in the state reached by any sequence of resizeWindow calls whose last call
returned true (its sizes being non-negative ints with W*H*4 at most 2^53, as a
valid target requires), getRenderedFrame hands out a frame with width =
windowWidth, height = windowHeight, rowLength = 4*width, dataLength =
rowLength*height and a buffer of dataLength bytes, and the block of pixels it reads
is width x height, so that its 4*width*height bytes fill the buffer exactly. -/
theorem getRenderedFrame_fits (r0 : Renderer) (earlier : List ResizeCall) (last : ResizeCall)
    (hW0 : 0 ≤ last.newWidth) (hW1 : last.newWidth < 2 ^ 31)
    (hH0 : 0 ≤ last.newHeight) (_hH1 : last.newHeight < 2 ^ 31)
    (hsize : last.newWidth * last.newHeight * 4 ≤ 2 ^ 53)
    (hok : (resizeWindow last.env (resizeAll r0 earlier) last.newWidth last.newHeight).1
      = true) :
    ∃ (frame : FrameData) (r1 : Renderer) (before : List DrawCall) (source : Target),
      getRenderedFrame (resizeAll r0 (earlier ++ [last])) = some (frame, r1) ∧
      (frame.width : ℚ) = (resizeAll r0 (earlier ++ [last])).windowWidth ∧
      (frame.height : ℚ) = (resizeAll r0 (earlier ++ [last])).windowHeight ∧
      (frame.rowLength : Int) = 4 * frame.width ∧
      (frame.dataLength : Int) = frame.rowLength * frame.height ∧
      frame.data = some frame.dataLength ∧
      r1.calls = (resizeAll r0 (earlier ++ [last])).calls ++ before ++
        [DrawCall.bindTarget source,
         DrawCall.readPixels source frame.width frame.height,
         DrawCall.releaseTarget source] ∧
      (frame.dataLength : Int) = 4 * frame.width * frame.height := by
  have hstep : resizeAll r0 (earlier ++ [last]) =
      (resizeWindow last.env (resizeAll r0 earlier) last.newWidth last.newHeight).2 := by
    simp [resizeAll, List.foldl_append]
  obtain ⟨hw, hh, hframe, fbo, hfbo⟩ :=
    resizeWindow_success_state last.env (resizeAll r0 earlier) last.newWidth last.newHeight hok
  obtain ⟨r1, before, source, hget, hcalls⟩ := getRenderedFrame_read _ fbo hfbo
  have hprod : (last.newWidth : ℚ) * (last.newHeight : ℚ) * 4
      = ((last.newWidth * last.newHeight * 4 : Int) : ℚ) := by push_cast; ring
  have hrow : (last.newWidth : ℚ) * 4 = ((last.newWidth * 4 : Int) : ℚ) := by
    push_cast; ring
  have hp0 : 0 ≤ last.newWidth * last.newHeight * 4 := by positivity
  have hp1 : last.newWidth * last.newHeight * 4 < 2 ^ 64 := by linarith
  have hr0 : 0 ≤ last.newWidth * 4 := by positivity
  have hr1 : last.newWidth * 4 < 2 ^ 64 := by linarith
  have hdl := toSizeT_intCast _ hp0 hp1
  have hrl := toSizeT_intCast _ hr0 hr1
  rw [hstep]
  refine ⟨_, r1, before, source, hget, ?_, ?_, ?_, ?_, ?_, ?_, ?_⟩
  · rw [hframe, hw]
  · rw [hframe, hh]
  · rw [hframe]
    simp only [hrow, hrl]
    ring
  · rw [hframe]
    simp only [hprod, hrow, hdl, hrl]
    ring
  · rw [hframe]
  · rw [hcalls, hframe, hw, hh, truncToInt_intCast, truncToInt_intCast]
  · rw [hframe]
    simp only [hprod, hdl]
    ring

/-- C13 witness: after a failed resize to 800x600 followed by a successful resize to
640x480, the frame handed out is 640x480 with 2560 bytes per row and 1228800 bytes
in all. -/
theorem getRenderedFrame_fits_witness :
    ∃ (frame : FrameData) (r1 : Renderer),
      getRenderedFrame (resizeAll sampleRenderer
        ([{ env := failingResizeEnv, newWidth := 800, newHeight := 600 }]
          ++ [{ env := goodResizeEnv, newWidth := 640, newHeight := 480 }]))
        = some (frame, r1) ∧
      (frame.rowLength : Int) = 4 * frame.width ∧
      (frame.dataLength : Int) = frame.rowLength * frame.height :=
  have h := getRenderedFrame_fits sampleRenderer
    [{ env := failingResizeEnv, newWidth := 800, newHeight := 600 }]
    { env := goodResizeEnv, newWidth := 640, newHeight := 480 }
    (by decide) (by decide) (by decide) (by decide) (by norm_num)
    (by rw [resizeWindow_result]; rfl)
  ⟨h.choose, h.choose_spec.choose, h.choose_spec.choose_spec.choose_spec.choose_spec.1,
    h.choose_spec.choose_spec.choose_spec.choose_spec.2.2.2.1,
    h.choose_spec.choose_spec.choose_spec.choose_spec.2.2.2.2.1⟩

/-! ## Scissor rectangles in mode ALL -/

/-- The scale of the updated video panel, written out. -/
theorem videoPanelNext_scale (stab : Stabilizer) (trig : Trig) (r : Renderer) :
    (videoPanelNext stab trig r).scale =
      (if (if r.renderMode ≠ RenderMode.VIDEO then
              ((1 - r.mapPanel.relativeWidth) * r.windowWidth) / r.videoPanel.textureWidth
            else r.windowWidth / r.videoPanel.textureWidth) * r.videoPanel.textureHeight
            > r.windowHeight then
          r.windowHeight / r.videoPanel.textureHeight
        else
          (if r.renderMode ≠ RenderMode.VIDEO then
              ((1 - r.mapPanel.relativeWidth) * r.windowWidth) / r.videoPanel.textureWidth
            else r.windowWidth / r.videoPanel.textureWidth))
        * r.videoPanel.userScale := rfl

/-- Truncation toward zero is monotone on non-negative values. -/
theorem truncToInt_mono (a b : ℚ) (ha : 0 ≤ a) (hab : a ≤ b) :
    truncToInt a ≤ truncToInt b := by
  unfold truncToInt
  rw [if_pos ha, if_pos (le_trans ha hab)]
  exact Int.floor_mono hab

/-- No scissor rectangle is set by renderPanel. -/
theorem scissor_not_mem_renderPanel (id : PanelId) (panel : Panel) (x y w h : Int) :
    DrawCall.scissor x y w h ∉ renderPanel id panel := by
  simp [renderPanel]

/-- In mode ALL, with a user scale of at most one, the scaled video panel is no
wider than the part of the window not reserved for the map. -/
theorem video_width_within_region (W H tw th rw us : ℚ) (hW : 0 < W) (hH : 0 < H)
    (htw : 0 < tw) (hth : 0 < th) (hrw1 : rw ≤ 1) (hus0 : 0 < us) (hus1 : us ≤ 1) :
    (if (1 - rw) * W / tw * th > H then H / th else (1 - rw) * W / tw) * us * tw
      ≤ (1 - rw) * W := by
  have hfit := (fit_both ((1 - rw) * W) H tw th ((1 - rw) * W / tw) htw hth
    (by rw [div_mul_cancel₀ _ (ne_of_gt htw)])).1
  have hregion : 0 ≤ (1 - rw) * W := mul_nonneg (by linarith) (le_of_lt hW)
  have hnonneg : 0 ≤ (if (1 - rw) * W / tw * th > H then H / th else (1 - rw) * W / tw) := by
    split_ifs
    · exact le_of_lt (div_pos hH hth)
    · exact div_nonneg hregion (le_of_lt htw)
  have hprod : 0 ≤ (if (1 - rw) * W / tw * th > H then H / th else (1 - rw) * W / tw) * tw :=
    mul_nonneg hnonneg (le_of_lt htw)
  nlinarith

/-- In exact arithmetic, in mode ALL, for positive window and video texture sizes,
relativeWidth in [0,1], video base and user X position 0 and 0 < userScale <= 1, the
left edge (int)(leftMargin + videoPanelOffsetX + 0.5) of the scissor rectangle of
the video pass is at least the map border (int)(relativeWidth*windowWidth + 0.5).
The map pass sets its scissor rectangle from 0 to that border and draws the divider
line there, and every scissor rectangle set by the video pass starts at that left
edge, so the two rectangles do not overlap. In doubles the left edge can lie one
pixel left of the border (section The scissor rectangles in doubles). -/
theorem scissor_regions_disjoint (stab : Stabilizer) (trig : Trig) (r : Renderer)
    (hmode : r.renderMode = RenderMode.ALL)
    (hW : 0 < r.windowWidth) (hH : 0 < r.windowHeight)
    (htw : 0 < r.videoPanel.textureWidth) (hth : 0 < r.videoPanel.textureHeight)
    (hrw0 : 0 ≤ r.mapPanel.relativeWidth) (hrw1 : r.mapPanel.relativeWidth ≤ 1)
    (hx : r.videoPanel.x = 0) (hux : r.videoPanel.userX = 0)
    (hus0 : 0 < r.videoPanel.userScale) (hus1 : r.videoPanel.userScale ≤ 1) :
    truncToInt (r.mapPanel.relativeWidth * r.windowWidth + 1 / 2) ≤
      truncToInt ((r.windowWidth
          - (renderVideoPanel stab trig r).videoPanel.scale * r.videoPanel.textureWidth) / 2
        + videoOffsetX r + 1 / 2) ∧
    DrawCall.scissor 0 0 (truncToInt (r.mapPanel.relativeWidth * r.windowWidth + 1 / 2))
      (truncToInt r.windowHeight) ∈ mapPassCalls trig r ∧
    DrawCall.drawLine (truncToInt (r.mapPanel.relativeWidth * r.windowWidth + 1 / 2)) 0
      (truncToInt (r.mapPanel.relativeWidth * r.windowWidth + 1 / 2))
      (truncToInt r.windowHeight) ∈ mapPassCalls trig r ∧
    (∀ x y w h : Int, DrawCall.scissor x y w h ∈ mapPassCalls trig r →
      x = 0 ∧ w = truncToInt (r.mapPanel.relativeWidth * r.windowWidth + 1 / 2)) ∧
    (∀ x y w h : Int, DrawCall.scissor x y w h ∈ videoPassCalls stab trig r →
      x = truncToInt ((r.windowWidth
          - (renderVideoPanel stab trig r).videoPanel.scale * r.videoPanel.textureWidth) / 2
        + videoOffsetX r + 1 / 2)) ∧
    (r.videoPanel.clippingEnabled = true →
      ∃ x y w h : Int, DrawCall.scissor x y w h ∈ videoPassCalls stab trig r) ∧
    (∀ x y w h mx my mw mh : Int,
      DrawCall.scissor x y w h ∈ videoPassCalls stab trig r →
      DrawCall.scissor mx my mw mh ∈ mapPassCalls trig r →
      mx + mw ≤ x) := by
  have hscale : (renderVideoPanel stab trig r).videoPanel.scale
      = (videoPanelNext stab trig r).scale := by
    rw [renderVideoPanel_scale, videoPanelNext_scale]
  have hnum : truncToInt (r.mapPanel.relativeWidth * r.windowWidth + 1 / 2) ≤
      truncToInt ((r.windowWidth
          - (videoPanelNext stab trig r).scale * r.videoPanel.textureWidth) / 2
        + videoOffsetX r + 1 / 2) := by
    apply truncToInt_mono
    · have := mul_nonneg hrw0 (le_of_lt hW)
      linarith
    · have hwidth := video_width_within_region r.windowWidth r.windowHeight
        r.videoPanel.textureWidth r.videoPanel.textureHeight r.mapPanel.relativeWidth
        r.videoPanel.userScale hW hH htw hth hrw1 hus0 hus1
      rw [videoPanelNext_scale]
      simp only [videoOffsetX, hmode, ne_eq, reduceCtorEq, not_false_eq_true, if_true]
      linarith
  have hmap : ∀ x y w h : Int, DrawCall.scissor x y w h ∈ mapPassCalls trig r →
      x = 0 ∧ w = truncToInt (r.mapPanel.relativeWidth * r.windowWidth + 1 / 2) := by
    intro x y w h hmem
    rw [mapPassCalls_eq] at hmem
    simp [hmode, clearCalls, scissor_not_mem_renderPanel, routeCalls, renderRoute,
      Renderer.issue] at hmem
    rw [one_div]
    exact ⟨hmem.1, hmem.2.2.1⟩
  have hvideo : ∀ x y w h : Int, DrawCall.scissor x y w h ∈ videoPassCalls stab trig r →
      x = truncToInt ((r.windowWidth
          - (videoPanelNext stab trig r).scale * r.videoPanel.textureWidth) / 2
        + videoOffsetX r + 1 / 2) := by
    intro x y w h hmem
    rw [videoPassCalls_eq] at hmem
    simp [clearCalls, scissor_not_mem_renderPanel, hx, hux] at hmem
    rw [one_div]
    exact hmem.2.1
  rw [hscale]
  refine ⟨hnum, ?_, ?_, hmap, hvideo, ?_, ?_⟩
  · rw [mapPassCalls_eq]
    simp [hmode]
  · rw [mapPassCalls_eq]
    simp [hmode]
  · intro hclip
    rw [videoPassCalls_eq]
    simp only [hclip, if_true, List.mem_append, List.mem_cons, DrawCall.scissor.injEq]
    exact ⟨_, _, _, _, Or.inl (Or.inl (Or.inl (Or.inr (Or.inl ⟨rfl, rfl, rfl, rfl⟩))))⟩
  · intro x y w h mx my mw mh hv hm
    obtain ⟨hmx, hmw⟩ := hmap mx my mw mh hm
    rw [hvideo x y w h hv, hmx, hmw, zero_add]
    exact hnum

/-! ## Route overlay and map panel transform -/

/-- The rotation multiplied in by the map pass for angle a and the rotation applied
by renderRoute for angle -a use the same cosine and opposite sines, given that the
cosine is even, the sine is odd, and both are exact at 0 and 180 degrees. -/
theorem rotation_pair (trig : Trig) (a : ℚ)
    (heven : ∀ t, trig.cos (-t) = trig.cos t) (hodd : ∀ t, trig.sin (-t) = -trig.sin t)
    (h0 : trig.cos 0 = 1 ∧ trig.sin 0 = 0) (h180 : trig.cos 180 = -1 ∧ trig.sin 180 = 0) :
    ∃ c s : ℚ,
      rotateMatrix trig a = !![c, -s, 0, 0; s, c, 0, 0; 0, 0, 1, 0; 0, 0, 0, 1] ∧
      ∀ m : QMatrix, QMatrix.rotate m trig (-a) =
        { m with m11 := c * m.m11 - s * m.m21,
                 m12 := c * m.m12 - s * m.m22,
                 m21 := s * m.m11 + c * m.m21,
                 m22 := s * m.m12 + c * m.m22 } := by
  by_cases ha0 : a = 0
  · refine ⟨1, 0, ?_, ?_⟩
    · subst ha0
      simp only [rotateMatrix, if_true]
      ext i j
      fin_cases i <;> fin_cases j <;> rfl
    · intro m
      subst ha0
      simp [QMatrix.rotate, h0.1, h0.2]
  by_cases ha90 : a = 90
  · refine ⟨0, 1, ?_, ?_⟩
    · subst ha90
      simp [rotateMatrix]
    · intro m
      subst ha90
      norm_num [QMatrix.rotate]
  by_cases ham270 : a = -270
  · refine ⟨0, 1, ?_, ?_⟩
    · subst ham270
      simp [rotateMatrix]
    · intro m
      subst ham270
      norm_num [QMatrix.rotate]
  by_cases ham90 : a = -90
  · refine ⟨0, -1, ?_, ?_⟩
    · subst ham90
      norm_num [rotateMatrix]
    · intro m
      subst ham90
      norm_num [QMatrix.rotate]
  by_cases ha270 : a = 270
  · refine ⟨0, -1, ?_, ?_⟩
    · subst ha270
      norm_num [rotateMatrix]
    · intro m
      subst ha270
      norm_num [QMatrix.rotate]
  by_cases ha180 : a = 180
  · refine ⟨-1, 0, ?_, ?_⟩
    · subst ha180
      norm_num [rotateMatrix]
    · intro m
      subst ha180
      norm_num [QMatrix.rotate, heven, hodd, h180.1, h180.2]
  by_cases ham180 : a = -180
  · refine ⟨-1, 0, ?_, ?_⟩
    · subst ham180
      norm_num [rotateMatrix]
    · intro m
      subst ham180
      norm_num [QMatrix.rotate]
  · refine ⟨trig.cos a, trig.sin a, ?_, ?_⟩
    · simp [rotateMatrix, ha0, ha90, ham270, ham90, ha270, ha180, ham180]
    · intro m
      have e1 : ¬ (-a = 90) := fun h => ham90 (by linarith)
      have e2 : ¬ (-a = -270) := fun h => ha270 (by linarith)
      have e3 : ¬ (-a = 270) := fun h => ham270 (by linarith)
      have e4 : ¬ (-a = -90) := fun h => ha90 (by linarith)
      have e5 : ¬ (-a = 180) := fun h => ham180 (by linarith)
      simp only [QMatrix.rotate, e1, e2, e3, e4, e5, or_self, if_false, heven, hodd]
      congr 1 <;> ring

/-- The screen position of a quad vertex under ortho * translate * rotate * scale,
for a window with non-zero sides. -/
theorem screen_of_transform (W H tx ty c s k px py : ℚ) (hW : W ≠ 0) (hH : H ≠ 0) :
    screenPosition W H
      ((1 : Mat4) * orthoMatrix (-W / 2) (W / 2) (-H / 2) (H / 2) 0 1
        * translateMatrix tx ty 0
        * !![c, -s, 0, 0; s, c, 0, 0; 0, 0, 1, 0; 0, 0, 0, 1]
        * scaleMatrix k) px py
      = (W / 2 + tx + k * (c * px - s * py), H / 2 - ty - k * (s * px + c * py)) := by
  have hcond : ¬ (-W / 2 = W / 2 ∨ -H / 2 = H / 2 ∨ (0 : ℚ) = 1) := by
    rintro (h | h | h)
    · exact hW (by linarith)
    · exact hH (by linarith)
    · exact zero_ne_one h
  simp only [screenPosition, orthoMatrix, if_neg hcond, translateMatrix, scaleMatrix, one_mul]
  simp only [Matrix.mulVec, Matrix.dotProduct, Matrix.mul_apply, Fin.sum_univ_four,
    Matrix.of_apply, Matrix.cons_val', Matrix.cons_val_zero, Matrix.cons_val_one,
    Matrix.cons_val_two, Matrix.cons_val_three, Matrix.head_cons, Matrix.tail_cons,
    Matrix.empty_val', Matrix.cons_val_fin_one, Matrix.head_fin_const]
  simp only [Prod.mk.injEq]
  constructor <;> field_simp <;> ring

/-- A list that is empty or a single call other than drawPath holds no path
matrix. -/
theorem pathMatrix_ite_singleton (p : Prop) [Decidable p] (c : DrawCall)
    (h : c.pathMatrix = none) :
    (if p then [c] else []).filterMap DrawCall.pathMatrix = [] := by
  split_ifs <;> simp [h]

/-- The calls of renderPanel draw no path. -/
theorem renderPanel_no_path (id : PanelId) (panel : Panel) :
    drawPathMatrices (renderPanel id panel) = [] := by
  unfold drawPathMatrices renderPanel
  simp only [List.filterMap_append]
  rw [pathMatrix_ite_singleton _ (DrawCall.setMatrixUniform _ _) rfl,
    pathMatrix_ite_singleton _ (DrawCall.setIntUniform _ _) rfl,
    pathMatrix_ite_singleton _ (DrawCall.setFloatUniform _ panel.textureWidth) rfl,
    pathMatrix_ite_singleton _ (DrawCall.setFloatUniform _ panel.textureHeight) rfl,
    pathMatrix_ite_singleton _ (DrawCall.setFloatUniform _ panel.texelWidth) rfl,
    pathMatrix_ite_singleton _ (DrawCall.setFloatUniform _ panel.texelHeight) rfl]
  rfl

/-- The map pass draws exactly one path, with the 2D matrix built by renderRoute
from the window size and the placement and new scale of the map panel. -/
theorem mapPassCalls_path (trig : Trig) (r : Renderer) :
    drawPathMatrices (mapPassCalls trig r) =
      [(((QMatrix.identity.translate
            (r.windowWidth / 2 + r.mapPanel.x + r.mapPanel.userX)
            (r.windowHeight / 2 - r.mapPanel.y - r.mapPanel.userY)).scale
          (mapPanelNext trig r).scale (mapPanelNext trig r).scale).rotate trig
        (-(r.mapPanel.angle + r.mapPanel.userAngle)))] := by
  have hroute : drawPathMatrices (routeCalls trig { r with mapPanel := mapPanelNext trig r })
      = [(((QMatrix.identity.translate
            (r.windowWidth / 2 + r.mapPanel.x + r.mapPanel.userX)
            (r.windowHeight / 2 - r.mapPanel.y - r.mapPanel.userY)).scale
          (mapPanelNext trig r).scale (mapPanelNext trig r).scale).rotate trig
        (-(r.mapPanel.angle + r.mapPanel.userAngle)))] := rfl
  have hpanel := renderPanel_no_path PanelId.map (mapPanelNext trig r)
  unfold drawPathMatrices at hroute hpanel ⊢
  rw [mapPassCalls_eq]
  simp only [List.filterMap_append, hroute, hpanel]
  split_ifs <;> rfl

/-- The second half of the map pass leaves the map panel as it finds it. -/
theorem mapDraw_mapPanel (trig : Trig) (p : Panel) (r1 : Renderer) :
    (mapDraw trig p r1).mapPanel = r1.mapPanel := by
  simp only [mapDraw, renderRoute, Renderer.issue]
  split_ifs <;> rfl

/-- C11: in one map pass with unflipped output and a window with non-zero sides,
exactly one route path is drawn, and its 2D matrix sends the route-space point
(px, -py) to the screen position that the vertex matrix of the map panel followed
by the viewport mapping gives to the point (px, py) of the map quad, for every
point. Cosine and sine are taken even and odd and exact at 0 and 180 degrees. -/
theorem route_follows_map_panel (trig : Trig) (r : Renderer)
    (hflip : r.shouldFlipOutput = false)
    (hW : r.windowWidth ≠ 0) (hH : r.windowHeight ≠ 0)
    (heven : ∀ t, trig.cos (-t) = trig.cos t) (hodd : ∀ t, trig.sin (-t) = -trig.sin t)
    (h0 : trig.cos 0 = 1 ∧ trig.sin 0 = 0) (h180 : trig.cos 180 = -1 ∧ trig.sin 180 = 0) :
    ∃ m : QMatrix,
      drawPathMatrices (mapPassCalls trig r) = [m] ∧
      m = ((QMatrix.identity.translate
              (r.windowWidth / 2 + r.mapPanel.x + r.mapPanel.userX)
              (r.windowHeight / 2 - r.mapPanel.y - r.mapPanel.userY)).scale
            (renderMapPanel trig r).mapPanel.scale
            (renderMapPanel trig r).mapPanel.scale).rotate trig
          (-(r.mapPanel.angle + r.mapPanel.userAngle)) ∧
      (renderMapPanel trig r).mapPanel.vertexMatrix =
        orthoMatrix (-r.windowWidth / 2) (r.windowWidth / 2)
            (-r.windowHeight / 2) (r.windowHeight / 2) 0 1
          * translateMatrix (r.mapPanel.x + r.mapPanel.userX)
              (r.mapPanel.y + r.mapPanel.userY) 0
          * rotateMatrix trig (r.mapPanel.angle + r.mapPanel.userAngle)
          * scaleMatrix (renderMapPanel trig r).mapPanel.scale ∧
      ∀ px py : ℚ,
        screenPosition r.windowWidth r.windowHeight
          (renderMapPanel trig r).mapPanel.vertexMatrix px py = m.map px (-py) := by
  have hpanel : (renderMapPanel trig r).mapPanel = mapPanelNext trig r := by
    rw [renderMapPanel_eq_draw, mapDraw_mapPanel]
  have hmatrix : (mapPanelNext trig r).vertexMatrix =
      (1 : Mat4) * orthoMatrix (-r.windowWidth / 2) (r.windowWidth / 2)
            (-r.windowHeight / 2) (r.windowHeight / 2) 0 1
          * translateMatrix (r.mapPanel.x + r.mapPanel.userX)
              (r.mapPanel.y + r.mapPanel.userY) 0
          * rotateMatrix trig (r.mapPanel.angle + r.mapPanel.userAngle)
          * scaleMatrix (mapPanelNext trig r).scale := by
    simp only [mapPanelNext, projection, hflip, Mat4.scale, Mat4.rotate, Mat4.translate,
      Mat4.ortho, Bool.not_false, if_true]
  obtain ⟨c, s, hrot4, hrot2⟩ :=
    rotation_pair trig (r.mapPanel.angle + r.mapPanel.userAngle) heven hodd h0 h180
  refine ⟨_, mapPassCalls_path trig r, by rw [hpanel], ?_, ?_⟩
  · rw [hpanel, hmatrix, one_mul]
  · intro px py
    rw [hpanel, hmatrix, hrot4, hrot2, screen_of_transform _ _ _ _ _ _ _ _ _ hW hH]
    simp only [QMatrix.map, QMatrix.scale, QMatrix.translate, QMatrix.identity, Prod.mk.injEq]
    constructor <;> ring

/-- The cosine of rightAngleTrig is even and its sine is odd. -/
theorem rightAngleTrig_parity (t : ℚ) :
    rightAngleTrig.cos (-t) = rightAngleTrig.cos t ∧
    rightAngleTrig.sin (-t) = -rightAngleTrig.sin t := by
  have e1 : (-t = 180) ↔ (t = -180) := neg_eq_iff_eq_neg
  have e2 : (-t = -180) ↔ (t = 180) := neg_inj
  have e3 : (-t = 90) ↔ (t = -90) := neg_eq_iff_eq_neg
  have e4 : (-t = -90) ↔ (t = 90) := neg_inj
  have e5 : (-t = 270) ↔ (t = -270) := neg_eq_iff_eq_neg
  have e6 : (-t = -270) ↔ (t = 270) := neg_inj
  simp only [rightAngleTrig, e1, e2, e3, e4, e5, e6]
  constructor
  · by_cases h1 : t = 180 <;> by_cases h2 : t = -180 <;> by_cases h3 : t = 90 <;>
      by_cases h4 : t = -90 <;> by_cases h5 : t = 270 <;> by_cases h6 : t = -270 <;>
      simp [h1, h2, h3, h4, h5, h6]
  · by_cases h3 : t = 90
    · subst h3; norm_num
    by_cases h4 : t = -90
    · subst h4; norm_num
    by_cases h5 : t = 270
    · subst h5; norm_num
    by_cases h6 : t = -270
    · subst h6; norm_num
    simp [h3, h4, h5, h6]

/-- C11 witness: for the sample renderer with its map panel turned by 180 degrees,
the one route path of the map pass is drawn with a matrix that agrees with the
vertex matrix of the map panel at every point. -/
theorem route_follows_map_panel_witness :
    ∃ m : QMatrix,
      drawPathMatrices (mapPassCalls rightAngleTrig turnedRenderer) = [m] ∧
      ∀ px py : ℚ,
        screenPosition turnedRenderer.windowWidth turnedRenderer.windowHeight
          (renderMapPanel rightAngleTrig turnedRenderer).mapPanel.vertexMatrix px py
          = m.map px (-py) :=
  have h := route_follows_map_panel rightAngleTrig turnedRenderer rfl
    (by norm_num [turnedRenderer, sampleRenderer])
    (by norm_num [turnedRenderer, sampleRenderer])
    (fun t => (rightAngleTrig_parity t).1) (fun t => (rightAngleTrig_parity t).2)
    (by norm_num [rightAngleTrig]) (by norm_num [rightAngleTrig])
  ⟨h.choose, h.choose_spec.1, h.choose_spec.2.2.2⟩

/-- An instance of the exact order of the edges: the sample renderer in mode ALL
(window 1920x1080, texture 3840x2160, relativeWidth 1/4, user scale 1) meets every
hypothesis, and the left edge of its video scissor rectangle is not left of the map
border. -/
theorem scissor_regions_disjoint_witness :
    truncToInt ((setRenderMode sampleRenderer RenderMode.ALL).mapPanel.relativeWidth
        * (setRenderMode sampleRenderer RenderMode.ALL).windowWidth + 1 / 2) ≤
      truncToInt (((setRenderMode sampleRenderer RenderMode.ALL).windowWidth
          - (renderVideoPanel stillStabilizer sampleTrig
              (setRenderMode sampleRenderer RenderMode.ALL)).videoPanel.scale
            * (setRenderMode sampleRenderer RenderMode.ALL).videoPanel.textureWidth) / 2
        + videoOffsetX (setRenderMode sampleRenderer RenderMode.ALL) + 1 / 2) :=
  (scissor_regions_disjoint stillStabilizer sampleTrig
    (setRenderMode sampleRenderer RenderMode.ALL) rfl
    (by norm_num [setRenderMode, sampleRenderer])
    (by norm_num [setRenderMode, sampleRenderer])
    (by norm_num [setRenderMode, sampleRenderer, samplePanel])
    (by norm_num [setRenderMode, sampleRenderer, samplePanel])
    (by norm_num [setRenderMode, sampleRenderer, samplePanel])
    (by norm_num [setRenderMode, sampleRenderer, samplePanel])
    rfl rfl
    (by norm_num [setRenderMode, sampleRenderer, samplePanel])
    (by norm_num [setRenderMode, sampleRenderer, samplePanel])).1

/-! ## Rounding to binary64 -/

/-- Rounding to an integer moves a value by at most one half. -/
theorem roundHalfEven_near (y : ℚ) : |(roundHalfEven y : ℚ) - y| ≤ 1 / 2 := by
  have h1 := Int.floor_le y
  have h2 := Int.lt_floor_add_one y
  unfold roundHalfEven
  split_ifs with ha hb hc
  · rw [abs_le]; constructor <;> linarith
  · rw [abs_le]; push_cast; constructor <;> linarith
  · rw [abs_le]; constructor <;> linarith
  · rw [abs_le]; push_cast; constructor <;> linarith

/-- An integer within less than one half of a value is its rounding. -/
theorem roundHalfEven_eq (y : ℚ) (m : Int) (h : |y - m| < 1 / 2) : roundHalfEven y = m := by
  rw [abs_lt] at h
  by_cases hm : (m : ℚ) ≤ y
  · have hf : ⌊y⌋ = m := by
      rw [Int.floor_eq_iff]; constructor <;> linarith
    unfold roundHalfEven
    rw [hf, if_pos (by linarith)]
  · have hf : ⌊y⌋ = m - 1 := by
      rw [Int.floor_eq_iff]; push_cast; constructor <;> linarith
    unfold roundHalfEven
    rw [hf, if_neg (by push_cast; linarith), if_pos (by push_cast; linarith)]
    ring

/-- The rounding of a non-negative value is non-negative. -/
theorem roundHalfEven_nonneg (y : ℚ) (hy : 0 ≤ y) : 0 ≤ roundHalfEven y := by
  have h : 0 ≤ ⌊y⌋ := Int.floor_nonneg.mpr hy
  unfold roundHalfEven
  split_ifs <;> omega

/-- The spacing of the binary64 numbers is positive. -/
theorem ulp_pos (q : ℚ) : 0 < ulp q := by
  unfold ulp; positivity

/-- The spacing of the binary64 numbers around q is at most |q|/2^52, or is the
spacing 2^(-1074) of the subnormal numbers. -/
theorem ulp_le (q : ℚ) (hq : q ≠ 0) : ulp q ≤ max (|q| / 2 ^ 52) (1 / 2 ^ 1074) := by
  have hpos : 0 < |q| := abs_pos.mpr hq
  by_cases hl : -1022 ≤ Int.log 2 |q|
  · apply le_max_of_le_left
    have h := Int.zpow_log_le_self (b := 2) (by norm_num) hpos
    unfold ulp
    rw [max_eq_left hl, zpow_sub₀ (by norm_num : (2 : ℚ) ≠ 0)]
    have h52 : (2 : ℚ) ^ (52 : ℤ) = 2 ^ 52 := by norm_num
    rw [h52]
    have : ((2 : ℕ) : ℚ) = 2 := by norm_num
    rw [this] at h
    exact div_le_div_of_nonneg_right h (by positivity)
  · apply le_max_of_le_right
    unfold ulp
    rw [max_eq_right (by omega)]
    have e : (-1022 : ℤ) - 52 = -((1074 : ℕ) : ℤ) := by norm_num
    rw [e, zpow_neg, zpow_natCast, one_div]

/-- Rounding to binary64 moves a value by at most 2^-53 of its magnitude, or by at
most half the spacing of the subnormal numbers. -/
theorem roundDouble_err (x : ℚ) :
    |roundDouble x - x| ≤ max (|x| / 2 ^ 53) underflowStep := by
  unfold roundDouble
  split_ifs with hx
  · simp [hx, underflowStep]
  · have hp := ulp_pos x
    have hn := roundHalfEven_near (x / ulp x)
    have hu := ulp_le x hx
    have e : (roundHalfEven (x / ulp x) : ℚ) * ulp x - x
        = ((roundHalfEven (x / ulp x) : ℚ) - x / ulp x) * ulp x := by
      field_simp
    rw [e, abs_mul, abs_of_pos hp]
    have h1 : |(roundHalfEven (x / ulp x) : ℚ) - x / ulp x| * ulp x ≤ 1 / 2 * ulp x :=
      mul_le_mul_of_nonneg_right hn (le_of_lt hp)
    rcases le_max_iff.mp hu with h | h
    · apply le_max_of_le_left
      calc |(roundHalfEven (x / ulp x) : ℚ) - x / ulp x| * ulp x
          ≤ 1 / 2 * ulp x := h1
        _ ≤ 1 / 2 * (|x| / 2 ^ 52) := by linarith
        _ = |x| / 2 ^ 53 := by ring
    · apply le_max_of_le_right
      unfold underflowStep
      calc |(roundHalfEven (x / ulp x) : ℚ) - x / ulp x| * ulp x
          ≤ 1 / 2 * ulp x := h1
        _ ≤ 1 / 2 * (1 / 2 ^ 1074) := by linarith
        _ = 1 / 2 ^ 1075 := by norm_num

/-- The value of a rounding, from its exponent e and significand m: q lies between
2^e and 2^(e+1), in the normal range, and m is the integer nearest to q/2^(e-52). -/
theorem roundDouble_eq (q : ℚ) (e m : Int) (he : -1022 ≤ e) (hq : 0 < q)
    (h1 : (2 : ℚ) ^ e ≤ q) (h2 : q < (2 : ℚ) ^ (e + 1))
    (hm : |q / (2 : ℚ) ^ (e - 52) - m| < 1 / 2) :
    roundDouble q = m * (2 : ℚ) ^ (e - 52) := by
  have habs : |q| = q := abs_of_pos hq
  have two : ((2 : ℕ) : ℚ) = 2 := by norm_num
  have hlog : Int.log 2 |q| = e := by
    rw [habs]
    have a1 : e ≤ Int.log 2 q := by
      rw [← Int.zpow_le_iff_le_log (by norm_num) hq, two]; exact h1
    have a2 : Int.log 2 q < e + 1 := by
      rw [← Int.lt_zpow_iff_log_lt (by norm_num) hq, two]; exact h2
    omega
  unfold roundDouble ulp
  rw [if_neg (ne_of_gt hq), hlog, max_eq_left he, roundHalfEven_eq _ m hm]

/-- Rounding keeps a non-negative value non-negative. -/
theorem roundDouble_nonneg (x : ℚ) (hx : 0 ≤ x) : 0 ≤ roundDouble x := by
  unfold roundDouble
  split_ifs with h0
  · exact le_refl 0
  · have hp := ulp_pos x
    have h1 : 0 ≤ roundHalfEven (x / ulp x) :=
      roundHalfEven_nonneg _ (div_nonneg hx (le_of_lt hp))
    have h2 : (0 : ℚ) ≤ (roundHalfEven (x / ulp x) : ℚ) := by exact_mod_cast h1
    exact mul_nonneg h2 (le_of_lt hp)

/-- The rounding factor is at least one. -/
theorem roundingFactor_ge_one : 1 ≤ roundingFactor := by
  unfold roundingFactor; norm_num

/-- The underflow step is positive. -/
theorem underflowStep_pos : 0 < underflowStep := by
  unfold underflowStep; positivity

/-- Rounding enlarges a non-negative value by at most the rounding factor, or by at
most the underflow step. -/
theorem roundDouble_le_mul (x : ℚ) (hx : 0 ≤ x) :
    roundDouble x ≤ x * roundingFactor + underflowStep := by
  have h := roundDouble_err x
  have hd := underflowStep_pos
  rw [abs_of_nonneg hx] at h
  have hm : max (x / 2 ^ 53) underflowStep ≤ x / 2 ^ 53 + underflowStep :=
    max_le (by linarith) (by linarith [div_nonneg hx (by positivity : (0 : ℚ) ≤ 2 ^ 53)])
  have h2 := (abs_le.mp (le_trans h hm)).2
  have e : x * roundingFactor = x + x / 2 ^ 53 + x / (2 ^ 53 * (2 ^ 53 - 1)) := by
    unfold roundingFactor; field_simp; ring
  have : 0 ≤ x / (2 ^ 53 * (2 ^ 53 - 1)) := by positivity
  linarith

/-- A non-negative value is at most its rounding enlarged by the rounding factor,
plus the underflow step. -/
theorem le_roundDouble_mul (x : ℚ) (hx : 0 ≤ x) :
    x ≤ roundDouble x * roundingFactor + underflowStep := by
  have h := roundDouble_err x
  have hd := underflowStep_pos
  have hn := roundDouble_nonneg x hx
  have ha := roundingFactor_ge_one
  rw [abs_of_nonneg hx] at h
  rcases le_max_iff.mp h with h | h
  · have h1 : x - x / 2 ^ 53 ≤ roundDouble x := by linarith [(abs_le.mp h).1]
    have e : x = (x - x / 2 ^ 53) * roundingFactor := by
      unfold roundingFactor
      field_simp
      ring
    have h2 : (x - x / 2 ^ 53) * roundingFactor ≤ roundDouble x * roundingFactor :=
      mul_le_mul_of_nonneg_right h1 (by linarith)
    linarith
  · have h1 : x ≤ roundDouble x + underflowStep := by linarith [(abs_le.mp h).1]
    have h2 : roundDouble x * 1 ≤ roundDouble x * roundingFactor :=
      mul_le_mul_of_nonneg_left ha hn
    linarith

/-- Rounding a value between -M and M, for M at least 1, moves it by at most M/2^53
and keeps it between -2M and 2M. -/
theorem roundDouble_near (x M : ℚ) (hM : 1 ≤ M) (hl : -M ≤ x) (hu : x ≤ M) :
    x - M / 2 ^ 53 ≤ roundDouble x ∧ roundDouble x ≤ x + M / 2 ^ 53 ∧
    -(2 * M) ≤ roundDouble x ∧ roundDouble x ≤ 2 * M := by
  have he := roundDouble_err x
  have habs : |x| ≤ M := abs_le.mpr ⟨hl, hu⟩
  have h1 : |roundDouble x - x| ≤ M / 2 ^ 53 := by
    apply le_trans he
    apply max_le
    · exact div_le_div_of_nonneg_right habs (by positivity)
    · unfold underflowStep
      calc (1 : ℚ) / 2 ^ 1075 ≤ 1 / 2 ^ 53 := by norm_num
        _ ≤ M / 2 ^ 53 := div_le_div_of_nonneg_right hM (by positivity)
  have h2 : M / 2 ^ 53 ≤ M := div_le_self (by linarith) (by norm_num)
  rw [abs_le] at h1
  refine ⟨by linarith [h1.1], by linarith [h1.2], by linarith [h1.1], by linarith [h1.2]⟩

/-- Truncation of two non-negative values that differ by at most one. -/
theorem truncToInt_within_one (b x : ℚ) (hb : 0 ≤ b) (hx : 0 ≤ x) (h : b ≤ x + 1) :
    truncToInt b - 1 ≤ truncToInt x := by
  unfold truncToInt
  rw [if_pos hb, if_pos hx]
  have h1 : ⌊b⌋ ≤ ⌊x + 1⌋ := Int.floor_mono h
  rw [Int.floor_add_one] at h1
  linarith

/-- The fit step in rounded arithmetic when the height test passes: a bounds the
relative effect of one rounding and d its absolute effect near zero. -/
theorem fit_double_height_bound (a d H tw th C s0 t q s : ℚ) (ha : 1 ≤ a) (hd : 0 ≤ d)
    (htw : 0 ≤ tw) (hth : 1 ≤ th) (hw : s0 * tw ≤ C)
    (ht2 : t ≤ s0 * th * a + d) (hq : q ≤ H / th * a + d)
    (hb : t > H) (hs : s ≤ q * a + d) :
    s * tw ≤ C * a ^ 3 + 3 * d * a ^ 2 * tw ∧ s * th ≤ H * a ^ 2 + 2 * d * a * th := by
  have ha0 : 0 ≤ a := by linarith
  have hth0 : 0 < th := by linarith
  have hda0 : 0 ≤ d * a := mul_nonneg hd ha0
  have hda : d * 1 ≤ d * a := mul_le_mul_of_nonneg_left ha hd
  have hda2 : d * a * 1 ≤ d * a * a := mul_le_mul_of_nonneg_left ha hda0
  have hdth : d * 1 ≤ d * th := mul_le_mul_of_nonneg_left hth hd
  have hdath : d * a * 1 ≤ d * a * th := mul_le_mul_of_nonneg_left hth hda0
  have hdtha : d * th * 1 ≤ d * th * a :=
    mul_le_mul_of_nonneg_left ha (mul_nonneg hd (le_of_lt hth0))
  have hHth : H / th ≤ s0 * a + d := by
    rw [div_le_iff₀ hth0]
    have e : (s0 * a + d) * th = s0 * th * a + d * th := by ring
    linarith
  have hq2 : q ≤ s0 * a ^ 2 + d * a + d := by
    have h := mul_le_mul_of_nonneg_right hHth ha0
    have e : (s0 * a + d) * a = s0 * a ^ 2 + d * a := by ring
    linarith
  have hs2 : s ≤ s0 * a ^ 3 + 3 * d * a ^ 2 := by
    have h := mul_le_mul_of_nonneg_right hq2 ha0
    have e : (s0 * a ^ 2 + d * a + d) * a = s0 * a ^ 3 + d * a ^ 2 + d * a := by ring
    have e2 : d * a * a = d * a ^ 2 := by ring
    linarith
  constructor
  · have h1 := mul_le_mul_of_nonneg_right hs2 htw
    have h2 := mul_le_mul_of_nonneg_right hw (by positivity : (0 : ℚ) ≤ a ^ 3)
    have e : (s0 * a ^ 3 + 3 * d * a ^ 2) * tw = s0 * tw * a ^ 3 + 3 * d * a ^ 2 * tw := by
      ring
    linarith
  · have h0 : s ≤ H / th * a ^ 2 + d * a + d := by
      have h := mul_le_mul_of_nonneg_right hq ha0
      have e : (H / th * a + d) * a = H / th * a ^ 2 + d * a := by ring
      linarith
    have h1 := mul_le_mul_of_nonneg_right h0 (le_of_lt hth0)
    have e : (H / th * a ^ 2 + d * a + d) * th = H * a ^ 2 + d * a * th + d * th := by
      field_simp
    have e2 : d * th * a = d * a * th := by ring
    linarith

/-- The fit step in rounded arithmetic when the height test fails. -/
theorem fit_double_width_bound (a d H tw th C s0 t s : ℚ) (ha : 1 ≤ a) (hd : 0 ≤ d)
    (htw : 0 ≤ tw) (hth : 1 ≤ th) (hC : 0 ≤ C) (hw : s0 * tw ≤ C)
    (ht1 : s0 * th ≤ t * a + d)
    (hb : t ≤ H) (hs : s ≤ s0 * a + d) :
    s * tw ≤ C * a ^ 3 + 3 * d * a ^ 2 * tw ∧ s * th ≤ H * a ^ 2 + 2 * d * a * th := by
  have ha0 : 0 ≤ a := by linarith
  have hth0 : 0 < th := by linarith
  have hda0 : 0 ≤ d * a := mul_nonneg hd ha0
  have hdath : d * a * 1 ≤ d * a * th := mul_le_mul_of_nonneg_left hth hda0
  have hdtha : d * th * 1 ≤ d * th * a :=
    mul_le_mul_of_nonneg_left ha (mul_nonneg hd (le_of_lt hth0))
  have ha2 : 1 ≤ a ^ 2 := one_le_pow₀ ha
  constructor
  · have h1 := mul_le_mul_of_nonneg_right hs htw
    have h2 := mul_le_mul_of_nonneg_right hw ha0
    have h3 := mul_le_mul_of_nonneg_left ha2 (mul_nonneg hC ha0)
    have h4 : d ≤ 3 * d * a ^ 2 := by
      have h := mul_le_mul_of_nonneg_left ha2 hd
      linarith
    have h5 := mul_le_mul_of_nonneg_right h4 htw
    have e1 : (s0 * a + d) * tw = s0 * tw * a + d * tw := by ring
    have e2 : C * a * a ^ 2 = C * a ^ 3 := by ring
    linarith
  · have h1 := mul_le_mul_of_nonneg_right hs (le_of_lt hth0)
    have h2 := mul_le_mul_of_nonneg_right ht1 ha0
    have h3 := mul_le_mul_of_nonneg_right hb (by positivity : (0 : ℚ) ≤ a * a)
    have e1 : (s0 * a + d) * th = s0 * th * a + d * th := by ring
    have e2 : (t * a + d) * a = t * (a * a) + d * a := by ring
    have e3 : H * (a * a) = H * a ^ 2 := by ring
    have e4 : d * th * a = d * a * th := by ring
    linarith

/-- Numeric bounds on the two rounding constants. -/
theorem rounding_constants :
    0 ≤ underflowStep ∧
    3 * underflowStep * roundingFactor ^ 2 * 2 ^ 31 ≤ 1 / 2 ^ 200 ∧
    2 * underflowStep * roundingFactor * 2 ^ 31 ≤ 1 / 2 ^ 200 ∧
    underflowStep * 2 ^ 31 * roundingFactor ^ 2 + underflowStep * roundingFactor
      + underflowStep * 2 ^ 31 ≤ 1 / 2 ^ 200 ∧
    underflowStep * 2 ^ 31 ≤ 1 / 2 ^ 200 := by
  unfold underflowStep roundingFactor
  norm_num

/-- The scale after the height test and the multiplication by userScale, computed in
doubles from a candidate scale s0 whose width s0 * tw is at most C. -/
theorem fit_scale_double (H tw th us s0 C : ℚ)
    (htw0 : 0 ≤ tw) (htw1 : tw ≤ 2 ^ 31) (hth0 : 1 ≤ th) (hth1 : th ≤ 2 ^ 31)
    (hH : 0 ≤ H) (hus0 : 0 ≤ us) (hus1 : us ≤ 1)
    (hs0 : 0 ≤ s0) (hC : 0 ≤ C) (hw : s0 * tw ≤ C) :
    0 ≤ roundDouble ((if roundDouble (s0 * th) > H then roundDouble (H / th) else s0) * us) ∧
    roundDouble ((if roundDouble (s0 * th) > H then roundDouble (H / th) else s0) * us) * tw
      ≤ C * roundingFactor ^ 3 + 1 / 2 ^ 200 ∧
    roundDouble ((if roundDouble (s0 * th) > H then roundDouble (H / th) else s0) * us) * th
      ≤ H * roundingFactor ^ 2 + 1 / 2 ^ 200 := by
  obtain ⟨hd, k1, k2, -, -⟩ := rounding_constants
  have ha := roundingFactor_ge_one
  have ha0 : 0 ≤ roundingFactor := by linarith
  have hth : 0 < th := by linarith
  have hx : 0 ≤ s0 * th := mul_nonneg hs0 (le_of_lt hth)
  have hy : 0 ≤ H / th := div_nonneg hH (le_of_lt hth)
  have hqn := roundDouble_nonneg _ hy
  have ht1 := le_roundDouble_mul _ hx
  have ht2 := roundDouble_le_mul _ hx
  have hq := roundDouble_le_mul _ hy
  have w1 : 3 * underflowStep * roundingFactor ^ 2 * tw ≤ 1 / 2 ^ 200 :=
    le_trans (mul_le_mul_of_nonneg_left htw1
      (mul_nonneg (mul_nonneg (by norm_num) hd) (pow_nonneg ha0 2))) k1
  have w2 : 2 * underflowStep * roundingFactor * th ≤ 1 / 2 ^ 200 :=
    le_trans (mul_le_mul_of_nonneg_left hth1
      (mul_nonneg (mul_nonneg (by norm_num) hd) ha0)) k2
  by_cases hb : roundDouble (s0 * th) > H
  · rw [if_pos hb]
    have hz : 0 ≤ roundDouble (H / th) * us := mul_nonneg hqn hus0
    have hs : roundDouble (roundDouble (H / th) * us)
        ≤ roundDouble (H / th) * roundingFactor + underflowStep := by
      have h1 := roundDouble_le_mul _ hz
      have h2 : roundDouble (H / th) * us ≤ roundDouble (H / th) * 1 :=
        mul_le_mul_of_nonneg_left hus1 hqn
      have h3 := mul_le_mul_of_nonneg_right h2 ha0
      linarith
    obtain ⟨c1, c2⟩ := fit_double_height_bound roundingFactor underflowStep H tw th C s0
      (roundDouble (s0 * th)) (roundDouble (H / th)) _ ha hd htw0 hth0 hw ht2 hq hb hs
    exact ⟨roundDouble_nonneg _ hz, by linarith, by linarith⟩
  · rw [if_neg hb]
    have hz : 0 ≤ s0 * us := mul_nonneg hs0 hus0
    have hs : roundDouble (s0 * us) ≤ s0 * roundingFactor + underflowStep := by
      have h1 := roundDouble_le_mul _ hz
      have h2 : s0 * us ≤ s0 * 1 := mul_le_mul_of_nonneg_left hus1 hs0
      have h3 := mul_le_mul_of_nonneg_right h2 ha0
      linarith
    obtain ⟨c1, c2⟩ := fit_double_width_bound roundingFactor underflowStep H tw th C s0
      (roundDouble (s0 * th)) _ ha hd htw0 hth0 hC hw ht1 (not_lt.mp hb) hs
    exact ⟨roundDouble_nonneg _ hz, by linarith, by linarith⟩

/-- The candidate scale windowWidth / textureWidth computed in doubles. -/
theorem scale_start_whole (W tw : ℚ) (hW0 : 0 ≤ W) (htw0 : 1 ≤ tw) (htw1 : tw ≤ 2 ^ 31) :
    0 ≤ roundDouble (W / tw) ∧
    roundDouble (W / tw) * tw ≤ W * roundingFactor + 1 / 2 ^ 200 := by
  obtain ⟨hd, -, -, -, k⟩ := rounding_constants
  have htw : 0 < tw := by linarith
  have hx : 0 ≤ W / tw := div_nonneg hW0 (le_of_lt htw)
  refine ⟨roundDouble_nonneg _ hx, ?_⟩
  have h1 := mul_le_mul_of_nonneg_right (roundDouble_le_mul _ hx) (le_of_lt htw)
  have e : (W / tw * roundingFactor + underflowStep) * tw
      = W * roundingFactor + underflowStep * tw := by
    field_simp
  have h2 := mul_le_mul_of_nonneg_left htw1 hd
  linarith

/-- The candidate scale ((1 - relativeWidth) * windowWidth) / textureWidth computed
in doubles. -/
theorem scale_start_part (W tw rw : ℚ) (hW0 : 0 ≤ W) (hW1 : W ≤ 2 ^ 31)
    (htw0 : 1 ≤ tw) (htw1 : tw ≤ 2 ^ 31) (hrw1 : rw ≤ 1) :
    0 ≤ roundDouble (roundDouble (roundDouble (1 - rw) * W) / tw) ∧
    roundDouble (roundDouble (roundDouble (1 - rw) * W) / tw) * tw
      ≤ (1 - rw) * W * roundingFactor ^ 3 + 1 / 2 ^ 200 := by
  obtain ⟨hd, -, -, k, -⟩ := rounding_constants
  have ha := roundingFactor_ge_one
  have ha0 : 0 ≤ roundingFactor := by linarith
  have htw : 0 < tw := by linarith
  have hr : 0 ≤ 1 - rw := by linarith
  have h1n := roundDouble_nonneg _ hr
  have h1u := roundDouble_le_mul _ hr
  have h2x : 0 ≤ roundDouble (1 - rw) * W := mul_nonneg h1n hW0
  have h2n := roundDouble_nonneg _ h2x
  have h2u := roundDouble_le_mul _ h2x
  have h3x : 0 ≤ roundDouble (roundDouble (1 - rw) * W) / tw :=
    div_nonneg h2n (le_of_lt htw)
  refine ⟨roundDouble_nonneg _ h3x, ?_⟩
  have h3u := mul_le_mul_of_nonneg_right (roundDouble_le_mul _ h3x) (le_of_lt htw)
  have e3 : (roundDouble (roundDouble (1 - rw) * W) / tw * roundingFactor + underflowStep) * tw
      = roundDouble (roundDouble (1 - rw) * W) * roundingFactor + underflowStep * tw := by
    field_simp
  have g1 := mul_le_mul_of_nonneg_right h1u hW0
  have g2 := mul_le_mul_of_nonneg_right g1 (pow_nonneg ha0 2)
  have g3 := mul_le_mul_of_nonneg_right h2u ha0
  have g4 := mul_le_mul_of_nonneg_left hW1 (mul_nonneg hd (pow_nonneg ha0 2))
  have g5 := mul_le_mul_of_nonneg_left htw1 hd
  have e1 : ((1 - rw) * roundingFactor + underflowStep) * W * roundingFactor ^ 2
      = (1 - rw) * W * roundingFactor ^ 3 + underflowStep * roundingFactor ^ 2 * W := by ring
  have e2 : (roundDouble (1 - rw) * W * roundingFactor + underflowStep) * roundingFactor
      = roundDouble (1 - rw) * W * roundingFactor ^ 2 + underflowStep * roundingFactor := by
    ring
  have e4 : underflowStep * roundingFactor ^ 2 * 2 ^ 31
      = underflowStep * 2 ^ 31 * roundingFactor ^ 2 := by ring
  linarith

/-- The offset of the video panel computed in doubles in mode ALL is at least half
the map width, up to rounding. -/
theorem offset_double_bound (W rw : ℚ) (hW0 : 0 < W) (hW1 : W ≤ 2 ^ 31)
    (hrw0 : 0 ≤ rw) (hrw1 : rw ≤ 1) :
    rw * W / 2 - 1 / 2 ^ 18 ≤
      roundDouble (0 + roundDouble (roundDouble (W / 2)
        - roundDouble (roundDouble (roundDouble (1 - rw) * W) / 2))) ∧
    roundDouble (0 + roundDouble (roundDouble (W / 2)
        - roundDouble (roundDouble (roundDouble (1 - rw) * W) / 2))) ≤ 2 ^ 35 := by
  have hr : 0 ≤ 1 - rw := by linarith
  have hB : 0 ≤ rw * W := mul_nonneg hrw0 (le_of_lt hW0)
  have hR : 0 ≤ (1 - rw) * W := mul_nonneg hr (le_of_lt hW0)
  have eR : (1 - rw) * W = W - rw * W := by ring
  have p31 : (2 : ℚ) ^ 31 = 2147483648 := by norm_num
  have q18 : (1 : ℚ) / 2 ^ 18 = 1 / 262144 := by norm_num
  have p35 : (2 : ℚ) ^ 35 = 34359738368 := by norm_num
  rw [p31] at hW1
  rw [q18, p35]
  have h1n := roundDouble_nonneg (1 - rw) hr
  obtain ⟨-, ha2, -, -⟩ := roundDouble_near (1 - rw) 1 (by norm_num)
    (by linarith) (by linarith)
  norm_num at ha2
  have h2x : 0 ≤ roundDouble (1 - rw) * W := mul_nonneg h1n (le_of_lt hW0)
  have h2u : roundDouble (1 - rw) * W ≤ (1 - rw) * W + 1 / 4194304 := by
    have h := mul_le_mul_of_nonneg_right ha2 (le_of_lt hW0)
    have e : (1 - rw + 1 / 9007199254740992) * W
        = (1 - rw) * W + W / 9007199254740992 := by ring
    linarith
  have h2n := roundDouble_nonneg _ h2x
  obtain ⟨-, hb2, -, -⟩ := roundDouble_near (roundDouble (1 - rw) * W) 4294967296
    (by norm_num) (by linarith) (by linarith)
  norm_num at hb2
  have h3x : 0 ≤ roundDouble (roundDouble (1 - rw) * W) / 2 := by linarith
  have h3n := roundDouble_nonneg _ h3x
  obtain ⟨-, hc2, -, -⟩ := roundDouble_near (roundDouble (roundDouble (1 - rw) * W) / 2)
    2147483648 (by norm_num) (by linarith) (by linarith)
  norm_num at hc2
  have h4n := roundDouble_nonneg (W / 2) (by linarith)
  obtain ⟨hd1, hd2, -, -⟩ := roundDouble_near (W / 2) 2147483648 (by norm_num)
    (by linarith) (by linarith)
  norm_num at hd1 hd2
  obtain ⟨he1, he2, he3, he4⟩ := roundDouble_near
    (roundDouble (W / 2) - roundDouble (roundDouble (roundDouble (1 - rw) * W) / 2))
    4294967296 (by norm_num) (by linarith) (by linarith)
  norm_num at he1 he2 he3 he4
  obtain ⟨hf1, hf2, hf3, hf4⟩ := roundDouble_near
    (0 + roundDouble (roundDouble (W / 2)
      - roundDouble (roundDouble (roundDouble (1 - rw) * W) / 2)))
    8589934592 (by norm_num) (by linarith) (by linarith)
  norm_num at hf1 hf2 hf3 hf4
  norm_num
  constructor <;> linarith

/-- The left margin of the video panel computed in doubles is at least half the map
width, up to rounding, when the video width is within the region left to it. -/
theorem margin_double_bound (W rw vw : ℚ) (hW0 : 0 < W) (hW1 : W ≤ 2 ^ 31)
    (hrw0 : 0 ≤ rw)
    (hv0 : 0 ≤ vw) (hv : vw ≤ (1 - rw) * W + 1 / 2 ^ 18) :
    rw * W / 2 - 1 / 2 ^ 18 ≤ roundDouble (roundDouble (W - vw) / 2) ∧
    -(2 ^ 35) ≤ roundDouble (roundDouble (W - vw) / 2) ∧
    roundDouble (roundDouble (W - vw) / 2) ≤ 2 ^ 35 := by
  have hB : 0 ≤ rw * W := mul_nonneg hrw0 (le_of_lt hW0)
  have eR : (1 - rw) * W = W - rw * W := by ring
  have p31 : (2 : ℚ) ^ 31 = 2147483648 := by norm_num
  have q18 : (1 : ℚ) / 2 ^ 18 = 1 / 262144 := by norm_num
  have p35 : (2 : ℚ) ^ 35 = 34359738368 := by norm_num
  rw [p31] at hW1
  rw [q18] at hv
  rw [q18, p35]
  obtain ⟨hd1, hd2, hd3, hd4⟩ := roundDouble_near (W - vw) 2147483648 (by norm_num)
    (by linarith) (by linarith)
  norm_num at hd1 hd2 hd3 hd4
  obtain ⟨hl1, hl2, hl3, hl4⟩ := roundDouble_near (roundDouble (W - vw) / 2) 2147483648
    (by norm_num) (by linarith) (by linarith)
  norm_num at hl1 hl2 hl3 hl4
  refine ⟨?_, ?_, ?_⟩ <;> linarith

/-- The width of the video panel computed in doubles, from the bound on the exact
product of the scale and the texture width. -/
theorem width_double_bound (R p : ℚ) (hR1 : R ≤ 2 ^ 31) (hp0 : 0 ≤ p)
    (hp : p ≤ (R * roundingFactor ^ 3 + 1 / 2 ^ 200) * roundingFactor ^ 3 + 1 / 2 ^ 200) :
    0 ≤ roundDouble p ∧ roundDouble p ≤ R + 1 / 2 ^ 18 := by
  have ha := roundingFactor_ge_one
  have k6 : (2 : ℚ) ^ 31 * (roundingFactor ^ 6 - 1)
      + 1 / 2 ^ 200 * roundingFactor ^ 3 + 1 / 2 ^ 200 ≤ 1 / 2 ^ 19 := by
    unfold roundingFactor; norm_num
  have k6n : 0 ≤ roundingFactor ^ 6 - 1 := by
    have : (1 : ℚ) ≤ roundingFactor ^ 6 := one_le_pow₀ ha
    linarith
  have e1 := mul_le_mul_of_nonneg_right hR1 k6n
  have e2 : (R * roundingFactor ^ 3 + 1 / 2 ^ 200) * roundingFactor ^ 3 + 1 / 2 ^ 200
      = R + R * (roundingFactor ^ 6 - 1) + 1 / 2 ^ 200 * roundingFactor ^ 3 + 1 / 2 ^ 200 := by
    ring
  have hp2 : p ≤ R + 1 / 2 ^ 19 := by linarith
  refine ⟨roundDouble_nonneg p hp0, ?_⟩
  have p31 : (2 : ℚ) ^ 31 = 2147483648 := by norm_num
  have q19 : (1 : ℚ) / 2 ^ 19 = 1 / 524288 := by norm_num
  have q18 : (1 : ℚ) / 2 ^ 18 = 1 / 262144 := by norm_num
  rw [p31] at hR1
  rw [q19] at hp2
  rw [q18]
  obtain ⟨-, h2, -, -⟩ := roundDouble_near p 4294967296 (by norm_num)
    (by linarith) (by linarith)
  norm_num at h2
  linarith

/-- Four further roundings, as in the sum that gives the left edge of the scissor
rectangle, move a value by less than 2^-12. -/
theorem edge_sum_double_bound (lm off : ℚ)
    (hl1 : -(2 ^ 35) ≤ lm) (hl2 : lm ≤ 2 ^ 35) (ho1 : -(2 ^ 35) ≤ off) (ho2 : off ≤ 2 ^ 35) :
    lm + off + 1 / 2 - 1 / 2 ^ 12 ≤
      roundDouble (roundDouble (roundDouble (roundDouble (lm + off) + 0) + 0) + 1 / 2) := by
  have p35 : (2 : ℚ) ^ 35 = 34359738368 := by norm_num
  have q12 : (1 : ℚ) / 2 ^ 12 = 1 / 4096 := by norm_num
  rw [p35] at hl1 hl2 ho1 ho2
  rw [q12]
  simp only [add_zero]
  obtain ⟨hx1, hx2, hx3, hx4⟩ := roundDouble_near (lm + off) 68719476736
    (by norm_num) (by linarith) (by linarith)
  norm_num at hx1 hx2 hx3 hx4
  obtain ⟨hy1, hy2, hy3, hy4⟩ := roundDouble_near (roundDouble (lm + off)) 137438953472
    (by norm_num) (by linarith) (by linarith)
  norm_num at hy1 hy2 hy3 hy4
  obtain ⟨hz1, hz2, hz3, hz4⟩ := roundDouble_near
    (roundDouble (roundDouble (lm + off))) 274877906944
    (by norm_num) (by linarith) (by linarith)
  norm_num at hz1 hz2 hz3 hz4
  obtain ⟨hw1, hw2, hw3, hw4⟩ := roundDouble_near
    (roundDouble (roundDouble (roundDouble (lm + off))) + 1 / 2) 1099511627776
    (by norm_num) (by linarith) (by linarith)
  norm_num at hw1 hw2 hw3 hw4
  linarith

/-- The argument of the truncation that gives the map border, computed in doubles,
is non-negative and at most the exact value plus 2^-19. -/
theorem border_double_bound (W rw : ℚ) (hW0 : 0 < W) (hW1 : W ≤ 2 ^ 31)
    (hrw0 : 0 ≤ rw) (hrw1 : rw ≤ 1) :
    0 ≤ roundDouble (roundDouble (rw * W) + 1 / 2) ∧
    roundDouble (roundDouble (rw * W) + 1 / 2) ≤ rw * W + 1 / 2 + 1 / 2 ^ 19 := by
  have hB : 0 ≤ rw * W := mul_nonneg hrw0 (le_of_lt hW0)
  have hBW : rw * W ≤ W := by nlinarith
  have hg1n := roundDouble_nonneg (rw * W) hB
  have hg3n := roundDouble_nonneg (roundDouble (rw * W) + 1 / 2) (by linarith)
  have p31 : (2 : ℚ) ^ 31 = 2147483648 := by norm_num
  have q19 : (1 : ℚ) / 2 ^ 19 = 1 / 524288 := by norm_num
  rw [p31] at hW1
  rw [q19]
  obtain ⟨hg1, hg2, hg3, hg4⟩ := roundDouble_near (rw * W) 2147483648
    (by norm_num) (by linarith) (by linarith)
  norm_num at hg1 hg2 hg3 hg4
  obtain ⟨hh1, hh2, hh3, hh4⟩ := roundDouble_near (roundDouble (rw * W) + 1 / 2) 8589934592
    (by norm_num) (by linarith) (by linarith)
  norm_num at hh1 hh2 hh3 hh4
  exact ⟨hg3n, by linarith⟩

/-! ## The panel geometry without rounding -/

/-- Without rounding, the rounded scale of the video panel is the scale stored by
renderVideoPanel. -/
theorem videoScaleRounded_id (stab : Stabilizer) (trig : Trig) (r : Renderer) :
    videoScaleRounded id r = (renderVideoPanel stab trig r).videoPanel.scale := by
  rw [renderVideoPanel_scale]
  simp only [videoScaleRounded, id_eq]

/-- Without rounding, the rounded scale of the map panel is the scale stored by
renderMapPanel. -/
theorem mapScaleRounded_id (trig : Trig) (r : Renderer) :
    mapScaleRounded id r = (renderMapPanel trig r).mapPanel.scale := by
  rw [renderMapPanel_scale]
  simp only [mapScaleRounded, id_eq]

/-- Without rounding, the rounded offset is the offset used by renderVideoPanel. -/
theorem videoOffsetXRounded_id (r : Renderer) :
    videoOffsetXRounded id r = videoOffsetX r := by
  simp only [videoOffsetXRounded, videoOffsetX, id_eq]

/-- Without rounding, the left edge of the video scissor rectangle and the map border
are the values that the video pass and the map pass above hand to glScissor. -/
theorem scissor_edges_id (stab : Stabilizer) (trig : Trig) (r : Renderer) :
    videoScissorXRounded id r =
      truncToInt ((r.windowWidth
          - (renderVideoPanel stab trig r).videoPanel.scale * r.videoPanel.textureWidth) / 2
        + videoOffsetX r + r.videoPanel.x + r.videoPanel.userX + 1 / 2) ∧
    mapBorderXRounded id r
      = truncToInt (r.mapPanel.relativeWidth * r.windowWidth + 1 / 2) := by
  rw [← videoScaleRounded_id stab trig r, ← videoOffsetXRounded_id r]
  simp only [videoScissorXRounded, mapBorderXRounded, id_eq, and_self]

/-! ## The fitted scale in doubles -/

/-- The scale of the video panel computed in doubles is non-negative, and its
products with the texture sizes are bounded by the region available to the panel
(the window, or in the modes with a map the part of the window not reserved for
it) and by the window height, up to rounding. -/
theorem videoScaleRounded_bound (r : Renderer)
    (hW0 : 1 ≤ r.windowWidth) (hW1 : r.windowWidth ≤ 2 ^ 31) (hH0 : 1 ≤ r.windowHeight)
    (htw0 : 1 ≤ r.videoPanel.textureWidth) (htw1 : r.videoPanel.textureWidth ≤ 2 ^ 31)
    (hth0 : 1 ≤ r.videoPanel.textureHeight) (hth1 : r.videoPanel.textureHeight ≤ 2 ^ 31)
    (hrw1 : r.mapPanel.relativeWidth ≤ 1)
    (hus0 : 0 ≤ r.videoPanel.userScale) (hus1 : r.videoPanel.userScale ≤ 1) :
    0 ≤ videoScaleRounded roundDouble r ∧
    videoScaleRounded roundDouble r * r.videoPanel.textureWidth
      ≤ ((if r.renderMode ≠ RenderMode.VIDEO then
            (1 - r.mapPanel.relativeWidth) * r.windowWidth else r.windowWidth)
          * roundingFactor ^ 3 + 1 / 2 ^ 200) * roundingFactor ^ 3 + 1 / 2 ^ 200 ∧
    videoScaleRounded roundDouble r * r.videoPanel.textureHeight
      ≤ r.windowHeight * roundingFactor ^ 2 + 1 / 2 ^ 200 := by
  have ha := roundingFactor_ge_one
  have ha0 : 0 ≤ roundingFactor := by linarith
  have hW : 0 ≤ r.windowWidth := by linarith
  have hH : 0 ≤ r.windowHeight := by linarith
  have htw : 0 ≤ r.videoPanel.textureWidth := by linarith
  simp only [videoScaleRounded]
  by_cases hm : r.renderMode ≠ RenderMode.VIDEO
  · simp only [if_pos hm]
    obtain ⟨s1, s2⟩ := scale_start_part r.windowWidth r.videoPanel.textureWidth
      r.mapPanel.relativeWidth hW hW1 htw0 htw1 hrw1
    have hC : 0 ≤ (1 - r.mapPanel.relativeWidth) * r.windowWidth * roundingFactor ^ 3
        + 1 / 2 ^ 200 := by
      have h1 : 0 ≤ (1 - r.mapPanel.relativeWidth) * r.windowWidth :=
        mul_nonneg (by linarith) hW
      have h2 := mul_nonneg h1 (pow_nonneg ha0 3)
      have h3 : (0 : ℚ) ≤ 1 / 2 ^ 200 := by positivity
      linarith
    exact fit_scale_double r.windowHeight r.videoPanel.textureWidth
      r.videoPanel.textureHeight r.videoPanel.userScale _ _ htw htw1 hth0 hth1 hH hus0 hus1
      s1 hC s2
  · simp only [if_neg hm]
    obtain ⟨s1, s2⟩ := scale_start_whole r.windowWidth r.videoPanel.textureWidth
      hW htw0 htw1
    have ha3 : roundingFactor ≤ roundingFactor ^ 3 := by
      have h := mul_le_mul_of_nonneg_left (one_le_pow₀ ha : (1 : ℚ) ≤ roundingFactor ^ 2) ha0
      have e : roundingFactor * roundingFactor ^ 2 = roundingFactor ^ 3 := by ring
      linarith
    have h3 := mul_le_mul_of_nonneg_left ha3 hW
    have hC : 0 ≤ r.windowWidth * roundingFactor ^ 3 + 1 / 2 ^ 200 := by
      have h2 := mul_nonneg hW (pow_nonneg ha0 3)
      have h3 : (0 : ℚ) ≤ 1 / 2 ^ 200 := by positivity
      linarith
    exact fit_scale_double r.windowHeight r.videoPanel.textureWidth
      r.videoPanel.textureHeight r.videoPanel.userScale _ _ htw htw1 hth0 hth1 hH hus0 hus1
      s1 hC (by linarith)

/-- The scale of the map panel computed in doubles is non-negative, and its products
with the texture sizes are bounded by the window sizes, up to rounding. -/
theorem mapScaleRounded_bound (r : Renderer)
    (hW0 : 1 ≤ r.windowWidth) (hH0 : 1 ≤ r.windowHeight)
    (htw0 : 1 ≤ r.mapPanel.textureWidth) (htw1 : r.mapPanel.textureWidth ≤ 2 ^ 31)
    (hth0 : 1 ≤ r.mapPanel.textureHeight) (hth1 : r.mapPanel.textureHeight ≤ 2 ^ 31)
    (hus0 : 0 ≤ r.mapPanel.userScale) (hus1 : r.mapPanel.userScale ≤ 1) :
    0 ≤ mapScaleRounded roundDouble r ∧
    mapScaleRounded roundDouble r * r.mapPanel.textureWidth
      ≤ (r.windowWidth * roundingFactor ^ 3 + 1 / 2 ^ 200) * roundingFactor ^ 3
        + 1 / 2 ^ 200 ∧
    mapScaleRounded roundDouble r * r.mapPanel.textureHeight
      ≤ r.windowHeight * roundingFactor ^ 2 + 1 / 2 ^ 200 := by
  have ha := roundingFactor_ge_one
  have ha0 : 0 ≤ roundingFactor := by linarith
  have hW : 0 ≤ r.windowWidth := by linarith
  have hH : 0 ≤ r.windowHeight := by linarith
  have htw : 0 ≤ r.mapPanel.textureWidth := by linarith
  simp only [mapScaleRounded]
  obtain ⟨s1, s2⟩ := scale_start_whole r.windowWidth r.mapPanel.textureWidth
    hW htw0 htw1
  have ha3 : roundingFactor ≤ roundingFactor ^ 3 := by
    have h := mul_le_mul_of_nonneg_left (one_le_pow₀ ha : (1 : ℚ) ≤ roundingFactor ^ 2) ha0
    have e : roundingFactor * roundingFactor ^ 2 = roundingFactor ^ 3 := by ring
    linarith
  have h3 := mul_le_mul_of_nonneg_left ha3 hW
  have hC : 0 ≤ r.windowWidth * roundingFactor ^ 3 + 1 / 2 ^ 200 := by
    have h2 := mul_nonneg hW (pow_nonneg ha0 3)
    have h3 : (0 : ℚ) ≤ 1 / 2 ^ 200 := by positivity
    linarith
  exact fit_scale_double r.windowHeight r.mapPanel.textureWidth
    r.mapPanel.textureHeight r.mapPanel.userScale _ _ htw htw1 hth0 hth1 hH hus0 hus1
    s1 hC (by linarith)

/-- A product bounded as the scaled sizes are exceeds the size X it is fitted to by
at most the fraction 2^-50 of X, before and after it is rounded. -/
theorem tolerance_bound (X p : ℚ) (hX : 1 ≤ X) (hp0 : 0 ≤ p)
    (hp : p ≤ (X * roundingFactor ^ 3 + 1 / 2 ^ 200) * roundingFactor ^ 3 + 1 / 2 ^ 200) :
    p ≤ X * (1 + 1 / 2 ^ 50) ∧ roundDouble p ≤ X * (1 + 1 / 2 ^ 50) := by
  have ha := roundingFactor_ge_one
  have ha0 : 0 ≤ roundingFactor := by linarith
  have k : roundingFactor ^ 7 + (1 / 2 ^ 200 * roundingFactor ^ 3 + 1 / 2 ^ 200)
      * roundingFactor + underflowStep ≤ 1 + 1 / 2 ^ 50 := by
    unfold roundingFactor underflowStep; norm_num
  have hd := underflowStep_pos
  have h1 := roundDouble_le_mul p hp0
  have h2 := mul_le_mul_of_nonneg_right hp ha0
  have e1 : ((X * roundingFactor ^ 3 + 1 / 2 ^ 200) * roundingFactor ^ 3 + 1 / 2 ^ 200)
      * roundingFactor
      = X * roundingFactor ^ 7
        + (1 / 2 ^ 200 * roundingFactor ^ 3 + 1 / 2 ^ 200) * roundingFactor := by ring
  have hr : roundDouble p ≤ X * roundingFactor ^ 7
      + (1 / 2 ^ 200 * roundingFactor ^ 3 + 1 / 2 ^ 200) * roundingFactor
      + underflowStep := by linarith
  have hpr : p ≤ p * roundingFactor + underflowStep := by
    have := mul_le_mul_of_nonneg_left ha hp0
    linarith
  have hrest : 0 ≤ (1 / 2 ^ 200 * roundingFactor ^ 3 + 1 / 2 ^ 200) * roundingFactor
      + underflowStep := by positivity
  have h3 := mul_le_mul_of_nonneg_right hX hrest
  have h4 := mul_le_mul_of_nonneg_left k (by linarith : (0 : ℚ) ≤ X)
  have e2 : X * (roundingFactor ^ 7 + (1 / 2 ^ 200 * roundingFactor ^ 3 + 1 / 2 ^ 200)
      * roundingFactor + underflowStep)
      = X * roundingFactor ^ 7
        + X * ((1 / 2 ^ 200 * roundingFactor ^ 3 + 1 / 2 ^ 200) * roundingFactor
          + underflowStep) := by ring
  constructor <;> linarith

/-! ## Auto-fit in doubles -/

/-- Both scales of the tight-fit renderer computed in doubles: the quotient 720/2704
is rounded up to 1199183332731789/2^52, the height test compares
7120151038094997/2^44 (about 404.73) with 480 and keeps the quotient, and the
multiplication by the user scale 1 is exact. -/
theorem tightFitRenderer_scales :
    videoScaleRounded roundDouble tightFitRenderer = 1199183332731789 / 4503599627370496 ∧
    mapScaleRounded roundDouble tightFitRenderer = 1199183332731789 / 4503599627370496 := by
  have c1 : roundDouble (720 / 2704)
      = 1199183332731789 / 4503599627370496 := by
    rw [roundDouble_eq (720 / 2704)
      (-2) 4796733330927156
      (by norm_num) (by norm_num) (by norm_num) (by norm_num)
      (by rw [abs_lt]; constructor <;> norm_num)]
    norm_num
  have c2 : roundDouble (1199183332731789 / 4503599627370496 * 1520)
      = 7120151038094997 / 17592186044416 := by
    rw [roundDouble_eq (1199183332731789 / 4503599627370496 * 1520)
      8 7120151038094997
      (by norm_num) (by norm_num) (by norm_num) (by norm_num)
      (by rw [abs_lt]; constructor <;> norm_num)]
    norm_num
  have c3 : roundDouble (1199183332731789 / 4503599627370496 * 1)
      = 1199183332731789 / 4503599627370496 := by
    rw [roundDouble_eq (1199183332731789 / 4503599627370496 * 1)
      (-2) 4796733330927156
      (by norm_num) (by norm_num) (by norm_num) (by norm_num)
      (by rw [abs_lt]; constructor <;> norm_num)]
    norm_num
  constructor
  · simp only [videoScaleRounded, tightFitRenderer, sampleRenderer, samplePanel, ne_eq,
      not_true_eq_false, if_false]
    rw [c1, c2, if_neg (by norm_num), c3]
  · simp only [mapScaleRounded, tightFitRenderer, sampleRenderer, samplePanel]
    rw [c1, c2, if_neg (by norm_num), c3]

/-- The product of the scale of the tight-fit renderer and the texture width 2704,
rounded to a double: 6333186975989761/2^43, the double next above 720. -/
theorem tightFitRenderer_width :
    roundDouble (1199183332731789 / 4503599627370496 * 2704)
      = 6333186975989761 / 8796093022208 := by
  have c4 : roundDouble (1199183332731789 / 4503599627370496 * 2704)
      = 6333186975989761 / 8796093022208 := by
    rw [roundDouble_eq (1199183332731789 / 4503599627370496 * 2704)
      9 6333186975989761
      (by norm_num) (by norm_num) (by norm_num) (by norm_num)
      (by rw [abs_lt]; constructor <;> norm_num)]
    norm_num
  exact c4

/-- C2 counterexample: in mode VIDEO with a 720x480 window, 2704x1520 textures and
userScale = 1, the scale computed in doubles by renderVideoPanel and by
renderMapPanel is 1199183332731789/2^52, slightly more than 720/2704. Its product
with the texture width exceeds the window width 720, both as an exact product and
as the product computed in doubles, which is 6333186975989761/2^43, printed
720.0000000000001. -/
theorem autofit_double_exceeds_window :
    tightFitRenderer.renderMode = RenderMode.VIDEO ∧
    (tightFitRenderer.windowWidth = 720 ∧ tightFitRenderer.windowHeight = 480) ∧
    (tightFitRenderer.videoPanel.textureWidth = 2704 ∧
      tightFitRenderer.videoPanel.textureHeight = 1520 ∧
      tightFitRenderer.mapPanel.textureWidth = 2704 ∧
      tightFitRenderer.mapPanel.textureHeight = 1520) ∧
    tightFitRenderer.mapPanel.relativeWidth = 1 / 4 ∧
    tightFitRenderer.videoPanel.userScale = 1 ∧ tightFitRenderer.mapPanel.userScale = 1 ∧
    (tightFitRenderer.windowWidth
        < videoScaleRounded roundDouble tightFitRenderer
          * tightFitRenderer.videoPanel.textureWidth ∧
      tightFitRenderer.windowWidth
        < roundDouble (videoScaleRounded roundDouble tightFitRenderer
          * tightFitRenderer.videoPanel.textureWidth) ∧
      roundDouble (videoScaleRounded roundDouble tightFitRenderer
          * tightFitRenderer.videoPanel.textureWidth) = 6333186975989761 / 8796093022208) ∧
    (tightFitRenderer.windowWidth
        < mapScaleRounded roundDouble tightFitRenderer
          * tightFitRenderer.mapPanel.textureWidth ∧
      tightFitRenderer.windowWidth
        < roundDouble (mapScaleRounded roundDouble tightFitRenderer
          * tightFitRenderer.mapPanel.textureWidth)) := by
  have hw : tightFitRenderer.windowWidth = 720 := rfl
  have hv : tightFitRenderer.videoPanel.textureWidth = 2704 := rfl
  have hm : tightFitRenderer.mapPanel.textureWidth = 2704 := rfl
  rw [tightFitRenderer_scales.1, tightFitRenderer_scales.2, hw, hv, hm,
    tightFitRenderer_width]
  refine ⟨rfl, ⟨rfl, rfl⟩, ⟨rfl, rfl, rfl, rfl⟩, rfl, rfl, rfl, ⟨?_, ?_, rfl⟩, ?_, ?_⟩ <;>
    norm_num

/-- C2 (amended): for a window width and texture sizes between 1 and 2^31, a window
height of at least 1, relativeWidth in [0,1] and any render mode, with userScale = 1
the scale computed in doubles by renderVideoPanel and the scale computed in doubles
by renderMapPanel keep the scaled texture within the window in both dimensions up
to the fraction 2^-50 of the window size: scale*textureWidth is at most
windowWidth*(1 + 2^-50) and scale*textureHeight is at most windowHeight*(1 + 2^-50),
for the exact products and for the products computed in doubles. -/
theorem autofit_double_within_tolerance (r : Renderer)
    (hW0 : 1 ≤ r.windowWidth) (hW1 : r.windowWidth ≤ 2 ^ 31) (hH0 : 1 ≤ r.windowHeight)
    (hvw0 : 1 ≤ r.videoPanel.textureWidth) (hvw1 : r.videoPanel.textureWidth ≤ 2 ^ 31)
    (hvh0 : 1 ≤ r.videoPanel.textureHeight) (hvh1 : r.videoPanel.textureHeight ≤ 2 ^ 31)
    (hmw0 : 1 ≤ r.mapPanel.textureWidth) (hmw1 : r.mapPanel.textureWidth ≤ 2 ^ 31)
    (hmh0 : 1 ≤ r.mapPanel.textureHeight) (hmh1 : r.mapPanel.textureHeight ≤ 2 ^ 31)
    (hrw0 : 0 ≤ r.mapPanel.relativeWidth) (hrw1 : r.mapPanel.relativeWidth ≤ 1)
    (hvu : r.videoPanel.userScale = 1) (hmu : r.mapPanel.userScale = 1) :
    ((videoScaleRounded roundDouble r * r.videoPanel.textureWidth
          ≤ r.windowWidth * (1 + 1 / 2 ^ 50) ∧
        roundDouble (videoScaleRounded roundDouble r * r.videoPanel.textureWidth)
          ≤ r.windowWidth * (1 + 1 / 2 ^ 50)) ∧
      (videoScaleRounded roundDouble r * r.videoPanel.textureHeight
          ≤ r.windowHeight * (1 + 1 / 2 ^ 50) ∧
        roundDouble (videoScaleRounded roundDouble r * r.videoPanel.textureHeight)
          ≤ r.windowHeight * (1 + 1 / 2 ^ 50))) ∧
    ((mapScaleRounded roundDouble r * r.mapPanel.textureWidth
          ≤ r.windowWidth * (1 + 1 / 2 ^ 50) ∧
        roundDouble (mapScaleRounded roundDouble r * r.mapPanel.textureWidth)
          ≤ r.windowWidth * (1 + 1 / 2 ^ 50)) ∧
      (mapScaleRounded roundDouble r * r.mapPanel.textureHeight
          ≤ r.windowHeight * (1 + 1 / 2 ^ 50) ∧
        roundDouble (mapScaleRounded roundDouble r * r.mapPanel.textureHeight)
          ≤ r.windowHeight * (1 + 1 / 2 ^ 50))) := by
  have ha := roundingFactor_ge_one
  have ha0 : 0 ≤ roundingFactor := by linarith
  have ha3 : (0 : ℚ) ≤ roundingFactor ^ 3 := pow_nonneg ha0 3
  have hW : 0 ≤ r.windowWidth := by linarith
  have hH : 0 ≤ r.windowHeight := by linarith
  obtain ⟨v0, v1, v2⟩ := videoScaleRounded_bound r hW0 hW1 hH0 hvw0 hvw1 hvh0 hvh1 hrw1
    (by rw [hvu]; norm_num) (by rw [hvu])
  obtain ⟨m0, m1, m2⟩ := mapScaleRounded_bound r hW0 hH0 hmw0 hmw1 hmh0 hmh1
    (by rw [hmu]; norm_num) (by rw [hmu])
  have hregion : (if r.renderMode ≠ RenderMode.VIDEO then
      (1 - r.mapPanel.relativeWidth) * r.windowWidth else r.windowWidth) ≤ r.windowWidth := by
    split_ifs
    · have := mul_nonneg hrw0 hW
      linarith
    · exact le_refl _
  have hstep : ∀ X Y : ℚ, X ≤ Y →
      (X * roundingFactor ^ 3 + 1 / 2 ^ 200) * roundingFactor ^ 3 + 1 / 2 ^ 200
        ≤ (Y * roundingFactor ^ 3 + 1 / 2 ^ 200) * roundingFactor ^ 3 + 1 / 2 ^ 200 := by
    intro X Y hXY
    have h1 := mul_le_mul_of_nonneg_right hXY ha3
    have h2 := mul_le_mul_of_nonneg_right
      (by linarith : X * roundingFactor ^ 3 + 1 / 2 ^ 200
        ≤ Y * roundingFactor ^ 3 + 1 / 2 ^ 200) ha3
    linarith
  have hheight : r.windowHeight * roundingFactor ^ 2 + 1 / 2 ^ 200
      ≤ (r.windowHeight * roundingFactor ^ 3 + 1 / 2 ^ 200) * roundingFactor ^ 3
        + 1 / 2 ^ 200 := by
    have h1 : roundingFactor ^ 2 ≤ roundingFactor ^ 6 :=
      pow_le_pow_right₀ ha (by norm_num)
    have h2 := mul_le_mul_of_nonneg_left h1 hH
    have h3 : (0 : ℚ) ≤ 1 / 2 ^ 200 * roundingFactor ^ 3 := by positivity
    have e : (r.windowHeight * roundingFactor ^ 3 + 1 / 2 ^ 200) * roundingFactor ^ 3
        = r.windowHeight * roundingFactor ^ 6 + 1 / 2 ^ 200 * roundingFactor ^ 3 := by ring
    linarith
  exact ⟨⟨tolerance_bound _ _ hW0 (mul_nonneg v0 (by linarith))
        (le_trans v1 (hstep _ _ hregion)),
      tolerance_bound _ _ hH0 (mul_nonneg v0 (by linarith)) (le_trans v2 hheight)⟩,
    ⟨tolerance_bound _ _ hW0 (mul_nonneg m0 (by linarith)) m1,
      tolerance_bound _ _ hH0 (mul_nonneg m0 (by linarith)) (le_trans m2 hheight)⟩⟩

/-- C2 witness: the tight-fit renderer (mode VIDEO, 720x480 window, 2704x1520
textures, user scale 1) meets every hypothesis, and its scaled sizes stay within
the window sizes enlarged by the fraction 2^-50. -/
theorem autofit_double_within_tolerance_witness :
    videoScaleRounded roundDouble tightFitRenderer * 2704 ≤ 720 * (1 + 1 / 2 ^ 50) ∧
    roundDouble (videoScaleRounded roundDouble tightFitRenderer * 2704)
      ≤ 720 * (1 + 1 / 2 ^ 50) ∧
    videoScaleRounded roundDouble tightFitRenderer * 1520 ≤ 480 * (1 + 1 / 2 ^ 50) ∧
    mapScaleRounded roundDouble tightFitRenderer * 2704 ≤ 720 * (1 + 1 / 2 ^ 50) ∧
    mapScaleRounded roundDouble tightFitRenderer * 1520 ≤ 480 * (1 + 1 / 2 ^ 50) :=
  have h := autofit_double_within_tolerance tightFitRenderer
    (by norm_num [tightFitRenderer, sampleRenderer])
    (by norm_num [tightFitRenderer, sampleRenderer])
    (by norm_num [tightFitRenderer, sampleRenderer])
    (by norm_num [tightFitRenderer, sampleRenderer, samplePanel])
    (by norm_num [tightFitRenderer, sampleRenderer, samplePanel])
    (by norm_num [tightFitRenderer, sampleRenderer, samplePanel])
    (by norm_num [tightFitRenderer, sampleRenderer, samplePanel])
    (by norm_num [tightFitRenderer, sampleRenderer, samplePanel])
    (by norm_num [tightFitRenderer, sampleRenderer, samplePanel])
    (by norm_num [tightFitRenderer, sampleRenderer, samplePanel])
    (by norm_num [tightFitRenderer, sampleRenderer, samplePanel])
    (by norm_num [tightFitRenderer, sampleRenderer, samplePanel])
    (by norm_num [tightFitRenderer, sampleRenderer, samplePanel])
    rfl rfl
  ⟨h.1.1.1, h.1.1.2, h.1.2.1, h.2.1.1, h.2.2.1⟩

/-! ## The scissor rectangles in doubles -/

/-- The scale of the video panel of the overlap renderer computed in doubles:
0.75 * 1298 = 973.5 is exact, the quotient 973.5/1920 is rounded down to
2283465748565197/2^52, the height test keeps it, and the multiplication by the user
scale 1 is exact. -/
theorem overlapRenderer_scale :
    videoScaleRounded roundDouble overlapRenderer = 2283465748565197 / 4503599627370496 := by
  have c1 : roundDouble (1 - 1 / 4)
      = 3 / 4 := by
    rw [roundDouble_eq (1 - 1 / 4)
      (-1) 6755399441055744
      (by norm_num) (by norm_num) (by norm_num) (by norm_num)
      (by rw [abs_lt]; constructor <;> norm_num)]
    norm_num
  have c2 : roundDouble (3 / 4 * 1298)
      = 1947 / 2 := by
    rw [roundDouble_eq (3 / 4 * 1298)
      9 8562996557119488
      (by norm_num) (by norm_num) (by norm_num) (by norm_num)
      (by rw [abs_lt]; constructor <;> norm_num)]
    norm_num
  have c3 : roundDouble (1947 / 2 / 1920)
      = 2283465748565197 / 4503599627370496 := by
    rw [roundDouble_eq (1947 / 2 / 1920)
      (-1) 4566931497130394
      (by norm_num) (by norm_num) (by norm_num) (by norm_num)
      (by rw [abs_lt]; constructor <;> norm_num)]
    norm_num
  have c4 : roundDouble (2283465748565197 / 4503599627370496 * 1080)
      = 17523 / 32 := by
    rw [roundDouble_eq (2283465748565197 / 4503599627370496 * 1080)
      9 4816685563379712
      (by norm_num) (by norm_num) (by norm_num) (by norm_num)
      (by rw [abs_lt]; constructor <;> norm_num)]
    norm_num
  have c5 : roundDouble (2283465748565197 / 4503599627370496 * 1)
      = 2283465748565197 / 4503599627370496 := by
    rw [roundDouble_eq (2283465748565197 / 4503599627370496 * 1)
      (-1) 4566931497130394
      (by norm_num) (by norm_num) (by norm_num) (by norm_num)
      (by rw [abs_lt]; constructor <;> norm_num)]
    norm_num
  simp only [videoScaleRounded, overlapRenderer, sampleRenderer, samplePanel, ne_eq,
    reduceCtorEq, not_false_eq_true, if_true]
  rw [c1, c2, c3, c4, if_neg (by norm_num), c5]

/-- The offset of the video panel of the overlap renderer computed in doubles is
649 - 486.75 = 162.25, every step being exact. -/
theorem overlapRenderer_offset :
    videoOffsetXRounded roundDouble overlapRenderer = 649 / 4 := by
  have c1 : roundDouble (1 - 1 / 4)
      = 3 / 4 := by
    rw [roundDouble_eq (1 - 1 / 4)
      (-1) 6755399441055744
      (by norm_num) (by norm_num) (by norm_num) (by norm_num)
      (by rw [abs_lt]; constructor <;> norm_num)]
    norm_num
  have c2 : roundDouble (3 / 4 * 1298)
      = 1947 / 2 := by
    rw [roundDouble_eq (3 / 4 * 1298)
      9 8562996557119488
      (by norm_num) (by norm_num) (by norm_num) (by norm_num)
      (by rw [abs_lt]; constructor <;> norm_num)]
    norm_num
  have c9 : roundDouble (1298 / 2)
      = 649 := by
    rw [roundDouble_eq (1298 / 2)
      9 5708664371412992
      (by norm_num) (by norm_num) (by norm_num) (by norm_num)
      (by rw [abs_lt]; constructor <;> norm_num)]
    norm_num
  have c10 : roundDouble (1947 / 2 / 2)
      = 1947 / 4 := by
    rw [roundDouble_eq (1947 / 2 / 2)
      8 8562996557119488
      (by norm_num) (by norm_num) (by norm_num) (by norm_num)
      (by rw [abs_lt]; constructor <;> norm_num)]
    norm_num
  have c11 : roundDouble (649 - 1947 / 4)
      = 649 / 4 := by
    rw [roundDouble_eq (649 - 1947 / 4)
      7 5708664371412992
      (by norm_num) (by norm_num) (by norm_num) (by norm_num)
      (by rw [abs_lt]; constructor <;> norm_num)]
    norm_num
  have c12 : roundDouble (0 + 649 / 4)
      = 649 / 4 := by
    rw [roundDouble_eq (0 + 649 / 4)
      7 5708664371412992
      (by norm_num) (by norm_num) (by norm_num) (by norm_num)
      (by rw [abs_lt]; constructor <;> norm_num)]
    norm_num
  simp only [videoOffsetXRounded, overlapRenderer, sampleRenderer, samplePanel, ne_eq,
    reduceCtorEq, not_false_eq_true, if_true]
  rw [c1, c2, c9, c10, c11, c12]

/-- C14 counterexample: in mode ALL with a 1298x730 window, a 1920x1080 video
texture, relativeWidth 1/4, video positions 0 and userScale 1, the scale computed in
doubles is rounded down, its product with the texture width 1920 is rounded up to
the double next above 973.5, the left margin becomes the double next below 162.25,
and the left edge (int)(leftMargin + videoPanelOffsetX + 0.5) of the video scissor
rectangle is (int)324.99999999999994 = 324, while the map border
(int)(0.25*1298 + 0.5) is 325: the left edge lies left of the map border. -/
theorem scissor_double_regions_overlap :
    overlapRenderer.renderMode = RenderMode.ALL ∧
    (overlapRenderer.windowWidth = 1298 ∧ overlapRenderer.windowHeight = 730) ∧
    (overlapRenderer.videoPanel.textureWidth = 1920 ∧
      overlapRenderer.videoPanel.textureHeight = 1080) ∧
    overlapRenderer.mapPanel.relativeWidth = 1 / 4 ∧
    overlapRenderer.videoPanel.x = 0 ∧ overlapRenderer.videoPanel.userX = 0 ∧
    overlapRenderer.videoPanel.userScale = 1 ∧
    videoScissorXRounded roundDouble overlapRenderer = 324 ∧
    mapBorderXRounded roundDouble overlapRenderer = 325 ∧
    videoScissorXRounded roundDouble overlapRenderer
      < mapBorderXRounded roundDouble overlapRenderer := by
  have c6 : roundDouble (2283465748565197 / 4503599627370496 * 1920)
      = 8562996557119489 / 8796093022208 := by
    rw [roundDouble_eq (2283465748565197 / 4503599627370496 * 1920)
      9 8562996557119489
      (by norm_num) (by norm_num) (by norm_num) (by norm_num)
      (by rw [abs_lt]; constructor <;> norm_num)]
    norm_num
  have c7 : roundDouble (1298 - 8562996557119489 / 8796093022208)
      = 2854332185706495 / 8796093022208 := by
    rw [roundDouble_eq (1298 - 8562996557119489 / 8796093022208)
      8 5708664371412990
      (by norm_num) (by norm_num) (by norm_num) (by norm_num)
      (by rw [abs_lt]; constructor <;> norm_num)]
    norm_num
  have c8 : roundDouble (2854332185706495 / 8796093022208 / 2)
      = 2854332185706495 / 17592186044416 := by
    rw [roundDouble_eq (2854332185706495 / 8796093022208 / 2)
      7 5708664371412990
      (by norm_num) (by norm_num) (by norm_num) (by norm_num)
      (by rw [abs_lt]; constructor <;> norm_num)]
    norm_num
  have c13 : roundDouble (2854332185706495 / 17592186044416 + 649 / 4)
      = 5708664371412991 / 17592186044416 := by
    rw [roundDouble_eq (2854332185706495 / 17592186044416 + 649 / 4)
      8 5708664371412991
      (by norm_num) (by norm_num) (by norm_num) (by norm_num)
      (by rw [abs_lt]; constructor <;> norm_num)]
    norm_num
  have c14 : roundDouble (5708664371412991 / 17592186044416 + 0)
      = 5708664371412991 / 17592186044416 := by
    rw [roundDouble_eq (5708664371412991 / 17592186044416 + 0)
      8 5708664371412991
      (by norm_num) (by norm_num) (by norm_num) (by norm_num)
      (by rw [abs_lt]; constructor <;> norm_num)]
    norm_num
  have c15 : roundDouble (5708664371412991 / 17592186044416 + 1 / 2)
      = 5717460464435199 / 17592186044416 := by
    rw [roundDouble_eq (5708664371412991 / 17592186044416 + 1 / 2)
      8 5717460464435199
      (by norm_num) (by norm_num) (by norm_num) (by norm_num)
      (by rw [abs_lt]; constructor <;> norm_num)]
    norm_num
  have c16 : roundDouble (1 / 4 * 1298)
      = 649 / 2 := by
    rw [roundDouble_eq (1 / 4 * 1298)
      8 5708664371412992
      (by norm_num) (by norm_num) (by norm_num) (by norm_num)
      (by rw [abs_lt]; constructor <;> norm_num)]
    norm_num
  have c17 : roundDouble (649 / 2 + 1 / 2)
      = 325 := by
    rw [roundDouble_eq (649 / 2 + 1 / 2)
      8 5717460464435200
      (by norm_num) (by norm_num) (by norm_num) (by norm_num)
      (by rw [abs_lt]; constructor <;> norm_num)]
    norm_num
  have hw : overlapRenderer.windowWidth = 1298 := rfl
  have htw : overlapRenderer.videoPanel.textureWidth = 1920 := rfl
  have hx : overlapRenderer.videoPanel.x = 0 := rfl
  have hux : overlapRenderer.videoPanel.userX = 0 := rfl
  have hrw : overlapRenderer.mapPanel.relativeWidth = 1 / 4 := rfl
  have hleft : videoScissorXRounded roundDouble overlapRenderer = 324 := by
    simp only [videoScissorXRounded]
    rw [overlapRenderer_scale, overlapRenderer_offset, hw, htw, hx, hux,
      c6, c7, c8, c13, c14, c14, c15]
    unfold truncToInt
    rw [if_pos (by norm_num), Int.floor_eq_iff]
    constructor <;> norm_num
  have hborder : mapBorderXRounded roundDouble overlapRenderer = 325 := by
    simp only [mapBorderXRounded]
    rw [hw, hrw, c16, c17]
    unfold truncToInt
    rw [if_pos (by norm_num), Int.floor_eq_iff]
    constructor <;> norm_num
  refine ⟨rfl, ⟨rfl, rfl⟩, ⟨rfl, rfl⟩, rfl, rfl, rfl, rfl, hleft, hborder, ?_⟩
  rw [hleft, hborder]
  norm_num

/-- The numeric part of the order of the two scissor rectangles in doubles: in mode
ALL, for sizes between 1 and 2^31, relativeWidth in [0,1], video positions 0 and a
user scale of at most 1, the left edge of the video scissor rectangle is at least
the map border minus one. -/
theorem scissor_edges_double (r : Renderer)
    (hmode : r.renderMode = RenderMode.ALL)
    (hW0 : 1 ≤ r.windowWidth) (hW1 : r.windowWidth ≤ 2 ^ 31) (hH0 : 1 ≤ r.windowHeight)
    (htw0 : 1 ≤ r.videoPanel.textureWidth) (htw1 : r.videoPanel.textureWidth ≤ 2 ^ 31)
    (hth0 : 1 ≤ r.videoPanel.textureHeight) (hth1 : r.videoPanel.textureHeight ≤ 2 ^ 31)
    (hrw0 : 0 ≤ r.mapPanel.relativeWidth) (hrw1 : r.mapPanel.relativeWidth ≤ 1)
    (hx : r.videoPanel.x = 0) (hux : r.videoPanel.userX = 0)
    (hus0 : 0 < r.videoPanel.userScale) (hus1 : r.videoPanel.userScale ≤ 1) :
    mapBorderXRounded roundDouble r - 1 ≤ videoScissorXRounded roundDouble r := by
  have hW : 0 < r.windowWidth := by linarith
  have hne : r.renderMode ≠ RenderMode.VIDEO := by
    rw [hmode]
    exact fun h => RenderMode.noConfusion h
  obtain ⟨v0, v1, -⟩ := videoScaleRounded_bound r hW0 hW1 hH0 htw0 htw1 hth0 hth1 hrw1
    (le_of_lt hus0) hus1
  rw [if_pos hne] at v1
  have hR : (1 - r.mapPanel.relativeWidth) * r.windowWidth ≤ 2 ^ 31 := by
    have := mul_nonneg hrw0 (le_of_lt hW)
    linarith
  obtain ⟨w0, w1⟩ := width_double_bound _ _ hR
    (mul_nonneg v0 (by linarith : (0 : ℚ) ≤ r.videoPanel.textureWidth)) v1
  obtain ⟨g1, g2, g3⟩ := margin_double_bound r.windowWidth r.mapPanel.relativeWidth _
    hW hW1 hrw0 w0 w1
  obtain ⟨o1, o2⟩ := offset_double_bound r.windowWidth r.mapPanel.relativeWidth
    hW hW1 hrw0 hrw1
  have hB : 0 ≤ r.mapPanel.relativeWidth * r.windowWidth := mul_nonneg hrw0 (le_of_lt hW)
  have o0 : -(2 ^ 35 : ℚ) ≤ roundDouble (0 + roundDouble (roundDouble (r.windowWidth / 2)
      - roundDouble (roundDouble (roundDouble (1 - r.mapPanel.relativeWidth)
        * r.windowWidth) / 2))) := by
    have : (0 : ℚ) ≤ 2 ^ 35 - 1 / 2 ^ 18 := by norm_num
    linarith
  have hsum := edge_sum_double_bound _ _ g2 g3 o0 o2
  obtain ⟨b0, b1⟩ := border_double_bound r.windowWidth r.mapPanel.relativeWidth
    hW hW1 hrw0 hrw1
  have q : (1 : ℚ) / 2 ^ 19 + 1 / 2 ^ 12 + 1 / 2 ^ 18 + 1 / 2 ^ 18 ≤ 1 / 2 := by norm_num
  simp only [videoScissorXRounded, mapBorderXRounded, videoOffsetXRounded, if_pos hne,
    hx, hux]
  apply truncToInt_within_one _ _ b0
  · linarith
  · linarith

/-- C14 (amended): in mode ALL, for a window width and video texture sizes between 1
and 2^31, a window height of at least 1, relativeWidth in [0,1], video base and user
X position 0 and 0 < userScale <= 1, the left edge
(int)(leftMargin + videoPanelOffsetX + 0.5) of the scissor rectangle of the video
pass, computed in doubles, is at least the map border
(int)(relativeWidth*windowWidth + 0.5), computed in doubles, minus one. In the two
passes, whose model computes without rounding, the map pass hands the map border to
glScissor as the width of its rectangle, which starts at 0, and to the divider line
as its x-coordinate, and every scissor rectangle set by the video pass starts at the
left edge. So the scissor rectangles of the two passes overlap in at most one pixel
column. -/
theorem scissor_double_overlap_at_most_one (stab : Stabilizer) (trig : Trig) (r : Renderer)
    (hmode : r.renderMode = RenderMode.ALL)
    (hW0 : 1 ≤ r.windowWidth) (hW1 : r.windowWidth ≤ 2 ^ 31) (hH0 : 1 ≤ r.windowHeight)
    (htw0 : 1 ≤ r.videoPanel.textureWidth) (htw1 : r.videoPanel.textureWidth ≤ 2 ^ 31)
    (hth0 : 1 ≤ r.videoPanel.textureHeight) (hth1 : r.videoPanel.textureHeight ≤ 2 ^ 31)
    (hrw0 : 0 ≤ r.mapPanel.relativeWidth) (hrw1 : r.mapPanel.relativeWidth ≤ 1)
    (hx : r.videoPanel.x = 0) (hux : r.videoPanel.userX = 0)
    (hus0 : 0 < r.videoPanel.userScale) (hus1 : r.videoPanel.userScale ≤ 1) :
    mapBorderXRounded roundDouble r - 1 ≤ videoScissorXRounded roundDouble r ∧
    DrawCall.scissor 0 0 (mapBorderXRounded id r) (truncToInt r.windowHeight)
      ∈ mapPassCalls trig r ∧
    DrawCall.drawLine (mapBorderXRounded id r) 0 (mapBorderXRounded id r)
      (truncToInt r.windowHeight) ∈ mapPassCalls trig r ∧
    (∀ x y w h : Int, DrawCall.scissor x y w h ∈ mapPassCalls trig r →
      x = 0 ∧ w = mapBorderXRounded id r) ∧
    (∀ x y w h : Int, DrawCall.scissor x y w h ∈ videoPassCalls stab trig r →
      x = videoScissorXRounded id r) ∧
    (r.videoPanel.clippingEnabled = true →
      ∃ x y w h : Int, DrawCall.scissor x y w h ∈ videoPassCalls stab trig r) := by
  have hexact := scissor_regions_disjoint stab trig r hmode (by linarith) (by linarith)
    (by linarith) (by linarith) hrw0 hrw1 hx hux hus0 hus1
  have e1 : videoScissorXRounded id r = truncToInt ((r.windowWidth
      - (renderVideoPanel stab trig r).videoPanel.scale * r.videoPanel.textureWidth) / 2
      + videoOffsetX r + 1 / 2) := by
    rw [(scissor_edges_id stab trig r).1, hx, hux, add_zero, add_zero]
  rw [e1, (scissor_edges_id stab trig r).2]
  exact ⟨scissor_edges_double r hmode hW0 hW1 hH0 htw0 htw1 hth0 hth1 hrw0 hrw1 hx hux
      hus0 hus1,
    hexact.2.1, hexact.2.2.1, hexact.2.2.2.1, hexact.2.2.2.2.1, hexact.2.2.2.2.2.1⟩

/-- C14 witness: the overlap renderer (mode ALL, 1298x730 window, 1920x1080 video
texture, relativeWidth 1/4, positions 0, user scale 1) meets every hypothesis, and
the left edge of its video scissor rectangle is at least its map border minus
one. -/
theorem scissor_double_overlap_at_most_one_witness :
    mapBorderXRounded roundDouble overlapRenderer - 1
      ≤ videoScissorXRounded roundDouble overlapRenderer :=
  (scissor_double_overlap_at_most_one stillStabilizer sampleTrig overlapRenderer rfl
    (by norm_num [overlapRenderer, sampleRenderer])
    (by norm_num [overlapRenderer, sampleRenderer])
    (by norm_num [overlapRenderer, sampleRenderer])
    (by norm_num [overlapRenderer, sampleRenderer, samplePanel])
    (by norm_num [overlapRenderer, sampleRenderer, samplePanel])
    (by norm_num [overlapRenderer, sampleRenderer, samplePanel])
    (by norm_num [overlapRenderer, sampleRenderer, samplePanel])
    (by norm_num [overlapRenderer, sampleRenderer, samplePanel])
    (by norm_num [overlapRenderer, sampleRenderer, samplePanel])
    rfl rfl
    (by norm_num [overlapRenderer, sampleRenderer, samplePanel])
    (by norm_num [overlapRenderer, sampleRenderer, samplePanel])).1

end OrientView
